import Mathlib

/-!
# SimpleZigBee: packet buffer, stream decoder and frame encoder

A shallow embedding of `SimpleZigBeePacket.cpp` and `SimpleZigBeeRadio.cpp`.

Conventions of the embedding.

* A C++ `int` is a mathematical `Int` (no wrap-around is modelled for `int`).
* A `uint8_t` is a `Nat`; every place where the C++ code converts a value to
  `uint8_t` (a parameter, an assignment, a return value, an arithmetic result
  stored in a `uint8_t`) reduces it modulo 256.
* The heap block behind `_ptrMemoryArray` is the list `ptrMemoryArray`; its
  length is `_memoryArrayLength`.  A store or load through the pointer at an
  index outside `0 .. _memoryArrayLength - 1` is outside the block: such a store
  is not recorded and such a load yields 0.
* The serial port is a list of pending input bytes (consumed from the front)
  and, for output, the list of bytes written in order.
-/

namespace SimpleZigBee

/-! ## Constants of `SimpleZigBeePacket.h` -/

abbrev START : Nat := 0x7e
abbrev ESCAPE : Nat := 0x7d
abbrev XON : Nat := 0x11
abbrev XOFF : Nat := 0x13

abbrev NO_ERROR : Int := 0
abbrev ERROR_REALLOCATING_MEMORY : Int := 1
abbrev UNEXPECTED_PACKET_START : Int := 2
abbrev PACKET_INCOMPLETE : Int := 3
abbrev MAX_FRAME_LENGTH_EXCEEDED : Int := 4
abbrev FRAME_LENGTH_EXCEEDED : Int := 5
abbrev CHECKSUM_FAILURE : Int := 6

abbrev FRAME_TYPE_INDEX : Int := 3

abbrev AT_COMMAND : Nat := 0x08
abbrev ZIGBEE_TRANSMIT_REQUEST : Nat := 0x10
abbrev REMOTE_AT_COMMAND : Nat := 0x17
abbrev AT_COMMAND_RESPONSE : Nat := 0x88
abbrev MODEM_STATUS : Nat := 0x8a
abbrev ZIGBEE_TX_STATUS : Nat := 0x8b
abbrev ZIGBEE_RECIEVED_PACKET : Nat := 0x90
abbrev REMOTE_AT_COMMAND_RESPONSE : Nat := 0x97

/-! ## The address value classes of `SimpleZigBeeAddress.h` -/

/-- The class `SimpleZigBeeAddress64`: the two `uint32_t` halves of a 64-bit
address. -/
structure SimpleZigBeeAddress64 where
  address64MSB : Nat
  address64LSB : Nat
deriving DecidableEq, Repr

/-- The class `SimpleZigBeeAddress16`: a `uint16_t` address. -/
structure SimpleZigBeeAddress16 where
  address16 : Nat
deriving DecidableEq, Repr

/-- The class `SimpleZigBeeAddress`: a 64-bit and a 16-bit address. -/
structure SimpleZigBeeAddress where
  address64 : SimpleZigBeeAddress64
  address16 : SimpleZigBeeAddress16
deriving DecidableEq, Repr

/-! ## `SimpleZigBeePacket` -/

/-- The private members of `SimpleZigBeePacket`.  `_memoryArrayLength` is the
length of `ptrMemoryArray`.  `reallocSucceeds` is the environment's answer to a
`realloc` request (`false`: `realloc` returns `NULL`). -/
structure SimpleZigBeePacket where
  ptrMemoryArray : List Nat
  maxFrameLength : Int
  checksum : Nat
  frameLength : Int
  errorCode : Int
  reallocSucceeds : Bool
deriving DecidableEq, Repr

namespace SimpleZigBeePacket

/-- The member `_memoryArrayLength`. -/
def memoryArrayLength (p : SimpleZigBeePacket) : Int :=
  (p.ptrMemoryArray.length : Int)

/-- The body of `init()`: clears checksum, frame length and error code. -/
def init (p : SimpleZigBeePacket) : SimpleZigBeePacket :=
  { p with checksum := 0, frameLength := 0, errorCode := NO_ERROR }

/-- The constructor `SimpleZigBeePacket(int maxFrameLength)`: a block of 20 bytes
whose contents `junk` are whatever `malloc` returned. -/
def construct (maxFrameLength : Int) (junk : List Nat) (reallocSucceeds : Bool) :
    SimpleZigBeePacket :=
  init
    { ptrMemoryArray := ((junk.map (fun b => b % 256)) ++ List.replicate 20 0).take 20
      maxFrameLength := maxFrameLength
      checksum := 0
      frameLength := 0
      errorCode := NO_ERROR
      reallocSucceeds := reallocSucceeds }

/-- The default constructor `SimpleZigBeePacket()`: maximum frame length 50. -/
def constructDefault (junk : List Nat) (reallocSucceeds : Bool) : SimpleZigBeePacket :=
  construct 50 junk reallocSucceeds

/-- The method `reset()`. -/
def reset (p : SimpleZigBeePacket) : SimpleZigBeePacket :=
  p.init

/-- The method `getMaxFrameLength()`. -/
def getMaxFrameLength (p : SimpleZigBeePacket) : Int :=
  p.maxFrameLength

/-- The method `getFrameLength()`. -/
def getFrameLength (p : SimpleZigBeePacket) : Int :=
  p.frameLength

/-- The method `setFrameLength(int)`. -/
def setFrameLength (p : SimpleZigBeePacket) (frameLength : Int) : SimpleZigBeePacket :=
  { p with frameLength := frameLength }

/-- The method `setErrorCode(int)`. -/
def setErrorCode (p : SimpleZigBeePacket) (errorCode : Int) : SimpleZigBeePacket :=
  { p with errorCode := errorCode }

/-- The method `getErrorCode()`. -/
def getErrorCode (p : SimpleZigBeePacket) : Int :=
  p.errorCode

/-- The method `isError()`: `_errorCode > 0`. -/
def isError (p : SimpleZigBeePacket) : Bool :=
  decide (p.errorCode > 0)

/-- The method `getChecksum()`. -/
def getChecksum (p : SimpleZigBeePacket) : Nat :=
  p.checksum % 256

/-- The method `setChecksum(uint8_t)`. -/
def setChecksum (p : SimpleZigBeePacket) (checksum : Nat) : SimpleZigBeePacket :=
  { p with checksum := checksum % 256 }

/-- The load `_ptrMemoryArray[index]`. -/
def load (p : SimpleZigBeePacket) (index : Int) : Nat :=
  if 0 ≤ index then (p.ptrMemoryArray.getD index.toNat 0) % 256 else 0

/-- The store `_ptrMemoryArray[index] = byte`. -/
def store (p : SimpleZigBeePacket) (index : Int) (byte : Nat) : SimpleZigBeePacket :=
  if 0 ≤ index then
    { p with ptrMemoryArray := p.ptrMemoryArray.set index.toNat (byte % 256) }
  else p

/-- The method `expandMemoryArray(int size)`.  The bytes that `realloc` appends
are indeterminate in C++; the model appends zeros. -/
def expandMemoryArray (p : SimpleZigBeePacket) (size : Int) : SimpleZigBeePacket :=
  if size > p.memoryArrayLength ∧ size ≤ p.getMaxFrameLength then
    if p.reallocSucceeds then
      { p with ptrMemoryArray :=
          p.ptrMemoryArray ++ List.replicate (size.toNat - p.ptrMemoryArray.length) 0 }
    else
      p.setErrorCode ERROR_REALLOCATING_MEMORY
  else p

/-- The method `getMemoryData(int index)`. -/
def getMemoryData (p : SimpleZigBeePacket) (index : Int) : Nat :=
  if index < p.memoryArrayLength then p.load index else 0

/-- The method `setMemoryData(int index, uint8_t byte)`. -/
def setMemoryData (p : SimpleZigBeePacket) (index : Int) (byte : Nat) : SimpleZigBeePacket :=
  if index < p.getMaxFrameLength then
    if index < p.memoryArrayLength then
      p.store index byte
    else
      (p.expandMemoryArray (index + 10)).store index byte
  else
    p.setErrorCode MAX_FRAME_LENGTH_EXCEEDED

/-- The method `getLengthMSB()`: `(getFrameLength() >> 8) & 0xff`. -/
def getLengthMSB (p : SimpleZigBeePacket) : Nat :=
  ((p.getFrameLength / 256) % 256).toNat

/-- The method `getLengthLSB()`: `getFrameLength() & 0xff`. -/
def getLengthLSB (p : SimpleZigBeePacket) : Nat :=
  (p.getFrameLength % 256).toNat

/-- The method `setFrameLengthMSB(uint8_t msb)`:
`setFrameLength( uint16_t(msb << 8) + getLengthLSB() )`. -/
def setFrameLengthMSB (p : SimpleZigBeePacket) (msb : Nat) : SimpleZigBeePacket :=
  p.setFrameLength ((((msb % 256) * 256 % 65536 + p.getLengthLSB : Nat) : Int))

/-- The method `setFrameLengthLSB(uint8_t lsb)`:
`setFrameLength( uint16_t(getLengthMSB() << 8) + lsb )`. -/
def setFrameLengthLSB (p : SimpleZigBeePacket) (lsb : Nat) : SimpleZigBeePacket :=
  p.setFrameLength (((p.getLengthMSB * 256 % 65536 + lsb % 256 : Nat) : Int))

/-- The method `setFrameData(int index, uint8_t byte)`. -/
def setFrameData (p : SimpleZigBeePacket) (index : Int) (byte : Nat) : SimpleZigBeePacket :=
  if index < p.getMaxFrameLength then
    let p1 := p.setMemoryData index byte
    if index + 1 > p1.getFrameLength then p1.setFrameLength (index + 1) else p1
  else
    p.setErrorCode MAX_FRAME_LENGTH_EXCEEDED

/-- The loop `for(int i=0;i<frameDataLength;i++) setMemoryData(startIndex+i, frameData[i])`
of the array form of `setFrameData`, started at loop counter `i`; `frameData`
holds the elements `frameData[i], frameData[i+1], ...` still to be stored. -/
def setFrameDataLoop (p : SimpleZigBeePacket) (startIndex : Int) (i : Int) :
    List Nat → SimpleZigBeePacket
  | [] => p
  | b :: rest => setFrameDataLoop (p.setMemoryData (startIndex + i) b) startIndex (i + 1) rest

/-- The method `setFrameData(int startIndex, uint8_t* frameData, int frameDataLength)`.
The array argument is the list `frameData`, of which the first `frameDataLength`
elements are read (a negative or zero `frameDataLength` reads none). -/
def setFrameDataArray (p : SimpleZigBeePacket) (startIndex : Int) (frameData : List Nat)
    (frameDataLength : Int) : SimpleZigBeePacket :=
  let lastIndex := startIndex + (frameDataLength - 1)
  if lastIndex < p.getMaxFrameLength then
    let p1 := p.expandMemoryArray (lastIndex + 10)
    let p2 := setFrameDataLoop p1 startIndex 0 (frameData.take frameDataLength.toNat)
    if lastIndex + 1 > p2.getFrameLength then p2.setFrameLength (lastIndex + 1) else p2
  else
    p.setErrorCode MAX_FRAME_LENGTH_EXCEEDED

/-- The method `getFrameData(int index)`: the returned byte and the packet
afterwards (the error code may have been set). -/
def getFrameData (p : SimpleZigBeePacket) (index : Int) : Nat × SimpleZigBeePacket :=
  if index < p.getFrameLength then
    (p.getMemoryData index, p)
  else
    (0, p.setErrorCode FRAME_LENGTH_EXCEEDED)

/-- The `for` loop of `calculateChecksum()`, entered with loop counter `i` and
the local `checksum`; `fuel` bounds the number of iterations.  The result is the
packet afterwards and the local `checksum`. -/
def calculateChecksumLoop :
    Nat → Int → SimpleZigBeePacket → Nat → SimpleZigBeePacket × Nat
  | 0, _, p, checksum => (p, checksum)
  | fuel + 1, i, p, checksum =>
    if i < p.getFrameLength then
      let g := p.getFrameData i
      calculateChecksumLoop fuel (i + 1) g.2 ((checksum + g.1) % 256)
    else (p, checksum)

/-- The value of the local variable `checksum` of `calculateChecksum()` when
the method reaches its `return` statement: `0xff - checksum` after the loop.
The loop runs at most `frameLength` times, which is the fuel given to
`calculateChecksumLoop`. -/
def calculateChecksumLocal (p : SimpleZigBeePacket) : Nat :=
  (0xff - (calculateChecksumLoop p.getFrameLength.toNat 0 p 0).2 % 256) % 256

/-- The method `calculateChecksum()`: the returned byte and the packet
afterwards.  The statement executed is `return _checksum;`: the member, not the
local `checksum`. -/
def calculateChecksum (p : SimpleZigBeePacket) : Nat × SimpleZigBeePacket :=
  let l := calculateChecksumLoop p.getFrameLength.toNat 0 p 0
  (l.1.getChecksum, l.1)

/-- The method `getFrameType()`. -/
def getFrameType (p : SimpleZigBeePacket) : Nat × SimpleZigBeePacket :=
  p.getFrameData 0

/-- The method `getFrameID()`. -/
def getFrameID (p : SimpleZigBeePacket) : Nat × SimpleZigBeePacket :=
  p.getFrameData 1

/-- The method `SimpleIncomingZigBeePacket::getModemStatus()`. -/
def getModemStatus (p : SimpleZigBeePacket) : Nat × SimpleZigBeePacket :=
  p.getFrameData 1

/-- The method `SimpleOutgoingZigBeePacket::setFrameType(uint8_t)`. -/
def setFrameType (p : SimpleZigBeePacket) (frameType : Nat) : SimpleZigBeePacket :=
  p.setFrameData 0 frameType

/-- The method `SimpleOutgoingZigBeePacket::setFrameID(uint8_t)`. -/
def setFrameID (p : SimpleZigBeePacket) (id : Nat) : SimpleZigBeePacket :=
  p.setFrameData 1 id

/-- The method `SimpleOutgoingZigBeePacket::setATCommand(uint16_t command)`. -/
def setATCommand (p : SimpleZigBeePacket) (command : Nat) : SimpleZigBeePacket :=
  let c := command % 65536
  (p.setFrameData 2 ((c / 256) % 256)).setFrameData 3 (c % 256)

/-- One pass of the loop of `setAddress64` for loop counter `i`. -/
def setAddress64Body (adr64MSB adr64LSB : Nat) (p : SimpleZigBeePacket) (i : Nat) :
    SimpleZigBeePacket :=
  let startIndex : Nat := 2
  let by_ := (8 * (3 - i)) % 256
  let byte1 := (adr64MSB % 4294967296 / 2 ^ by_) % 256
  let byte2 := (adr64LSB % 4294967296 / 2 ^ by_) % 256
  (p.setFrameData ((startIndex + i : Nat) : Int) byte1).setFrameData
    ((startIndex + i + 4 : Nat) : Int) byte2

/-- The method `SimpleOutgoingZigBeePacket::setAddress64(uint32_t, uint32_t)`:
the loop `for(uint8_t i=0;i<4;i++)`. -/
def setAddress64 (p : SimpleZigBeePacket) (adr64MSB adr64LSB : Nat) : SimpleZigBeePacket :=
  [0, 1, 2, 3].foldl (setAddress64Body adr64MSB adr64LSB) p

/-- The method `SimpleOutgoingZigBeePacket::setAddress16(uint16_t)`. -/
def setAddress16 (p : SimpleZigBeePacket) (adr16 : Nat) : SimpleZigBeePacket :=
  (p.setFrameData 10 ((adr16 % 65536 / 256) % 256)).setFrameData 11 (adr16 % 65536 % 256)

/-- The method `SimpleOutgoingZigBeePacket::setAddress(uint32_t, uint32_t, uint16_t)`. -/
def setAddress (p : SimpleZigBeePacket) (adr64MSB adr64LSB adr16 : Nat) :
    SimpleZigBeePacket :=
  (p.setAddress64 adr64MSB adr64LSB).setAddress16 adr16

/-- The method `setTXRequestBroadcastRadius(uint8_t)`. -/
def setTXRequestBroadcastRadius (p : SimpleZigBeePacket) (rad : Nat) : SimpleZigBeePacket :=
  p.setFrameData 12 rad

/-- The method `setTXRequestOption(uint8_t)`. -/
def setTXRequestOption (p : SimpleZigBeePacket) (opt : Nat) : SimpleZigBeePacket :=
  p.setFrameData 13 opt

/-- The method `setTXRequestPayload(uint8_t* payload, int payloadSize)`. -/
def setTXRequestPayload (p : SimpleZigBeePacket) (payload : List Nat) (payloadSize : Int) :
    SimpleZigBeePacket :=
  p.setFrameDataArray 14 payload payloadSize

/-- The method `setRemoteATCommandOption(uint8_t)`. -/
def setRemoteATCommandOption (p : SimpleZigBeePacket) (opt : Nat) : SimpleZigBeePacket :=
  p.setFrameData 12 opt

/-- The method `setRemoteATCommand(uint16_t command)`. -/
def setRemoteATCommand (p : SimpleZigBeePacket) (command : Nat) : SimpleZigBeePacket :=
  let c := command % 65536
  (p.setFrameData 13 ((c / 256) % 256)).setFrameData 14 (c % 256)

/-- The method `setRemoteATCommandPayload(uint8_t* payload, int payloadSize)`. -/
def setRemoteATCommandPayloadArray (p : SimpleZigBeePacket) (payload : List Nat)
    (payloadSize : Int) : SimpleZigBeePacket :=
  p.setFrameDataArray 15 payload payloadSize

/-- The expression
`(uint32_t(getFrameData(i)) << 24) + (uint32_t(getFrameData(i+1)) << 16)
  + (uint16_t(getFrameData(i+2)) << 8) + getFrameData(i+3)`
assigned to a `uint32_t`, the four reads made in this order: the value and the
packet afterwards. -/
def getWord32 (p : SimpleZigBeePacket) (i : Int) : Nat × SimpleZigBeePacket :=
  let g1 := p.getFrameData i
  let g2 := g1.2.getFrameData (i + 1)
  let g3 := g2.2.getFrameData (i + 2)
  let g4 := g3.2.getFrameData (i + 3)
  ((g1.1 * 2 ^ 24 % 4294967296 + g2.1 * 2 ^ 16 % 4294967296 + g3.1 * 2 ^ 8 + g4.1)
      % 4294967296, g4.2)

/-- The method `SimpleIncomingZigBeePacket::getRXAddress64()`. -/
def getRXAddress64 (p : SimpleZigBeePacket) : SimpleZigBeeAddress64 × SimpleZigBeePacket :=
  let msb := p.getWord32 1
  let lsb := msb.2.getWord32 5
  ({ address64MSB := msb.1, address64LSB := lsb.1 }, lsb.2)

/-- The method `SimpleIncomingZigBeePacket::getRXAddress16()`:
`(uint16_t(getFrameData(9)) << 8) + getFrameData(10)` as a `uint16_t`. -/
def getRXAddress16 (p : SimpleZigBeePacket) : SimpleZigBeeAddress16 × SimpleZigBeePacket :=
  let g1 := p.getFrameData 9
  let g2 := g1.2.getFrameData 10
  ({ address16 := (g1.1 * 2 ^ 8 + g2.1) % 65536 }, g2.2)

/-- The method `SimpleIncomingZigBeePacket::getRXOptions()`. -/
def getRXOptions (p : SimpleZigBeePacket) : Nat × SimpleZigBeePacket :=
  p.getFrameData 11

/-- The method `SimpleIncomingZigBeePacket::getRXPayloadLength()`:
`getFrameLength()-12` returned as a `uint8_t`. -/
def getRXPayloadLength (p : SimpleZigBeePacket) : Nat :=
  ((p.getFrameLength - 12) % 256).toNat

/-- The method `SimpleIncomingZigBeePacket::getRXPayload(int index)`. -/
def getRXPayload (p : SimpleZigBeePacket) (index : Int) : Nat × SimpleZigBeePacket :=
  p.getFrameData (index + 12)

/-- The method `SimpleIncomingZigBeePacket::getTXStatusAddress16()`:
`(uint16_t(getFrameData(9)) << 2) + getFrameData(3)` as a `uint16_t`. -/
def getTXStatusAddress16 (p : SimpleZigBeePacket) :
    SimpleZigBeeAddress16 × SimpleZigBeePacket :=
  let g1 := p.getFrameData 9
  let g2 := g1.2.getFrameData 3
  ({ address16 := (g1.1 * 2 ^ 2 + g2.1) % 65536 }, g2.2)

/-- The method `SimpleIncomingZigBeePacket::getTXStatusRetryCount()`. -/
def getTXStatusRetryCount (p : SimpleZigBeePacket) : Nat × SimpleZigBeePacket :=
  p.getFrameData 4

/-- The method `SimpleIncomingZigBeePacket::getTXStatusDeliveryStatus()`. -/
def getTXStatusDeliveryStatus (p : SimpleZigBeePacket) : Nat × SimpleZigBeePacket :=
  p.getFrameData 5

/-- The method `SimpleIncomingZigBeePacket::getTXStatusDiscoveryStatus()`. -/
def getTXStatusDiscoveryStatus (p : SimpleZigBeePacket) : Nat × SimpleZigBeePacket :=
  p.getFrameData 6

/-- The method `SimpleIncomingZigBeePacket::getATResponseCommand()`:
`uint16_t( getFrameData(2) << 8 ) + getFrameData(3)` returned as a `uint16_t`. -/
def getATResponseCommand (p : SimpleZigBeePacket) : Nat × SimpleZigBeePacket :=
  let g1 := p.getFrameData 2
  let g2 := g1.2.getFrameData 3
  ((g1.1 * 2 ^ 8 % 65536 + g2.1) % 65536, g2.2)

/-- The method `SimpleIncomingZigBeePacket::getATResponseStatus()`. -/
def getATResponseStatus (p : SimpleZigBeePacket) : Nat × SimpleZigBeePacket :=
  p.getFrameData 4

/-- The method `SimpleIncomingZigBeePacket::getATResponsePayloadLength()`:
`getFrameLength()-5` returned as a `uint8_t`. -/
def getATResponsePayloadLength (p : SimpleZigBeePacket) : Nat :=
  ((p.getFrameLength - 5) % 256).toNat

/-- The method `SimpleIncomingZigBeePacket::getATResponsePayload(int index)`. -/
def getATResponsePayload (p : SimpleZigBeePacket) (index : Int) :
    Nat × SimpleZigBeePacket :=
  p.getFrameData (index + 5)

/-- The method `SimpleIncomingZigBeePacket::getRemoteATResponseAddress64()`. -/
def getRemoteATResponseAddress64 (p : SimpleZigBeePacket) :
    SimpleZigBeeAddress64 × SimpleZigBeePacket :=
  let msb := p.getWord32 2
  let lsb := msb.2.getWord32 6
  ({ address64MSB := msb.1, address64LSB := lsb.1 }, lsb.2)

/-- The method `SimpleIncomingZigBeePacket::getRemoteATResponseAddress16()`. -/
def getRemoteATResponseAddress16 (p : SimpleZigBeePacket) :
    SimpleZigBeeAddress16 × SimpleZigBeePacket :=
  let g1 := p.getFrameData 10
  let g2 := g1.2.getFrameData 11
  ({ address16 := (g1.1 * 2 ^ 8 + g2.1) % 65536 }, g2.2)

/-- The method `getFrameData(int startIndex, uint8_t* arrayPtr, int frameDataLength)`:
the bytes stored into `arrayPtr[0]`, `arrayPtr[1]`, ... and the packet afterwards. -/
def getFrameDataArray (p : SimpleZigBeePacket) (startIndex frameDataLength : Int) :
    List Nat × SimpleZigBeePacket :=
  if startIndex + (frameDataLength - 1) < p.getFrameLength then
    ((List.range frameDataLength.toNat).map
      (fun (i : Nat) => p.getMemoryData (startIndex + (i : Int))), p)
  else
    ([], p.setErrorCode FRAME_LENGTH_EXCEEDED)

/-- The method `SimpleIncomingZigBeePacket::getRXAddress()`; of the two
arguments of the constructor call, `getRXAddress64()` is evaluated first. -/
def getRXAddress (p : SimpleZigBeePacket) : SimpleZigBeeAddress × SimpleZigBeePacket :=
  let a64 := p.getRXAddress64
  let a16 := a64.2.getRXAddress16
  ({ address64 := a64.1, address16 := a16.1 }, a16.2)

/-- The method `SimpleIncomingZigBeePacket::getATResponsePayload()` without
argument. -/
def getATResponsePayloadFirst (p : SimpleZigBeePacket) : Nat × SimpleZigBeePacket :=
  p.getFrameData 5

/-- The method `SimpleIncomingZigBeePacket::getRemoteATResponseAddress()`; of
the two arguments of the constructor call, `getRemoteATResponseAddress64()` is
evaluated first. -/
def getRemoteATResponseAddress (p : SimpleZigBeePacket) :
    SimpleZigBeeAddress × SimpleZigBeePacket :=
  let a64 := p.getRemoteATResponseAddress64
  let a16 := a64.2.getRemoteATResponseAddress16
  ({ address64 := a64.1, address16 := a16.1 }, a16.2)

/-- The method `SimpleIncomingZigBeePacket::getRemoteATResponseCommand()`:
`uint16_t( getFrameData(12) << 8 ) + getFrameData(13)`. -/
def getRemoteATResponseCommand (p : SimpleZigBeePacket) : Nat × SimpleZigBeePacket :=
  let g1 := p.getFrameData 12
  let g2 := g1.2.getFrameData 13
  ((g1.1 * 2 ^ 8 % 65536 + g2.1) % 65536, g2.2)

/-- The method `SimpleIncomingZigBeePacket::getRemoteATResponseStatus()`. -/
def getRemoteATResponseStatus (p : SimpleZigBeePacket) : Nat × SimpleZigBeePacket :=
  p.getFrameData 14

/-- The method `SimpleIncomingZigBeePacket::getRemoteATResponsePayloadLength()`:
`getFrameLength()-15` returned as a `uint8_t`. -/
def getRemoteATResponsePayloadLength (p : SimpleZigBeePacket) : Nat :=
  ((p.getFrameLength - 15) % 256).toNat

/-- The method `SimpleIncomingZigBeePacket::getRemoteATResponsePayload()` without
argument. -/
def getRemoteATResponsePayloadFirst (p : SimpleZigBeePacket) : Nat × SimpleZigBeePacket :=
  p.getFrameData 15

/-- The method `SimpleIncomingZigBeePacket::getRemoteATResponsePayload(int index)`. -/
def getRemoteATResponsePayload (p : SimpleZigBeePacket) (index : Int) :
    Nat × SimpleZigBeePacket :=
  p.getFrameData (index + 15)

/-- The method `SimpleOutgoingZigBeePacket::setAddress(SimpleZigBeeAddress address)`. -/
def setAddressObject (p : SimpleZigBeePacket) (address : SimpleZigBeeAddress) :
    SimpleZigBeePacket :=
  let adr64 := address.address64
  let adr16 := address.address16
  (p.setAddress64 adr64.address64MSB adr64.address64LSB).setAddress16 adr16.address16

/-- The method `SimpleOutgoingZigBeePacket::setATCommandPayload(uint8_t payload)`. -/
def setATCommandPayload (p : SimpleZigBeePacket) (payload : Nat) : SimpleZigBeePacket :=
  p.setFrameData 4 payload

/-- The method
`SimpleOutgoingZigBeePacket::setATCommandPayload(uint8_t* payload, int payloadSize)`. -/
def setATCommandPayloadArray (p : SimpleZigBeePacket) (payload : List Nat)
    (payloadSize : Int) : SimpleZigBeePacket :=
  p.setFrameDataArray 4 payload payloadSize

/-- The method `SimpleOutgoingZigBeePacket::setRemoteATCommandPayload(uint8_t payload)`. -/
def setRemoteATCommandPayload (p : SimpleZigBeePacket) (payload : Nat) : SimpleZigBeePacket :=
  p.setFrameData 15 payload

end SimpleZigBeePacket

/-! ## `SimpleZigBeeRadio` -/

/-- The private members of `SimpleZigBeeRadio` (the serial port apart). -/
structure SimpleZigBeeRadio where
  incoming_packet : SimpleZigBeePacket
  outgoing_packet : SimpleZigBeePacket
  escaped_mode : Bool
  in_byte : Nat
  in_index : Int
  in_checksum : Nat
  in_escaping : Bool
  in_complete : Bool
  out_acknowledgement : Bool
  out_frame_id : Nat
deriving DecidableEq, Repr

namespace SimpleZigBeeRadio

/-- The method `resetIncoming()`. -/
def resetIncoming (r : SimpleZigBeeRadio) : SimpleZigBeeRadio :=
  { r with
    incoming_packet := r.incoming_packet.reset
    in_complete := false
    in_escaping := false
    in_checksum := 0
    in_index := 0 }

/-- The method `resetOutgoing()`. -/
def resetOutgoing (r : SimpleZigBeeRadio) : SimpleZigBeeRadio :=
  { r with outgoing_packet := r.outgoing_packet.reset }

/-- The method `reset()`. -/
def reset (r : SimpleZigBeeRadio) : SimpleZigBeeRadio :=
  { r.resetIncoming.resetOutgoing with out_frame_id := 0, out_acknowledgement := false }

/-- The constructor `SimpleZigBeeRadio(bool escaped_mode)`: two default packets
(`junkIn`, `junkOut`: the contents of their fresh blocks), then `reset()`. -/
def construct (escaped_mode : Bool) (junkIn junkOut : List Nat) (reallocSucceeds : Bool) :
    SimpleZigBeeRadio :=
  reset
    { incoming_packet := SimpleZigBeePacket.constructDefault junkIn reallocSucceeds
      outgoing_packet := SimpleZigBeePacket.constructDefault junkOut reallocSucceeds
      escaped_mode := escaped_mode
      in_byte := 0
      in_index := 0
      in_checksum := 0
      in_escaping := false
      in_complete := false
      out_acknowledgement := false
      out_frame_id := 0 }

/-- The default constructor `SimpleZigBeeRadio()`: Escaped API Mode. -/
def constructDefault (junkIn junkOut : List Nat) (reallocSucceeds : Bool) :
    SimpleZigBeeRadio :=
  construct true junkIn junkOut reallocSucceeds

/-- The method `isEscaping()`. -/
def isEscaping (r : SimpleZigBeeRadio) : Bool :=
  r.in_escaping

/-- The method `setEscaping(bool)`. -/
def setEscaping (r : SimpleZigBeeRadio) (escape : Bool) : SimpleZigBeeRadio :=
  { r with in_escaping := escape }

/-- The method `isComplete()`. -/
def isComplete (r : SimpleZigBeeRadio) : Bool :=
  r.in_complete

/-- The method `setComplete(bool)`. -/
def setComplete (r : SimpleZigBeeRadio) (complete : Bool) : SimpleZigBeeRadio :=
  { r with in_complete := complete }

/-- The statement `_incoming_packet.setErrorCode(code)` inside `read()`. -/
def setIncomingErrorCode (r : SimpleZigBeeRadio) (code : Int) : SimpleZigBeeRadio :=
  { r with incoming_packet := r.incoming_packet.setErrorCode code }

/-- The part of the body of the `while` loop of `read()` below the escape
handling (source lines 207-268), run on the de-escaped byte held in `_in_byte`.
The boolean is `true` when the code executes `return`, `false` when control
reaches the end of the loop body. -/
def readDispatch (r : SimpleZigBeeRadio) : SimpleZigBeeRadio × Bool :=
  let r1 : SimpleZigBeeRadio :=
    if r.in_index ≥ FRAME_TYPE_INDEX then
      { r with in_checksum := (r.in_checksum + r.in_byte) % 256 }
    else r
  if 0 = r1.in_index then
    if START = r1.in_byte then
      ({ r1 with in_index := r1.in_index + 1 }, false)
    else
      (r1.setIncomingErrorCode PACKET_INCOMPLETE, false)
  else if 1 = r1.in_index then
    ({ r1 with
        incoming_packet := r1.incoming_packet.setFrameLengthMSB r1.in_byte
        in_index := r1.in_index + 1 }, false)
  else if 2 = r1.in_index then
    ({ r1 with
        incoming_packet := r1.incoming_packet.setFrameLengthLSB r1.in_byte
        in_index := r1.in_index + 1 }, false)
  else
    if r1.in_index > r1.incoming_packet.getMaxFrameLength then
      (r1.setIncomingErrorCode MAX_FRAME_LENGTH_EXCEEDED, true)
    else if r1.incoming_packet.getFrameLength + 3 = r1.in_index then
      if 0xff = r1.in_checksum % 256 then
        ({ r1.setComplete true with
            incoming_packet :=
              (r1.incoming_packet.setChecksum r1.in_checksum).setErrorCode NO_ERROR }, true)
      else
        (r1.setIncomingErrorCode CHECKSUM_FAILURE, true)
    else
      ({ r1 with
          incoming_packet :=
            r1.incoming_packet.setFrameData (r1.in_index - FRAME_TYPE_INDEX) r1.in_byte
          in_index := r1.in_index + 1 }, false)

/-- One pass through the body of the `while( _serial->available() )` loop of
`read()` (source lines 165-268).  `b` is the byte that `_serial->read()` returns
at line 165; `next` is the next byte of the serial input buffer, if there is
one, which the body fetches at line 191 when it meets an `ESCAPE`.  The result
is the radio afterwards, whether the body executed `return`, and whether it
fetched `next`. -/
def readBody (r : SimpleZigBeeRadio) (b : Nat) (next : Option Nat) :
    SimpleZigBeeRadio × Bool × Bool :=
  let r0 : SimpleZigBeeRadio := { r with in_byte := b % 256 }
  if r0.escaped_mode = true then
    if START = r0.in_byte ∧ r0.in_index > 0 then
      (r0.setIncomingErrorCode UNEXPECTED_PACKET_START, true, false)
    else
      let r1 : SimpleZigBeeRadio :=
        if r0.isEscaping = true then
          { r0 with in_byte := (0x20 ^^^ r0.in_byte) % 256, in_escaping := false }
        else r0
      if r1.in_byte = ESCAPE ∧ r1.in_index > 0 then
        match next with
        | some c =>
          let r2 : SimpleZigBeeRadio := { r1 with in_byte := (0x20 ^^^ (c % 256)) % 256 }
          (r2.readDispatch.1, r2.readDispatch.2, true)
        | none => (r1.setEscaping true, false, false)
      else
        (r1.readDispatch.1, r1.readDispatch.2, false)
  else
    (r0.readDispatch.1, r0.readDispatch.2, false)

/-- The `while( _serial->available() )` loop of `read()`.  The argument is the
content of the serial input buffer; the result is the radio afterwards and the
bytes left unread in the buffer. -/
def readLoop (r : SimpleZigBeeRadio) : List Nat → SimpleZigBeeRadio × List Nat
  | [] => (r, [])
  | [b] =>
    ((r.readBody b none).1, [])
  | b :: c :: rest =>
    if (r.readBody b (some c)).2.1 = true then
      ((r.readBody b (some c)).1, if (r.readBody b (some c)).2.2 = true then rest else c :: rest)
    else if (r.readBody b (some c)).2.2 = true then
      readLoop (r.readBody b (some c)).1 rest
    else
      readLoop (r.readBody b (some c)).1 (c :: rest)

/-- The method `read()`, called when the serial input buffer holds `serial`. -/
def read (r : SimpleZigBeeRadio) (serial : List Nat) : SimpleZigBeeRadio × List Nat :=
  if serial ≠ [] then
    let r1 : SimpleZigBeeRadio :=
      if r.incoming_packet.isError = true ∨ r.isComplete = true then
        let err := r.incoming_packet.getErrorCode
        let r2 := r.resetIncoming
        if UNEXPECTED_PACKET_START = err then { r2 with in_index := 1 } else r2
      else r
    r1.readLoop serial
  else (r, serial)

/-- The method `writeByte(uint8_t byte)`: the bytes it writes to the serial port. -/
def writeByte (r : SimpleZigBeeRadio) (byte : Nat) : List Nat :=
  let b := byte % 256
  if r.escaped_mode = true ∧ (START = b ∨ XON = b ∨ XOFF = b ∨ ESCAPE = b) then
    [ESCAPE, (b ^^^ 0x20) % 256]
  else
    [b]

/-- The `for` loop of `sendPacket`, entered with loop counter `i` and running
checksum `checksum`; `fuel` bounds the number of iterations.  The result is
the packet afterwards, the running checksum and the bytes written. -/
def sendPacketLoop (r : SimpleZigBeeRadio) :
    Nat → Int → SimpleZigBeePacket → Nat → SimpleZigBeePacket × Nat × List Nat
  | 0, _, p, checksum => (p, checksum, [])
  | fuel + 1, i, p, checksum =>
    if i < p.getFrameLength then
      let g1 := p.getFrameData i
      let g2 := g1.2.getFrameData i
      let rec_ := sendPacketLoop r fuel (i + 1) g2.2 ((checksum + g2.1) % 256)
      (rec_.1, rec_.2.1, r.writeByte g1.1 ++ rec_.2.2)
    else (p, checksum, [])

/-- The method `sendPacket(SimpleZigBeePacket & p)`: the packet afterwards and
the bytes written to the serial port, in order.  The loop runs at most
`frameLength` times, which is the fuel given to `sendPacketLoop`. -/
def sendPacket (r : SimpleZigBeeRadio) (p : SimpleZigBeePacket) :
    SimpleZigBeePacket × List Nat :=
  let l := sendPacketLoop r p.getFrameLength.toNat 0 p 0
  let checksum := (0xff - l.2.1 % 256) % 256
  (l.1, [START] ++ r.writeByte p.getLengthMSB ++ r.writeByte p.getLengthLSB ++ l.2.2
          ++ r.writeByte checksum)

/-- The method `saveLastFrameID(uint8_t)`. -/
def saveLastFrameID (r : SimpleZigBeeRadio) (frameID : Nat) : SimpleZigBeeRadio :=
  { r with out_frame_id := frameID % 256 }

/-- The method `getLastFrameID()`. -/
def getLastFrameID (r : SimpleZigBeeRadio) : Nat :=
  r.out_frame_id % 256

/-- The method `send()`: the radio afterwards and the bytes written. -/
def send (r : SimpleZigBeeRadio) : SimpleZigBeeRadio × List Nat :=
  let g := r.outgoing_packet.getFrameID
  let r1 : SimpleZigBeeRadio := { r with outgoing_packet := g.2 }
  let r2 := r1.saveLastFrameID g.1
  let s := r2.sendPacket r2.outgoing_packet
  ({ r2 with outgoing_packet := s.1 }, s.2)

/-- The method `setOutgoingFrameType(uint8_t)`. -/
def setOutgoingFrameType (r : SimpleZigBeeRadio) (frameType : Nat) : SimpleZigBeeRadio :=
  { r with outgoing_packet := r.outgoing_packet.setFrameType frameType }

/-- The method `setOutgoingFrameID(uint8_t)`. -/
def setOutgoingFrameID (r : SimpleZigBeeRadio) (id : Nat) : SimpleZigBeeRadio :=
  { r with outgoing_packet := r.outgoing_packet.setFrameID id }

/-- The method `setAcknowledgement(bool ack)`. -/
def setAcknowledgement (r : SimpleZigBeeRadio) (ack : Bool) : SimpleZigBeeRadio :=
  let r1 : SimpleZigBeeRadio := { r with out_acknowledgement := ack }
  if r1.out_acknowledgement = true then r1.setOutgoingFrameID 1 else r1.setOutgoingFrameID 0

/-- The method `setNextFrameID()`. -/
def setNextFrameID (r : SimpleZigBeeRadio) : SimpleZigBeeRadio :=
  let id : Nat :=
    if r.out_acknowledgement = true then (r.getLastFrameID % 255 + 1) % 256 else 0
  r.setOutgoingFrameID id

/-- The method `setATCommand(uint16_t)`. -/
def setATCommand (r : SimpleZigBeeRadio) (command : Nat) : SimpleZigBeeRadio :=
  { r with outgoing_packet := r.outgoing_packet.setATCommand command }

/-- The method `prepareATCommand(uint16_t command)`. -/
def prepareATCommand (r : SimpleZigBeeRadio) (command : Nat) : SimpleZigBeeRadio :=
  (((r.resetOutgoing).setATCommand command).setOutgoingFrameType AT_COMMAND).setNextFrameID

/-- The method `getIncomingFrameType()`. -/
def getIncomingFrameType (r : SimpleZigBeeRadio) : Nat × SimpleZigBeeRadio :=
  let g := r.incoming_packet.getFrameType
  (g.1, { r with incoming_packet := g.2 })

/-- The method `isRX()`. -/
def isRX (r : SimpleZigBeeRadio) : Bool × SimpleZigBeeRadio :=
  let g := r.getIncomingFrameType
  (decide (g.1 = ZIGBEE_RECIEVED_PACKET), g.2)

/-- The method `isModemStatus()`. -/
def isModemStatus (r : SimpleZigBeeRadio) : Bool × SimpleZigBeeRadio :=
  let g := r.getIncomingFrameType
  (decide (g.1 = MODEM_STATUS), g.2)

/-- The method `getModemStatus()`. -/
def getModemStatus (r : SimpleZigBeeRadio) : Nat × SimpleZigBeeRadio :=
  let g := r.incoming_packet.getModemStatus
  (g.1, { r with incoming_packet := g.2 })

/-- The method `setOutgoingAddress(uint32_t, uint32_t, uint16_t)`. -/
def setOutgoingAddress (r : SimpleZigBeeRadio) (adr64MSB adr64LSB adr16 : Nat) :
    SimpleZigBeeRadio :=
  { r with outgoing_packet := r.outgoing_packet.setAddress adr64MSB adr64LSB adr16 }

/-- The method `setTXRequestBroadcastRadius(uint8_t)`. -/
def setTXRequestBroadcastRadius (r : SimpleZigBeeRadio) (rad : Nat) : SimpleZigBeeRadio :=
  { r with outgoing_packet := r.outgoing_packet.setTXRequestBroadcastRadius rad }

/-- The method `setTXRequestOption(uint8_t)`. -/
def setTXRequestOption (r : SimpleZigBeeRadio) (opt : Nat) : SimpleZigBeeRadio :=
  { r with outgoing_packet := r.outgoing_packet.setTXRequestOption opt }

/-- The method `setTXRequestPayload(uint8_t* payload, int payloadSize)`. -/
def setTXRequestPayload (r : SimpleZigBeeRadio) (payload : List Nat) (payloadSize : Int) :
    SimpleZigBeeRadio :=
  { r with outgoing_packet := r.outgoing_packet.setTXRequestPayload payload payloadSize }

/-- The method `prepareTXRequest(uint32_t adr64MSB, uint32_t adr64LSB,
uint16_t adr16, uint8_t* payload, int payloadSize)`. -/
def prepareTXRequest (r : SimpleZigBeeRadio) (adr64MSB adr64LSB adr16 : Nat)
    (payload : List Nat) (payloadSize : Int) : SimpleZigBeeRadio :=
  ((((((r.resetOutgoing).setTXRequestPayload payload payloadSize).setOutgoingFrameType
    ZIGBEE_TRANSMIT_REQUEST).setOutgoingAddress adr64MSB adr64LSB
      adr16).setTXRequestBroadcastRadius 0).setTXRequestOption 0).setNextFrameID

/-- The method `setRemoteATCommandOption(uint8_t)`. -/
def setRemoteATCommandOption (r : SimpleZigBeeRadio) (opt : Nat) : SimpleZigBeeRadio :=
  { r with outgoing_packet := r.outgoing_packet.setRemoteATCommandOption opt }

/-- The method `setRemoteATCommand(uint16_t)`. -/
def setRemoteATCommand (r : SimpleZigBeeRadio) (command : Nat) : SimpleZigBeeRadio :=
  { r with outgoing_packet := r.outgoing_packet.setRemoteATCommand command }

/-- The method `setRemoteATCommandPayload(uint8_t* payload, int payloadSize)`. -/
def setRemoteATCommandPayloadArray (r : SimpleZigBeeRadio) (payload : List Nat)
    (payloadSize : Int) : SimpleZigBeeRadio :=
  { r with
    outgoing_packet := r.outgoing_packet.setRemoteATCommandPayloadArray payload payloadSize }

/-- The method `prepareRemoteATCommand(uint32_t adr64MSB, uint32_t adr64LSB,
uint16_t adr16, uint16_t command)`. -/
def prepareRemoteATCommand (r : SimpleZigBeeRadio) (adr64MSB adr64LSB adr16 command : Nat) :
    SimpleZigBeeRadio :=
  (((((r.resetOutgoing).setRemoteATCommand command).setOutgoingFrameType
    REMOTE_AT_COMMAND).setOutgoingAddress adr64MSB adr64LSB
      adr16).setRemoteATCommandOption 0x02).setNextFrameID

/-- The method `prepareRemoteATCommand(uint32_t adr64MSB, uint32_t adr64LSB,
uint16_t adr16, uint16_t command, uint8_t* payload, int payloadSize)`. -/
def prepareRemoteATCommandArray (r : SimpleZigBeeRadio)
    (adr64MSB adr64LSB adr16 command : Nat) (payload : List Nat) (payloadSize : Int) :
    SimpleZigBeeRadio :=
  (r.prepareRemoteATCommand adr64MSB adr64LSB adr16 command).setRemoteATCommandPayloadArray
    payload payloadSize

end SimpleZigBeeRadio

/-! ## Definitions used to state the properties -/

/-- The escaping rule in the words of the specification: a byte equal to
`START (0x7E)`, `ESCAPE (0x7D)`, `XON (0x11)` or `XOFF (0x13)` is transmitted,
only in escaped mode, as `ESCAPE` followed by the byte XOR `0x20`; any other
byte is transmitted as it is. -/
def esc (escaped : Bool) (x : Nat) : List Nat :=
  if escaped = true ∧ (x = 0x7E ∨ x = 0x7D ∨ x = 0x11 ∨ x = 0x13) then
    [0x7D, x ^^^ 0x20]
  else
    [x]

/-- The wire format in the words of the specification, for a frame length `L`
and frame bytes `f`: raw `START`, the escaped length bytes `L >> 8 & 0xFF` and
`L & 0xFF`, the escaped frame bytes, and the escaped checksum
`0xFF - (sum of f mod 256)`. -/
def wireFormat (escaped : Bool) (L : Int) (f : List Nat) : List Nat :=
  [0x7E] ++ esc escaped ((L / 256) % 256).toNat ++ esc escaped (L % 256).toNat
    ++ f.flatMap (esc escaped) ++ esc escaped (0xFF - f.sum % 256)

/-- The frame bytes of a packet as `getFrameData` returns them: the bytes at
the indices `0 .. frameLength - 1`. -/
def frameBytes (p : SimpleZigBeePacket) : List Nat :=
  (List.range p.frameLength.toNat).map (fun (i : Nat) => p.getMemoryData (i : Int))

/-- The packet after `setFrameData(k, b0)`, `setFrameData(k+1, b1)`, ... for the
bytes of the list, in order: what the decoder does with consecutive frame
bytes. -/
def storeFrom (p : SimpleZigBeePacket) (k : Int) : List Nat → SimpleZigBeePacket
  | [] => p
  | b :: rest => storeFrom (p.setFrameData k b) (k + 1) rest

/-- The buffer of a packet has a capacity that differs from the maximum frame
length by a multiple of ten, as it has for a constructed packet (20 against 50)
whose buffer grew by the ten-byte steps of consecutive writes. -/
def GrowsByTens (p : SimpleZigBeePacket) : Prop :=
  p.memoryArrayLength ≤ p.maxFrameLength
    ∧ (p.maxFrameLength - p.memoryArrayLength) % 10 = 0

instance (p : SimpleZigBeePacket) : Decidable (GrowsByTens p) := by
  unfold GrowsByTens
  infer_instance

/-- The radio after the decoder has taken the de-escaped frame bytes `f` one
after the other at frame-data positions: each byte is added to the running
checksum, stored at the next frame index, and the cursor advances. -/
def afterFrameBytes (r : SimpleZigBeeRadio) (f : List Nat) : SimpleZigBeeRadio :=
  { r with
    in_byte := f.foldl (fun _ b => b) r.in_byte
    in_checksum := f.foldl (fun c b => (c + b) % 256) r.in_checksum
    in_index := r.in_index + (f.length : Int)
    incoming_packet := storeFrom r.incoming_packet (r.in_index - 3) f }

/-- The transmitted form `enc x` of a byte `x` satisfying `P` is taken by the
decoder loop, in mode `mode` with no escape pending and the cursor past the
start byte, as the single de-escaped byte `x`, which is then dispatched. -/
def Decodes (enc : Nat → List Nat) (mode : Bool) (P : Nat → Prop) : Prop :=
  ∀ (r : SimpleZigBeeRadio) (x : Nat) (rest : List Nat),
    r.escaped_mode = mode → r.in_escaping = false → 0 < r.in_index → x < 256 → P x →
      r.readLoop (enc x ++ rest) =
        if ({ r with in_byte := x } : SimpleZigBeeRadio).readDispatch.2 = true then
          (({ r with in_byte := x } : SimpleZigBeeRadio).readDispatch.1, rest)
        else
          SimpleZigBeeRadio.readLoop
            ({ r with in_byte := x } : SimpleZigBeeRadio).readDispatch.1 rest

/-- The shape the decoder keeps of its buffer: the incoming buffer grows by
tens, `realloc` succeeds, and the frame index of the cursor is not beyond the
capacity (the bytes before it have been stored one after the other). -/
def DecoderInv (r : SimpleZigBeeRadio) : Prop :=
  GrowsByTens r.incoming_packet
    ∧ r.incoming_packet.reallocSucceeds = true
    ∧ 0 ≤ r.in_index
    ∧ r.in_index - 3 ≤ r.incoming_packet.memoryArrayLength

/-- A default-constructed session in Escaped API Mode whose fresh blocks hold
zeros and whose allocator grants every request. -/
def defaultSession : SimpleZigBeeRadio :=
  SimpleZigBeeRadio.constructDefault [] [] true

/-- A call of one of the `prepare` methods of the radio, with its arguments. -/
inductive PrepareCall where
  | atCommand (command : Nat)
  | txRequest (adr64MSB adr64LSB adr16 : Nat) (payload : List Nat) (payloadSize : Int)
  | remoteATCommand (adr64MSB adr64LSB adr16 command : Nat)
  | remoteATCommandArray (adr64MSB adr64LSB adr16 command : Nat) (payload : List Nat)
      (payloadSize : Int)
deriving DecidableEq, Repr

/-- The radio after the `prepare` call `c`. -/
def SimpleZigBeeRadio.prepare (r : SimpleZigBeeRadio) : PrepareCall → SimpleZigBeeRadio
  | .atCommand command => r.prepareATCommand command
  | .txRequest adr64MSB adr64LSB adr16 payload payloadSize =>
    r.prepareTXRequest adr64MSB adr64LSB adr16 payload payloadSize
  | .remoteATCommand adr64MSB adr64LSB adr16 command =>
    r.prepareRemoteATCommand adr64MSB adr64LSB adr16 command
  | .remoteATCommandArray adr64MSB adr64LSB adr16 command payload payloadSize =>
    r.prepareRemoteATCommandArray adr64MSB adr64LSB adr16 command payload payloadSize

/-- The radio after one prepare-then-send cycle for each call of the list, in
order: the `prepare` call followed by `send()`. -/
def prepareSendCycles (r : SimpleZigBeeRadio) (calls : List PrepareCall) :
    SimpleZigBeeRadio :=
  calls.foldl (fun s c => (s.prepare c).send.1) r

/-- The radio after `read()` has been called once for each byte of `w`, the
serial input buffer holding just that byte at each call. -/
def readOneByOne (r : SimpleZigBeeRadio) (w : List Nat) : SimpleZigBeeRadio :=
  w.foldl (fun s b => (s.read [b]).1) r

/-- The packet methods out of which the bodies of all the others are composed,
with their arguments. -/
inductive PacketStep where
  | reset
  | expandMemoryArray (size : Int)
  | setMemoryData (index : Int) (byte : Nat)
  | setFrameLength (frameLength : Int)
  | setFrameLengthMSB (msb : Nat)
  | setFrameLengthLSB (lsb : Nat)
  | setChecksum (checksum : Nat)
  | setFrameData (index : Int) (byte : Nat)
  | setFrameDataArray (startIndex : Int) (frameData : List Nat) (frameDataLength : Int)
  | getFrameData (index : Int)
  | getFrameDataArray (startIndex frameDataLength : Int)
  | setErrorCode (errorCode : Int)

/-- The packet after the step. -/
def PacketStep.run (p : SimpleZigBeePacket) : PacketStep → SimpleZigBeePacket
  | .reset => p.reset
  | .expandMemoryArray size => p.expandMemoryArray size
  | .setMemoryData index byte => p.setMemoryData index byte
  | .setFrameLength frameLength => p.setFrameLength frameLength
  | .setFrameLengthMSB msb => p.setFrameLengthMSB msb
  | .setFrameLengthLSB lsb => p.setFrameLengthLSB lsb
  | .setChecksum checksum => p.setChecksum checksum
  | .setFrameData index byte => p.setFrameData index byte
  | .setFrameDataArray startIndex frameData frameDataLength =>
    p.setFrameDataArray startIndex frameData frameDataLength
  | .getFrameData index => (p.getFrameData index).2
  | .getFrameDataArray startIndex frameDataLength =>
    (p.getFrameDataArray startIndex frameDataLength).2
  | .setErrorCode errorCode => p.setErrorCode errorCode

/-- A call of a public method of the packet classes `SimpleZigBeePacket`,
`SimpleIncomingZigBeePacket` and `SimpleOutgoingZigBeePacket` on an existing
packet, with its arguments. -/
inductive PacketCall where
  | init
  | reset
  | expandMemoryArray (size : Int)
  | getMemoryData (index : Int)
  | setMemoryData (index : Int) (byte : Nat)
  | getFrameLength
  | getLengthMSB
  | getLengthLSB
  | setFrameLength (frameLength : Int)
  | setFrameLengthMSB (msb : Nat)
  | setFrameLengthLSB (lsb : Nat)
  | getFrameType
  | getFrameID
  | getChecksum
  | calculateChecksum
  | setChecksum (checksum : Nat)
  | getMaxFrameLength
  | setFrameData (index : Int) (byte : Nat)
  | setFrameDataArray (startIndex : Int) (frameData : List Nat) (frameDataLength : Int)
  | getFrameData (index : Int)
  | getFrameDataArray (startIndex frameDataLength : Int)
  | isError
  | getErrorCode
  | setErrorCode (errorCode : Int)
  | getRXAddress
  | getRXAddress64
  | getRXAddress16
  | getRXOptions
  | getRXPayloadLength
  | getRXPayload (index : Int)
  | getTXStatusAddress16
  | getTXStatusRetryCount
  | getTXStatusDeliveryStatus
  | getTXStatusDiscoveryStatus
  | getATResponseCommand
  | getATResponseStatus
  | getATResponsePayloadLength
  | getATResponsePayloadFirst
  | getATResponsePayload (index : Int)
  | getRemoteATResponseAddress
  | getRemoteATResponseAddress64
  | getRemoteATResponseAddress16
  | getRemoteATResponseCommand
  | getRemoteATResponseStatus
  | getRemoteATResponsePayloadLength
  | getRemoteATResponsePayloadFirst
  | getRemoteATResponsePayload (index : Int)
  | getModemStatus
  | setFrameType (frameType : Nat)
  | setFrameID (id : Nat)
  | setAddressObject (address : SimpleZigBeeAddress)
  | setAddress (adr64MSB adr64LSB adr16 : Nat)
  | setAddress64 (adr64MSB adr64LSB : Nat)
  | setAddress16 (adr16 : Nat)
  | setTXRequestBroadcastRadius (rad : Nat)
  | setTXRequestOption (opt : Nat)
  | setTXRequestPayload (payload : List Nat) (payloadSize : Int)
  | setATCommand (command : Nat)
  | setATCommandPayload (payload : Nat)
  | setATCommandPayloadArray (payload : List Nat) (payloadSize : Int)
  | setRemoteATCommandOption (opt : Nat)
  | setRemoteATCommand (command : Nat)
  | setRemoteATCommandPayload (payload : Nat)
  | setRemoteATCommandPayloadArray (payload : List Nat) (payloadSize : Int)

/-- The packet after the call (the value a getter returns is dropped). -/
def PacketCall.run (p : SimpleZigBeePacket) : PacketCall → SimpleZigBeePacket
  | .init => p.init
  | .reset => p.reset
  | .expandMemoryArray size => p.expandMemoryArray size
  | .getMemoryData _ => p
  | .setMemoryData index byte => p.setMemoryData index byte
  | .getFrameLength => p
  | .getLengthMSB => p
  | .getLengthLSB => p
  | .setFrameLength frameLength => p.setFrameLength frameLength
  | .setFrameLengthMSB msb => p.setFrameLengthMSB msb
  | .setFrameLengthLSB lsb => p.setFrameLengthLSB lsb
  | .getFrameType => p.getFrameType.2
  | .getFrameID => p.getFrameID.2
  | .getChecksum => p
  | .calculateChecksum => p.calculateChecksum.2
  | .setChecksum checksum => p.setChecksum checksum
  | .getMaxFrameLength => p
  | .setFrameData index byte => p.setFrameData index byte
  | .setFrameDataArray startIndex frameData frameDataLength =>
    p.setFrameDataArray startIndex frameData frameDataLength
  | .getFrameData index => (p.getFrameData index).2
  | .getFrameDataArray startIndex frameDataLength =>
    (p.getFrameDataArray startIndex frameDataLength).2
  | .isError => p
  | .getErrorCode => p
  | .setErrorCode errorCode => p.setErrorCode errorCode
  | .getRXAddress => p.getRXAddress.2
  | .getRXAddress64 => p.getRXAddress64.2
  | .getRXAddress16 => p.getRXAddress16.2
  | .getRXOptions => p.getRXOptions.2
  | .getRXPayloadLength => p
  | .getRXPayload index => (p.getRXPayload index).2
  | .getTXStatusAddress16 => p.getTXStatusAddress16.2
  | .getTXStatusRetryCount => p.getTXStatusRetryCount.2
  | .getTXStatusDeliveryStatus => p.getTXStatusDeliveryStatus.2
  | .getTXStatusDiscoveryStatus => p.getTXStatusDiscoveryStatus.2
  | .getATResponseCommand => p.getATResponseCommand.2
  | .getATResponseStatus => p.getATResponseStatus.2
  | .getATResponsePayloadLength => p
  | .getATResponsePayloadFirst => p.getATResponsePayloadFirst.2
  | .getATResponsePayload index => (p.getATResponsePayload index).2
  | .getRemoteATResponseAddress => p.getRemoteATResponseAddress.2
  | .getRemoteATResponseAddress64 => p.getRemoteATResponseAddress64.2
  | .getRemoteATResponseAddress16 => p.getRemoteATResponseAddress16.2
  | .getRemoteATResponseCommand => p.getRemoteATResponseCommand.2
  | .getRemoteATResponseStatus => p.getRemoteATResponseStatus.2
  | .getRemoteATResponsePayloadLength => p
  | .getRemoteATResponsePayloadFirst => p.getRemoteATResponsePayloadFirst.2
  | .getRemoteATResponsePayload index => (p.getRemoteATResponsePayload index).2
  | .getModemStatus => p.getModemStatus.2
  | .setFrameType frameType => p.setFrameType frameType
  | .setFrameID id => p.setFrameID id
  | .setAddressObject address => p.setAddressObject address
  | .setAddress adr64MSB adr64LSB adr16 => p.setAddress adr64MSB adr64LSB adr16
  | .setAddress64 adr64MSB adr64LSB => p.setAddress64 adr64MSB adr64LSB
  | .setAddress16 adr16 => p.setAddress16 adr16
  | .setTXRequestBroadcastRadius rad => p.setTXRequestBroadcastRadius rad
  | .setTXRequestOption opt => p.setTXRequestOption opt
  | .setTXRequestPayload payload payloadSize => p.setTXRequestPayload payload payloadSize
  | .setATCommand command => p.setATCommand command
  | .setATCommandPayload payload => p.setATCommandPayload payload
  | .setATCommandPayloadArray payload payloadSize =>
    p.setATCommandPayloadArray payload payloadSize
  | .setRemoteATCommandOption opt => p.setRemoteATCommandOption opt
  | .setRemoteATCommand command => p.setRemoteATCommand command
  | .setRemoteATCommandPayload payload => p.setRemoteATCommandPayload payload
  | .setRemoteATCommandPayloadArray payload payloadSize =>
    p.setRemoteATCommandPayloadArray payload payloadSize

/-- The call assigns the frame length directly: `setFrameLength`,
`setFrameLengthMSB`, `setFrameLengthLSB`. -/
def PacketCall.setsLength : PacketCall → Bool
  | .setFrameLength _ => true
  | .setFrameLengthMSB _ => true
  | .setFrameLengthLSB _ => true
  | _ => false

/-- The call assigns the error code directly: `init`, `reset`,
`setErrorCode`. -/
def PacketCall.assignsError : PacketCall → Bool
  | .init => true
  | .reset => true
  | .setErrorCode _ => true
  | _ => false

/-- The steps that the body of the method called executes, in order. -/
def PacketCall.steps : PacketCall → List PacketStep
  | .init => [.reset]
  | .reset => [.reset]
  | .expandMemoryArray size => [.expandMemoryArray size]
  | .getMemoryData _ => []
  | .setMemoryData index byte => [.setMemoryData index byte]
  | .getFrameLength => []
  | .getLengthMSB => []
  | .getLengthLSB => []
  | .setFrameLength frameLength => [.setFrameLength frameLength]
  | .setFrameLengthMSB msb => [.setFrameLengthMSB msb]
  | .setFrameLengthLSB lsb => [.setFrameLengthLSB lsb]
  | .getFrameType => [.getFrameData 0]
  | .getFrameID => [.getFrameData 1]
  | .getChecksum => []
  | .calculateChecksum => []
  | .setChecksum checksum => [.setChecksum checksum]
  | .getMaxFrameLength => []
  | .setFrameData index byte => [.setFrameData index byte]
  | .setFrameDataArray startIndex frameData frameDataLength =>
    [.setFrameDataArray startIndex frameData frameDataLength]
  | .getFrameData index => [.getFrameData index]
  | .getFrameDataArray startIndex frameDataLength =>
    [.getFrameDataArray startIndex frameDataLength]
  | .isError => []
  | .getErrorCode => []
  | .setErrorCode errorCode => [.setErrorCode errorCode]
  | .getRXAddress =>
    [.getFrameData 1, .getFrameData 2, .getFrameData 3, .getFrameData 4, .getFrameData 5,
      .getFrameData 6, .getFrameData 7, .getFrameData 8, .getFrameData 9, .getFrameData 10]
  | .getRXAddress64 =>
    [.getFrameData 1, .getFrameData 2, .getFrameData 3, .getFrameData 4, .getFrameData 5,
      .getFrameData 6, .getFrameData 7, .getFrameData 8]
  | .getRXAddress16 => [.getFrameData 9, .getFrameData 10]
  | .getRXOptions => [.getFrameData 11]
  | .getRXPayloadLength => []
  | .getRXPayload index => [.getFrameData (index + 12)]
  | .getTXStatusAddress16 => [.getFrameData 9, .getFrameData 3]
  | .getTXStatusRetryCount => [.getFrameData 4]
  | .getTXStatusDeliveryStatus => [.getFrameData 5]
  | .getTXStatusDiscoveryStatus => [.getFrameData 6]
  | .getATResponseCommand => [.getFrameData 2, .getFrameData 3]
  | .getATResponseStatus => [.getFrameData 4]
  | .getATResponsePayloadLength => []
  | .getATResponsePayloadFirst => [.getFrameData 5]
  | .getATResponsePayload index => [.getFrameData (index + 5)]
  | .getRemoteATResponseAddress =>
    [.getFrameData 2, .getFrameData 3, .getFrameData 4, .getFrameData 5, .getFrameData 6,
      .getFrameData 7, .getFrameData 8, .getFrameData 9, .getFrameData 10, .getFrameData 11]
  | .getRemoteATResponseAddress64 =>
    [.getFrameData 2, .getFrameData 3, .getFrameData 4, .getFrameData 5, .getFrameData 6,
      .getFrameData 7, .getFrameData 8, .getFrameData 9]
  | .getRemoteATResponseAddress16 => [.getFrameData 10, .getFrameData 11]
  | .getRemoteATResponseCommand => [.getFrameData 12, .getFrameData 13]
  | .getRemoteATResponseStatus => [.getFrameData 14]
  | .getRemoteATResponsePayloadLength => []
  | .getRemoteATResponsePayloadFirst => [.getFrameData 15]
  | .getRemoteATResponsePayload index => [.getFrameData (index + 15)]
  | .getModemStatus => [.getFrameData 1]
  | .setFrameType frameType => [.setFrameData 0 frameType]
  | .setFrameID id => [.setFrameData 1 id]
  | .setAddressObject address =>
    [.setFrameData 2 (address.address64.address64MSB % 4294967296 / 2 ^ 24 % 256),
      .setFrameData 6 (address.address64.address64LSB % 4294967296 / 2 ^ 24 % 256),
      .setFrameData 3 (address.address64.address64MSB % 4294967296 / 2 ^ 16 % 256),
      .setFrameData 7 (address.address64.address64LSB % 4294967296 / 2 ^ 16 % 256),
      .setFrameData 4 (address.address64.address64MSB % 4294967296 / 2 ^ 8 % 256),
      .setFrameData 8 (address.address64.address64LSB % 4294967296 / 2 ^ 8 % 256),
      .setFrameData 5 (address.address64.address64MSB % 4294967296 / 2 ^ 0 % 256),
      .setFrameData 9 (address.address64.address64LSB % 4294967296 / 2 ^ 0 % 256),
      .setFrameData 10 (address.address16.address16 % 65536 / 256 % 256),
      .setFrameData 11 (address.address16.address16 % 65536 % 256)]
  | .setAddress adr64MSB adr64LSB adr16 =>
    [.setFrameData 2 (adr64MSB % 4294967296 / 2 ^ 24 % 256),
      .setFrameData 6 (adr64LSB % 4294967296 / 2 ^ 24 % 256),
      .setFrameData 3 (adr64MSB % 4294967296 / 2 ^ 16 % 256),
      .setFrameData 7 (adr64LSB % 4294967296 / 2 ^ 16 % 256),
      .setFrameData 4 (adr64MSB % 4294967296 / 2 ^ 8 % 256),
      .setFrameData 8 (adr64LSB % 4294967296 / 2 ^ 8 % 256),
      .setFrameData 5 (adr64MSB % 4294967296 / 2 ^ 0 % 256),
      .setFrameData 9 (adr64LSB % 4294967296 / 2 ^ 0 % 256),
      .setFrameData 10 (adr16 % 65536 / 256 % 256),
      .setFrameData 11 (adr16 % 65536 % 256)]
  | .setAddress64 adr64MSB adr64LSB =>
    [.setFrameData 2 (adr64MSB % 4294967296 / 2 ^ 24 % 256),
      .setFrameData 6 (adr64LSB % 4294967296 / 2 ^ 24 % 256),
      .setFrameData 3 (adr64MSB % 4294967296 / 2 ^ 16 % 256),
      .setFrameData 7 (adr64LSB % 4294967296 / 2 ^ 16 % 256),
      .setFrameData 4 (adr64MSB % 4294967296 / 2 ^ 8 % 256),
      .setFrameData 8 (adr64LSB % 4294967296 / 2 ^ 8 % 256),
      .setFrameData 5 (adr64MSB % 4294967296 / 2 ^ 0 % 256),
      .setFrameData 9 (adr64LSB % 4294967296 / 2 ^ 0 % 256)]
  | .setAddress16 adr16 =>
    [.setFrameData 10 (adr16 % 65536 / 256 % 256), .setFrameData 11 (adr16 % 65536 % 256)]
  | .setTXRequestBroadcastRadius rad => [.setFrameData 12 rad]
  | .setTXRequestOption opt => [.setFrameData 13 opt]
  | .setTXRequestPayload payload payloadSize => [.setFrameDataArray 14 payload payloadSize]
  | .setATCommand command =>
    [.setFrameData 2 (command % 65536 / 256 % 256), .setFrameData 3 (command % 65536 % 256)]
  | .setATCommandPayload payload => [.setFrameData 4 payload]
  | .setATCommandPayloadArray payload payloadSize =>
    [.setFrameDataArray 4 payload payloadSize]
  | .setRemoteATCommandOption opt => [.setFrameData 12 opt]
  | .setRemoteATCommand command =>
    [.setFrameData 13 (command % 65536 / 256 % 256),
      .setFrameData 14 (command % 65536 % 256)]
  | .setRemoteATCommandPayload payload => [.setFrameData 15 payload]
  | .setRemoteATCommandPayloadArray payload payloadSize =>
    [.setFrameDataArray 15 payload payloadSize]

/-- The step assigns the frame length directly. -/
def PacketStep.setsLength : PacketStep → Bool
  | .setFrameLength _ => true
  | .setFrameLengthMSB _ => true
  | .setFrameLengthLSB _ => true
  | _ => false

/-- The step assigns the error code directly. -/
def PacketStep.assignsError : PacketStep → Bool
  | .reset => true
  | .setErrorCode _ => true
  | _ => false

/-! ## Lemmas on the packet buffer -/

namespace SimpleZigBeePacket

theorem setMemoryData_fields (p : SimpleZigBeePacket) (i : Int) (b : Nat)
    (hi : i < p.maxFrameLength) :
    (p.setMemoryData i b).maxFrameLength = p.maxFrameLength
      ∧ (p.setMemoryData i b).frameLength = p.frameLength
      ∧ (p.setMemoryData i b).checksum = p.checksum
      ∧ (p.setMemoryData i b).reallocSucceeds = p.reallocSucceeds := by
  unfold setMemoryData expandMemoryArray store setErrorCode getMaxFrameLength memoryArrayLength
  split_ifs <;> simp_all

theorem setFrameData_maxFrameLength (p : SimpleZigBeePacket) (i : Int) (b : Nat) :
    (p.setFrameData i b).maxFrameLength = p.maxFrameLength := by
  unfold setFrameData setFrameLength getFrameLength getMaxFrameLength setErrorCode
  by_cases hi : i < p.maxFrameLength
  · have h := setMemoryData_fields p i b hi
    simp only [hi, if_true]
    split_ifs <;> simp [h.1]
  · simp [hi]

theorem setFrameData_reallocSucceeds (p : SimpleZigBeePacket) (i : Int) (b : Nat) :
    (p.setFrameData i b).reallocSucceeds = p.reallocSucceeds := by
  unfold setFrameData setFrameLength getFrameLength getMaxFrameLength setErrorCode
  by_cases hi : i < p.maxFrameLength
  · have h := setMemoryData_fields p i b hi
    simp only [hi, if_true]
    split_ifs <;> simp [h.2.2.2]
  · simp [hi]

theorem setFrameData_checksum (p : SimpleZigBeePacket) (i : Int) (b : Nat) :
    (p.setFrameData i b).checksum = p.checksum := by
  unfold setFrameData setFrameLength getFrameLength getMaxFrameLength setErrorCode
  by_cases hi : i < p.maxFrameLength
  · have h := setMemoryData_fields p i b hi
    simp only [hi, if_true]
    split_ifs <;> simp [h.2.2.1]
  · simp [hi]

/-- Inside the limit, `setFrameData` leaves the frame length at
`max frameLength (index + 1)`. -/
theorem setFrameData_frameLength (p : SimpleZigBeePacket) (i : Int) (b : Nat)
    (hi : i < p.maxFrameLength) :
    (p.setFrameData i b).frameLength
      = if i + 1 > p.frameLength then i + 1 else p.frameLength := by
  unfold setFrameData setFrameLength getFrameLength getMaxFrameLength
  have h := setMemoryData_fields p i b hi
  simp only [hi, if_true, h.2.1]
  split_ifs <;> simp [h.2.1]

/-- A write at an index the block already holds. -/
theorem setFrameData_inside (p : SimpleZigBeePacket) (i : Int) (b : Nat)
    (h0 : 0 ≤ i) (hi : i < p.maxFrameLength) (hc : i < p.memoryArrayLength) :
    p.setFrameData i b =
      { p with
        ptrMemoryArray := p.ptrMemoryArray.set i.toNat (b % 256)
        frameLength := if i + 1 > p.frameLength then i + 1 else p.frameLength } := by
  unfold setFrameData setMemoryData store setFrameLength getFrameLength getMaxFrameLength
  simp only [hi, hc, h0, if_true]
  split_ifs <;> rfl

/-- A write at an index beyond the block, when the block can grow to
`index + 10`. -/
theorem setFrameData_grow (p : SimpleZigBeePacket) (i : Int) (b : Nat)
    (h0 : 0 ≤ i) (hc : p.memoryArrayLength ≤ i) (hg : i + 10 ≤ p.maxFrameLength)
    (hr : p.reallocSucceeds = true) :
    p.setFrameData i b =
      { p with
        ptrMemoryArray :=
          (p.ptrMemoryArray ++ List.replicate ((i + 10).toNat - p.ptrMemoryArray.length) 0).set
            i.toNat (b % 256)
        frameLength := if i + 1 > p.frameLength then i + 1 else p.frameLength } := by
  have hi : i < p.maxFrameLength := by omega
  have hnc : ¬ i < p.memoryArrayLength := by omega
  have hsz : i + 10 > p.memoryArrayLength ∧ i + 10 ≤ p.maxFrameLength := by
    constructor <;> omega
  unfold setFrameData setMemoryData expandMemoryArray store setFrameLength getFrameLength
    getMaxFrameLength
  simp only [hi, hnc, hsz, hr, h0, if_true, if_false, and_self]
  split_ifs <;> rfl

end SimpleZigBeePacket

/-! ## Lemmas on the decoder loop -/

namespace SimpleZigBeeRadio

theorem xor_pair (x : Nat) (hx : x < 256) : (0x20 ^^^ ((x ^^^ 0x20) % 256)) % 256 = x := by
  have h1 : x ^^^ 0x20 < 256 := Nat.xor_lt_two_pow (n := 8) hx (by decide)
  rw [Nat.mod_eq_of_lt h1, Nat.xor_comm, Nat.xor_assoc]
  simp [Nat.mod_eq_of_lt hx]

/-- The dispatch of a byte at a frame-data position. -/
theorem readDispatch_data (r : SimpleZigBeeRadio) (h3 : 3 ≤ r.in_index)
    (hM : r.in_index ≤ r.incoming_packet.maxFrameLength)
    (hL : r.in_index < r.incoming_packet.frameLength + 3) :
    r.readDispatch =
      ({ r with
          in_checksum := (r.in_checksum + r.in_byte) % 256
          incoming_packet := r.incoming_packet.setFrameData (r.in_index - 3) r.in_byte
          in_index := r.in_index + 1 }, false) := by
  have e0 : ¬ (0 = r.in_index) := by omega
  have e1 : ¬ (1 = r.in_index) := by omega
  have e2 : ¬ (2 = r.in_index) := by omega
  have e3 : ¬ (r.in_index > r.incoming_packet.maxFrameLength) := by omega
  have e4 : ¬ (r.incoming_packet.frameLength + 3 = r.in_index) := by omega
  have e5 : r.in_index ≥ 3 := h3
  simp [readDispatch, SimpleZigBeePacket.getMaxFrameLength,
    SimpleZigBeePacket.getFrameLength, e0, e1, e2, e3, e4, e5]

/-- The dispatch of a byte at the checksum position. -/
theorem readDispatch_checksum (r : SimpleZigBeeRadio) (h3 : 3 ≤ r.in_index)
    (hM : r.in_index ≤ r.incoming_packet.maxFrameLength)
    (hL : r.incoming_packet.frameLength + 3 = r.in_index) :
    r.readDispatch =
      if (r.in_checksum + r.in_byte) % 256 = 255 then
        ({ r with
            in_checksum := (r.in_checksum + r.in_byte) % 256
            in_complete := true
            incoming_packet :=
              (r.incoming_packet.setChecksum ((r.in_checksum + r.in_byte) % 256)).setErrorCode
                NO_ERROR }, true)
      else
        ({ r with
            in_checksum := (r.in_checksum + r.in_byte) % 256
            incoming_packet := r.incoming_packet.setErrorCode CHECKSUM_FAILURE }, true) := by
  have e0 : ¬ (0 = r.in_index) := by omega
  have e1 : ¬ (1 = r.in_index) := by omega
  have e2 : ¬ (2 = r.in_index) := by omega
  have e3 : ¬ (r.in_index > r.incoming_packet.maxFrameLength) := by omega
  have e5 : r.in_index ≥ 3 := h3
  by_cases hc : (r.in_checksum + r.in_byte) % 256 = 255
  · have hc2 : (255 : Nat) = (r.in_checksum + r.in_byte) % 256 := hc.symm
    simp [readDispatch, SimpleZigBeePacket.getMaxFrameLength,
      SimpleZigBeePacket.getFrameLength, e0, e1, e2, e3, hL, e5, hc, setComplete]
  · have hc2 : ¬ ((255 : Nat) = (r.in_checksum + r.in_byte) % 256) := fun h => hc h.symm
    simp [readDispatch, SimpleZigBeePacket.getMaxFrameLength,
      SimpleZigBeePacket.getFrameLength, e0, e1, e2, e3, hL, e5, hc, hc2,
      setIncomingErrorCode]

/-- The loop body on a byte that the escape handling leaves alone: the radio is
not in escaped mode, or no escape is pending and either the cursor is at 0 or
the byte is neither `START` nor `ESCAPE`. -/
theorem readBody_plain (r : SimpleZigBeeRadio) (b : Nat) (next : Option Nat)
    (h : r.escaped_mode = false
      ∨ (r.in_escaping = false
          ∧ ((b % 256 ≠ START ∧ b % 256 ≠ ESCAPE) ∨ r.in_index ≤ 0))) :
    r.readBody b next =
      (({ r with in_byte := b % 256 } : SimpleZigBeeRadio).readDispatch.1,
       ({ r with in_byte := b % 256 } : SimpleZigBeeRadio).readDispatch.2, false) := by
  rcases h with h | ⟨he, h⟩
  · simp [readBody, h]
  · by_cases hm : r.escaped_mode = true
    · rcases h with ⟨hs, hx⟩ | h0
      · have hs2 : ¬ (START = b % 256) := fun e => hs e.symm
        simp [readBody, hm, he, hs2, hx, isEscaping]
      · have h1 : ¬ (0 < r.in_index) := by omega
        simp [readBody, hm, he, h1, isEscaping]
    · simp [readBody, hm]

/-- The loop body, in escaped mode, on `ESCAPE` when the escaped form of `x` is
the next byte of the serial buffer. -/
theorem readBody_pair (r : SimpleZigBeeRadio) (x : Nat)
    (hm : r.escaped_mode = true) (he : r.in_escaping = false) (hi : 0 < r.in_index)
    (hx : x < 256) :
    r.readBody ESCAPE (some (x ^^^ 0x20)) =
      (({ r with in_byte := x } : SimpleZigBeeRadio).readDispatch.1,
       ({ r with in_byte := x } : SimpleZigBeeRadio).readDispatch.2, true) := by
  have hp := xor_pair x hx
  simp only [Nat.reduceXor] at hp
  simp [readBody, hm, he, hi, isEscaping, hp, START, ESCAPE]

theorem readLoop_nil (r : SimpleZigBeeRadio) : r.readLoop [] = (r, []) := by
  rw [readLoop]

theorem readLoop_single (r : SimpleZigBeeRadio) (b : Nat) :
    r.readLoop [b] = ((r.readBody b none).1, []) := by
  rw [readLoop]

theorem readLoop_cons_cons (r : SimpleZigBeeRadio) (b c : Nat) (rest : List Nat) :
    r.readLoop (b :: c :: rest) =
      if (r.readBody b (some c)).2.1 = true then
        ((r.readBody b (some c)).1,
          if (r.readBody b (some c)).2.2 = true then rest else c :: rest)
      else if (r.readBody b (some c)).2.2 = true then
        readLoop (r.readBody b (some c)).1 rest
      else
        readLoop (r.readBody b (some c)).1 (c :: rest) := by
  rw [readLoop]

theorem readLoop_plain (r : SimpleZigBeeRadio) (b : Nat) (rest : List Nat)
    (h : r.escaped_mode = false
      ∨ (r.in_escaping = false
          ∧ ((b % 256 ≠ START ∧ b % 256 ≠ ESCAPE) ∨ r.in_index ≤ 0))) :
    r.readLoop (b :: rest) =
      if ({ r with in_byte := b % 256 } : SimpleZigBeeRadio).readDispatch.2 = true then
        (({ r with in_byte := b % 256 } : SimpleZigBeeRadio).readDispatch.1, rest)
      else
        readLoop ({ r with in_byte := b % 256 } : SimpleZigBeeRadio).readDispatch.1 rest := by
  cases rest with
  | nil =>
    rw [readLoop_single, readBody_plain r b none h]
    simp [readLoop_nil]
  | cons c rest =>
    rw [readLoop_cons_cons, readBody_plain r b (some c) h]
    simp

theorem readLoop_pair (r : SimpleZigBeeRadio) (x : Nat) (rest : List Nat)
    (hm : r.escaped_mode = true) (he : r.in_escaping = false) (hi : 0 < r.in_index)
    (hx : x < 256) :
    r.readLoop (ESCAPE :: (x ^^^ 0x20) :: rest) =
      if ({ r with in_byte := x } : SimpleZigBeeRadio).readDispatch.2 = true then
        (({ r with in_byte := x } : SimpleZigBeeRadio).readDispatch.1, rest)
      else
        readLoop ({ r with in_byte := x } : SimpleZigBeeRadio).readDispatch.1 rest := by
  rw [readLoop_cons_cons, readBody_pair r x hm he hi hx]
  simp

/-- Decoding, in escaped mode, the bytes that the escaping rule produces for
`x`: the de-escaped byte `x` is dispatched once. -/
theorem readLoop_esc (r : SimpleZigBeeRadio) (x : Nat) (rest : List Nat)
    (hm : r.escaped_mode = true) (he : r.in_escaping = false) (hi : 0 < r.in_index)
    (hx : x < 256) :
    r.readLoop (esc true x ++ rest) =
      if ({ r with in_byte := x } : SimpleZigBeeRadio).readDispatch.2 = true then
        (({ r with in_byte := x } : SimpleZigBeeRadio).readDispatch.1, rest)
      else
        readLoop ({ r with in_byte := x } : SimpleZigBeeRadio).readDispatch.1 rest := by
  by_cases hres : x = 0x7E ∨ x = 0x7D ∨ x = 0x11 ∨ x = 0x13
  · have h := readLoop_pair r x rest hm he hi hx
    simpa [esc, hres] using h
  · have hmod : x % 256 = x := Nat.mod_eq_of_lt hx
    have h := readLoop_plain r x rest
      (Or.inr ⟨he, Or.inl ⟨by rw [hmod]; intro e; exact hres (Or.inl e),
        by rw [hmod]; intro e; exact hres (Or.inr (Or.inl e))⟩⟩)
    rw [hmod] at h
    simpa [esc, hres] using h

end SimpleZigBeeRadio

/-! ## Lemmas on the encoder -/

namespace SimpleZigBeePacket

theorem load_lt (p : SimpleZigBeePacket) (i : Int) : p.load i < 256 := by
  unfold load
  split_ifs
  · exact Nat.mod_lt _ (by decide)
  · decide

theorem getMemoryData_lt (p : SimpleZigBeePacket) (i : Int) : p.getMemoryData i < 256 := by
  unfold getMemoryData
  split_ifs
  · exact load_lt p i
  · decide

theorem getFrameData_of_lt (p : SimpleZigBeePacket) (i : Int) (h : i < p.frameLength) :
    p.getFrameData i = (p.getMemoryData i, p) := by
  simp [getFrameData, getFrameLength, h]

theorem getFrameData_of_ge (p : SimpleZigBeePacket) (i : Int) (h : p.frameLength ≤ i) :
    p.getFrameData i = (0, p.setErrorCode FRAME_LENGTH_EXCEEDED) := by
  have h2 : ¬ i < p.frameLength := by omega
  simp [getFrameData, getFrameLength, h2]

end SimpleZigBeePacket

namespace SimpleZigBeeRadio

/-- The bytes `writeByte` writes are those of the escaping rule. -/
theorem writeByte_eq_esc (r : SimpleZigBeeRadio) (x : Nat) :
    r.writeByte x = esc r.escaped_mode (x % 256) := by
  unfold writeByte esc
  by_cases hm : r.escaped_mode = true
  · by_cases h1 : x % 256 = 0x7E
    · simp [hm, h1, START]
    · by_cases h2 : x % 256 = 0x7D
      · simp [hm, h2, START, ESCAPE, XON, XOFF]
      · by_cases h3 : x % 256 = 0x11
        · simp [hm, h3, START, ESCAPE, XON, XOFF]
        · by_cases h4 : x % 256 = 0x13
          · simp [hm, h4, START, ESCAPE, XON, XOFF]
          · have e1 : ¬ (126 = x % 256) := fun e => h1 e.symm
            have e2 : ¬ (125 = x % 256) := fun e => h2 e.symm
            have e3 : ¬ (17 = x % 256) := fun e => h3 e.symm
            have e4 : ¬ (19 = x % 256) := fun e => h4 e.symm
            simp [hm, h1, h2, h3, h4, e1, e2, e3, e4, START, ESCAPE, XON, XOFF]
  · simp [hm]

/-- The `for` loop of `sendPacket` from counter `i` with exactly the fuel of the
remaining iterations: the packet is unchanged, the checksum has accumulated
the remaining frame bytes, and their escaped forms have been written. -/
theorem sendPacketLoop_eq (r : SimpleZigBeeRadio) (p : SimpleZigBeePacket) :
    ∀ (n : Nat) (i : Int) (cs : Nat), cs < 256 → (p.frameLength - i).toNat = n →
      sendPacketLoop r n i p cs =
        (p,
         (cs + ((List.range n).map (fun (j : Nat) => p.getMemoryData (i + (j : Int)))).sum) % 256,
         ((List.range n).map (fun (j : Nat) => p.getMemoryData (i + (j : Int)))).flatMap
            (esc r.escaped_mode)) := by
  intro n
  induction n with
  | zero =>
    intro i cs hcs _
    simp [sendPacketLoop, Nat.mod_eq_of_lt hcs]
  | succ n ih =>
    intro i cs hcs hn
    have hi : i < p.frameLength := by omega
    have hn2 : (p.frameLength - (i + 1)).toNat = n := by omega
    have hb := SimpleZigBeePacket.getMemoryData_lt p i
    have ih2 := ih (i + 1) ((cs + p.getMemoryData i) % 256) (Nat.mod_lt _ (by decide)) hn2
    rw [sendPacketLoop]
    simp only [SimpleZigBeePacket.getFrameLength, hi, if_true,
      SimpleZigBeePacket.getFrameData_of_lt p i hi, ih2]
    rw [List.range_succ_eq_map]
    simp only [List.map_cons, List.map_map, List.sum_cons, List.flatMap_cons, Nat.cast_zero,
      add_zero, writeByte_eq_esc, Nat.mod_eq_of_lt hb]
    have hfun : ((fun j : Nat => p.getMemoryData (i + (j : Int))) ∘ Nat.succ)
        = (fun j : Nat => p.getMemoryData (i + 1 + (j : Int))) := by
      funext j
      simp only [Function.comp, Nat.succ_eq_add_one, Nat.cast_add, Nat.cast_one]
      congr 1
      omega
    rw [hfun]
    refine Prod.ext rfl (Prod.ext ?_ rfl)
    simp only
    omega

/-- What `sendPacket` writes is the wire format of the specification for the
packet's frame length and frame bytes, and the packet is left as it was. -/
theorem sendPacket_eq (r : SimpleZigBeeRadio) (p : SimpleZigBeePacket) :
    r.sendPacket p = (p, wireFormat r.escaped_mode p.frameLength (frameBytes p)) := by
  have hl := sendPacketLoop_eq r p p.frameLength.toNat 0 0 (by decide) (by simp)
  have hm : ((p.frameLength / 256) % 256).toNat % 256 = ((p.frameLength / 256) % 256).toNat := by
    omega
  have hlsb : (p.frameLength % 256).toNat % 256 = (p.frameLength % 256).toNat := by
    omega
  unfold sendPacket wireFormat frameBytes
  simp only [SimpleZigBeePacket.getFrameLength, hl, writeByte_eq_esc,
    SimpleZigBeePacket.getLengthMSB, SimpleZigBeePacket.getLengthLSB, hm, hlsb, zero_add]
  refine Prod.ext rfl ?_
  simp only [START, List.append_assoc, List.cons_append, List.nil_append, List.cons.injEq,
    true_and, List.append_cancel_left_eq]
  congr 1
  omega

end SimpleZigBeeRadio

/-! ## Lemmas on decoding a frame -/

namespace SimpleZigBeeRadio

theorem decodes_esc : Decodes (esc true) true (fun _ => True) := by
  intro r x rest hm he hi hx _
  exact readLoop_esc r x rest hm he hi hx

theorem decodes_raw : Decodes (fun x => [x]) false (fun _ => True) := by
  intro r x rest hm _ _ hx _
  have h := readLoop_plain r x rest (Or.inl hm)
  rw [Nat.mod_eq_of_lt hx] at h
  simpa using h

theorem decodes_unreserved :
    Decodes (fun x => [x]) true (fun x => x ≠ START ∧ x ≠ ESCAPE) := by
  intro r x rest _ he _ hx hP
  have h := readLoop_plain r x rest
    (Or.inr ⟨he, Or.inl (by rw [Nat.mod_eq_of_lt hx]; exact hP)⟩)
  rw [Nat.mod_eq_of_lt hx] at h
  simpa using h

theorem foldl_checksum (f : List Nat) :
    ∀ cs : Nat, cs < 256 → f.foldl (fun c b => (c + b) % 256) cs = (cs + f.sum) % 256 := by
  induction f with
  | nil => intro cs h; simp [Nat.mod_eq_of_lt h]
  | cons b f ih =>
    intro cs _
    rw [List.foldl_cons, ih _ (Nat.mod_lt _ (by decide)), List.sum_cons]
    omega

end SimpleZigBeeRadio

theorem storeFrom_maxFrameLength (f : List Nat) :
    ∀ (p : SimpleZigBeePacket) (k : Int),
      (storeFrom p k f).maxFrameLength = p.maxFrameLength := by
  induction f with
  | nil => intro p k; rfl
  | cons b f ih =>
    intro p k
    rw [storeFrom, ih, SimpleZigBeePacket.setFrameData_maxFrameLength]

theorem storeFrom_checksum (f : List Nat) :
    ∀ (p : SimpleZigBeePacket) (k : Int), (storeFrom p k f).checksum = p.checksum := by
  induction f with
  | nil => intro p k; rfl
  | cons b f ih =>
    intro p k
    rw [storeFrom, ih, SimpleZigBeePacket.setFrameData_checksum]

/-- Storing below the frame length, inside the limit, keeps the frame length. -/
theorem storeFrom_frameLength (f : List Nat) :
    ∀ (p : SimpleZigBeePacket) (k : Int),
      k + (f.length : Int) ≤ p.frameLength → k + (f.length : Int) ≤ p.maxFrameLength →
      (storeFrom p k f).frameLength = p.frameLength := by
  induction f with
  | nil => intro p k _ _; rfl
  | cons b f ih =>
    intro p k hL hM
    simp only [List.length_cons, Nat.cast_add, Nat.cast_one] at hL hM
    have hk : k < p.maxFrameLength := by omega
    have h1 : (p.setFrameData k b).frameLength = p.frameLength := by
      rw [SimpleZigBeePacket.setFrameData_frameLength p k b hk]
      have : ¬ (k + 1 > p.frameLength) := by omega
      simp [this]
    rw [storeFrom, ih _ _ (by rw [h1]; omega)
      (by rw [SimpleZigBeePacket.setFrameData_maxFrameLength]; omega), h1]

namespace SimpleZigBeeRadio

/-- Decoding the transmitted forms of the frame bytes `f` at frame-data
positions: the loop takes them all and goes on with the rest of the input. -/
theorem readLoop_frame (enc : Nat → List Nat) (mode : Bool) (P : Nat → Prop)
    (hd : Decodes enc mode P) (f : List Nat) :
    ∀ (r : SimpleZigBeeRadio) (rest : List Nat),
      r.escaped_mode = mode → r.in_escaping = false → 3 ≤ r.in_index →
      (∀ x ∈ f, x < 256 ∧ P x) →
      r.in_index + (f.length : Int) ≤ r.incoming_packet.frameLength + 3 →
      r.incoming_packet.frameLength + 3 ≤ r.incoming_packet.maxFrameLength →
      r.readLoop (f.flatMap enc ++ rest) = readLoop (afterFrameBytes r f) rest := by
  induction f with
  | nil =>
    intro r rest _ _ _ _ _ _
    simp [afterFrameBytes, storeFrom]
  | cons b f ih =>
    intro r rest hm he h3 hf hL hM
    simp only [List.length_cons, Nat.cast_add, Nat.cast_one] at hL
    have hb := hf b (List.mem_cons_self _ _)
    have hstep := hd r b (f.flatMap enc ++ rest) hm he (by omega) hb.1 hb.2
    have hdis := readDispatch_data ({ r with in_byte := b } : SimpleZigBeeRadio)
      (by simpa using h3) (by simp only; omega) (by simp only; omega)
    rw [List.flatMap_cons, List.append_assoc, hstep, hdis]
    simp only [Bool.false_eq_true, if_false]
    have hfl : (r.incoming_packet.setFrameData (r.in_index - 3) b).frameLength
        = r.incoming_packet.frameLength := by
      rw [SimpleZigBeePacket.setFrameData_frameLength _ _ _ (by omega)]
      have : ¬ (r.in_index - 3 + 1 > r.incoming_packet.frameLength) := by omega
      simp [this]
    rw [ih _ rest (by simpa using hm) (by simpa using he) (by simp only; omega)
      (fun x hx => hf x (List.mem_cons_of_mem _ hx))
      (by simp only [hfl]; omega)
      (by simp only [hfl, SimpleZigBeePacket.setFrameData_maxFrameLength]; omega)]
    congr 1
    simp only [afterFrameBytes, List.foldl_cons, List.length_cons, Nat.cast_add, Nat.cast_one,
      storeFrom]
    have e1 : r.in_index + 1 - 3 = r.in_index - 3 + 1 := by omega
    have e2 : r.in_index + 1 + (f.length : Int) = r.in_index + ((f.length : Int) + 1) := by
      omega
    rw [e1, e2]

end SimpleZigBeeRadio

/-! ## Lemmas on the bytes stored by consecutive writes -/

namespace SimpleZigBeePacket

/-- The byte read back from a block in which index `n` has just been set. -/
theorem load_set (p : SimpleZigBeePacket) (l : List Nat) (n : Nat) (v : Nat) (i : Int)
    (hp : p.ptrMemoryArray = l.set n v) (h0 : 0 ≤ i) (hi : i.toNat < l.length) :
    p.getMemoryData i = if n = i.toNat then v % 256 else (l.getD i.toNat 0) % 256 := by
  have hlen : i < p.memoryArrayLength := by
    unfold memoryArrayLength
    rw [hp, List.length_set]
    omega
  unfold getMemoryData load
  simp only [hlen, h0, if_true, hp, List.getD_eq_getElem?_getD, List.getElem?_set]
  by_cases hn : n = i.toNat
  · have hn2 : n < l.length := by omega
    simp [hn, hi]
  · simp [hn]

/-- One write of the decoder at the next frame index: the buffer keeps its
shape, holds the index written, reads the byte back there and keeps the bytes
below. -/
theorem setFrameData_step (p : SimpleZigBeePacket) (k : Int) (b : Nat)
    (hg : GrowsByTens p) (hr : p.reallocSucceeds = true) (h0 : 0 ≤ k)
    (hk : k ≤ p.memoryArrayLength) (hM : k < p.maxFrameLength) :
    GrowsByTens (p.setFrameData k b)
      ∧ k + 1 ≤ (p.setFrameData k b).memoryArrayLength
      ∧ (p.setFrameData k b).getMemoryData k = b % 256
      ∧ ∀ i : Int, 0 ≤ i → i < k →
          (p.setFrameData k b).getMemoryData i = p.getMemoryData i := by
  obtain ⟨hg1, hg2⟩ := hg
  unfold memoryArrayLength at hk hg1 hg2
  by_cases hc : k < p.memoryArrayLength
  · have hc2 : k < (p.ptrMemoryArray.length : Int) := hc
    rw [setFrameData_inside p k b h0 hM hc]
    refine ⟨?_, ?_, ?_, ?_⟩
    · simp only [GrowsByTens, memoryArrayLength, List.length_set]
      exact ⟨hg1, hg2⟩
    · simp only [memoryArrayLength, List.length_set]
      omega
    · rw [load_set _ p.ptrMemoryArray k.toNat (b % 256) k rfl h0 (by omega)]
      simp
    · intro i hi0 hik
      rw [load_set _ p.ptrMemoryArray k.toNat (b % 256) i rfl hi0 (by omega)]
      have hne : ¬ (k.toNat = i.toNat) := by omega
      have hil : i < p.memoryArrayLength := by unfold memoryArrayLength; omega
      simp [hne, getMemoryData, load, hil, hi0]
  · have hc2 : ¬ k < (p.ptrMemoryArray.length : Int) := hc
    have hkeq : k = (p.ptrMemoryArray.length : Int) := by omega
    have hgrow : k + 10 ≤ p.maxFrameLength := by omega
    rw [setFrameData_grow p k b h0 (by unfold memoryArrayLength; omega) hgrow hr]
    have hlen : (p.ptrMemoryArray
        ++ List.replicate ((k + 10).toNat - p.ptrMemoryArray.length) 0).length
          = p.ptrMemoryArray.length + 10 := by
      simp only [List.length_append, List.length_replicate]
      omega
    refine ⟨?_, ?_, ?_, ?_⟩
    · simp only [GrowsByTens, memoryArrayLength, List.length_set, hlen]
      constructor <;> omega
    · simp only [memoryArrayLength, List.length_set, hlen]
      omega
    · rw [load_set _ _ k.toNat (b % 256) k rfl h0 (by rw [hlen]; omega)]
      simp
    · intro i hi0 hik
      rw [load_set _ _ k.toNat (b % 256) i rfl hi0 (by rw [hlen]; omega)]
      have hne : ¬ (k.toNat = i.toNat) := by omega
      have hil : i < p.memoryArrayLength := by unfold memoryArrayLength; omega
      have hil2 : i.toNat < p.ptrMemoryArray.length := by omega
      simp [hne, getMemoryData, load, hil, hi0, List.getElem?_append_left hil2]

end SimpleZigBeePacket

/-- Consecutive writes from index `k` on into a buffer that grows by tens: every
index written reads back its byte, and the bytes below `k` are kept. -/
theorem storeFrom_stored (f : List Nat) :
    ∀ (p : SimpleZigBeePacket) (k : Int),
      GrowsByTens p → p.reallocSucceeds = true → 0 ≤ k → k ≤ p.memoryArrayLength →
      k + (f.length : Int) ≤ p.maxFrameLength →
      (∀ (j : Nat) (hj : j < f.length),
          (storeFrom p k f).getMemoryData (k + (j : Int)) = f[j] % 256)
        ∧ (∀ i : Int, 0 ≤ i → i < k →
            (storeFrom p k f).getMemoryData i = p.getMemoryData i) := by
  induction f with
  | nil =>
    intro p k _ _ _ _ _
    exact ⟨fun j hj => absurd hj (by simp), fun i _ _ => rfl⟩
  | cons b f ih =>
    intro p k hg hr h0 hk hM
    simp only [List.length_cons, Nat.cast_add, Nat.cast_one] at hM
    obtain ⟨s1, s2, s3, s4⟩ :=
      SimpleZigBeePacket.setFrameData_step p k b hg hr h0 hk (by omega)
    obtain ⟨i1, i2⟩ := ih (p.setFrameData k b) (k + 1) s1
      (by rw [SimpleZigBeePacket.setFrameData_reallocSucceeds]; exact hr) (by omega) s2
      (by rw [SimpleZigBeePacket.setFrameData_maxFrameLength]; omega)
    refine ⟨?_, ?_⟩
    · intro j hj
      cases j with
      | zero =>
        simp only [storeFrom, Nat.cast_zero, add_zero, List.getElem_cons_zero]
        rw [i2 k h0 (by omega), s3]
      | succ j =>
        have hj2 : j < f.length := by simpa using hj
        have h := i1 j hj2
        simp only [storeFrom, List.getElem_cons_succ, Nat.cast_add, Nat.cast_one]
        have e : k + ((j : Int) + 1) = k + 1 + (j : Int) := by omega
        rw [e, h]
    · intro i hi0 hik
      simp only [storeFrom]
      rw [i2 i hi0 (by omega), s4 i hi0 hik]

/-! ## Lemmas on decoding a whole packet -/

namespace SimpleZigBeePacket

/-- The two length bytes of a 16-bit length `L`, set in wire order, leave the
frame length at `L` whatever it was before. -/
theorem setFrameLength_bytes (p : SimpleZigBeePacket) (L : Nat) (hL : L < 65536) :
    (p.setFrameLengthMSB (L / 256)).setFrameLengthLSB (L % 256)
      = { p with frameLength := (L : Int) } := by
  unfold setFrameLengthLSB setFrameLengthMSB getLengthMSB getLengthLSB setFrameLength
    getFrameLength
  simp only
  congr 1
  omega

@[simp] theorem getMemoryData_setErrorCode (p : SimpleZigBeePacket) (e : Int) (i : Int) :
    (p.setErrorCode e).getMemoryData i = p.getMemoryData i := rfl

@[simp] theorem getMemoryData_setChecksum (p : SimpleZigBeePacket) (c : Nat) (i : Int) :
    (p.setChecksum c).getMemoryData i = p.getMemoryData i := rfl

end SimpleZigBeePacket

namespace SimpleZigBeeRadio

theorem readDispatch_start (r : SimpleZigBeeRadio) (h0 : r.in_index = 0)
    (hb : r.in_byte = START) :
    r.readDispatch = ({ r with in_index := 1 }, false) := by
  simp [readDispatch, h0, hb, FRAME_TYPE_INDEX]

theorem readDispatch_msb (r : SimpleZigBeeRadio) (h1 : r.in_index = 1) :
    r.readDispatch =
      ({ r with
          incoming_packet := r.incoming_packet.setFrameLengthMSB r.in_byte
          in_index := 2 }, false) := by
  simp [readDispatch, h1, FRAME_TYPE_INDEX]

theorem readDispatch_lsb (r : SimpleZigBeeRadio) (h2 : r.in_index = 2) :
    r.readDispatch =
      ({ r with
          incoming_packet := r.incoming_packet.setFrameLengthLSB r.in_byte
          in_index := 3 }, false) := by
  simp [readDispatch, h2, FRAME_TYPE_INDEX]

/-- Decoding, from the cursor at 1, the transmitted forms of the length bytes,
the frame bytes `f` and a closing byte `c`: the loop stops at `c`, leaves the
rest of the input unread, and ends complete or with a checksum failure
according to the sum of `f` and `c`. -/
theorem readLoop_body (enc : Nat → List Nat) (mode : Bool) (P : Nat → Prop)
    (hd : Decodes enc mode P) (r : SimpleZigBeeRadio) (f : List Nat) (c : Nat)
    (rest : List Nat)
    (hm : r.escaped_mode = mode) (he : r.in_escaping = false) (h1 : r.in_index = 1)
    (hcs : r.in_checksum = 0)
    (hf : ∀ x ∈ f, x < 256 ∧ P x) (hc : c < 256 ∧ P c) (hlen : f.length < 65536)
    (hPm : P (f.length / 256)) (hPl : P (f.length % 256))
    (hM : (f.length : Int) + 3 ≤ r.incoming_packet.maxFrameLength) :
    r.readLoop (enc (f.length / 256) ++ enc (f.length % 256) ++ f.flatMap enc ++ enc c ++ rest)
      = (if (f.sum + c) % 256 = 255 then
          { r with
            in_byte := c
            in_checksum := 255
            in_index := 3 + (f.length : Int)
            in_complete := true
            incoming_packet :=
              ((storeFrom { r.incoming_packet with frameLength := (f.length : Int) } 0
                  f).setChecksum 255).setErrorCode NO_ERROR }
        else
          { r with
            in_byte := c
            in_checksum := (f.sum + c) % 256
            in_index := 3 + (f.length : Int)
            incoming_packet :=
              (storeFrom { r.incoming_packet with frameLength := (f.length : Int) } 0
                  f).setErrorCode CHECKSUM_FAILURE }, rest) := by
  have hmsb : f.length / 256 < 256 := by omega
  have hlsb : f.length % 256 < 256 := by omega
  -- the two length bytes
  have s1 := hd r (f.length / 256) (enc (f.length % 256) ++ (f.flatMap enc ++ (enc c ++ rest)))
    hm he (by omega) hmsb hPm
  rw [readDispatch_msb _ (by simpa using h1)] at s1
  simp only [Bool.false_eq_true, if_false] at s1
  have s2 := hd
    ({ r with
        in_byte := f.length / 256
        incoming_packet := r.incoming_packet.setFrameLengthMSB (f.length / 256)
        in_index := 2 } : SimpleZigBeeRadio)
    (f.length % 256) (f.flatMap enc ++ (enc c ++ rest))
    (by simpa using hm) (by simpa using he) (by simp) hlsb hPl
  rw [readDispatch_lsb _ (by simp)] at s2
  simp only [Bool.false_eq_true, if_false,
    SimpleZigBeePacket.setFrameLength_bytes r.incoming_packet f.length hlen] at s2
  -- the frame bytes
  have s3 := readLoop_frame enc mode P hd f
    ({ r with
        in_byte := f.length % 256
        incoming_packet := { r.incoming_packet with frameLength := (f.length : Int) }
        in_index := 3 } : SimpleZigBeeRadio)
    (enc c ++ rest) (by simpa using hm) (by simpa using he) (by simp) hf
    (by simp only; omega) (by simp only; omega)
  -- the closing byte
  have hq1 := storeFrom_frameLength f
    ({ r.incoming_packet with frameLength := (f.length : Int) } : SimpleZigBeePacket) 0
    (by simp) (by simp only; omega)
  have hq2 := storeFrom_maxFrameLength f
    ({ r.incoming_packet with frameLength := (f.length : Int) } : SimpleZigBeePacket) 0
  have s4 := hd
    (afterFrameBytes
      ({ r with
          in_byte := f.length % 256
          incoming_packet := { r.incoming_packet with frameLength := (f.length : Int) }
          in_index := 3 } : SimpleZigBeeRadio) f)
    c rest (by simpa [afterFrameBytes] using hm) (by simpa [afterFrameBytes] using he)
    (by simp only [afterFrameBytes]; omega) hc.1 hc.2
  have hfold := foldl_checksum f 0 (by decide)
  rw [readDispatch_checksum _ (by simp only [afterFrameBytes]; omega)
    (by simp only [afterFrameBytes, sub_self, hq2]; omega)
    (by simp only [afterFrameBytes, sub_self, hq1]; omega)] at s4
  simp only [List.append_assoc]
  rw [s1, s2, s3, s4]
  simp only [afterFrameBytes, hcs, hfold, zero_add, sub_self]
  by_cases hsum : (f.sum + c) % 256 = 255
  · have h2 : (f.sum % 256 + c) % 256 = 255 := by omega
    simp [hsum, h2]
  · have h2 : ¬ ((f.sum % 256 + c) % 256 = 255) := by omega
    have h3 : (f.sum % 256 + c) % 256 = (f.sum + c) % 256 := by omega
    simp [hsum, h2, h3]

end SimpleZigBeeRadio

namespace SimpleZigBeeRadio

theorem flatMap_single (f : List Nat) : f.flatMap (fun x => [x]) = f := by
  induction f with
  | nil => rfl
  | cons b f ih => simp [List.flatMap_cons, ih]

/-- A call of `read()` on a freshly reset decoder whose input starts with
`START` followed by the transmitted forms of the length bytes, the frame bytes
`f` and a closing byte `c`. -/
theorem read_reset_packet (enc : Nat → List Nat) (mode : Bool) (P : Nat → Prop)
    (hd : Decodes enc mode P) (r : SimpleZigBeeRadio) (f : List Nat) (c : Nat)
    (rest : List Nat) (hm : r.escaped_mode = mode)
    (hf : ∀ x ∈ f, x < 256 ∧ P x) (hc : c < 256 ∧ P c) (hlen : f.length < 65536)
    (hPm : P (f.length / 256)) (hPl : P (f.length % 256))
    (hM : (f.length : Int) + 3 ≤ r.incoming_packet.maxFrameLength) :
    r.resetIncoming.read
        (START :: (enc (f.length / 256) ++ enc (f.length % 256) ++ f.flatMap enc ++ enc c
          ++ rest))
      = (if (f.sum + c) % 256 = 255 then
          { r with
            in_byte := c
            in_checksum := 255
            in_index := 3 + (f.length : Int)
            in_escaping := false
            in_complete := true
            incoming_packet :=
              ((storeFrom { r.incoming_packet.reset with frameLength := (f.length : Int) } 0
                  f).setChecksum 255).setErrorCode NO_ERROR }
        else
          { r with
            in_byte := c
            in_checksum := (f.sum + c) % 256
            in_index := 3 + (f.length : Int)
            in_escaping := false
            in_complete := false
            incoming_packet :=
              (storeFrom { r.incoming_packet.reset with frameLength := (f.length : Int) } 0
                  f).setErrorCode CHECKSUM_FAILURE }, rest) := by
  have hpre : r.resetIncoming.read
        (START :: (enc (f.length / 256) ++ enc (f.length % 256) ++ f.flatMap enc ++ enc c
          ++ rest))
      = r.resetIncoming.readLoop
        (START :: (enc (f.length / 256) ++ enc (f.length % 256) ++ f.flatMap enc ++ enc c
          ++ rest)) := by
    simp [read, resetIncoming, SimpleZigBeePacket.reset, SimpleZigBeePacket.init,
      SimpleZigBeePacket.isError, isComplete, NO_ERROR]
  rw [hpre, readLoop_plain _ START _
    (Or.inr ⟨by simp [resetIncoming], Or.inr (by simp [resetIncoming])⟩)]
  rw [readDispatch_start _ (by simp [resetIncoming]) (by simp [START])]
  simp only [Bool.false_eq_true, if_false]
  rw [readLoop_body enc mode P hd _ f c rest (by simpa [resetIncoming] using hm)
    (by simp [resetIncoming]) (by simp) (by simp [resetIncoming]) hf hc hlen hPm hPl
    (by simpa [resetIncoming, SimpleZigBeePacket.reset, SimpleZigBeePacket.init] using hM)]
  by_cases hsum : (f.sum + c) % 256 = 255
  · simp [hsum, resetIncoming]
  · simp [hsum, resetIncoming]

/-- A call of `read()` on a decoder that stopped on `UnexpectedPacketStart`,
when the input holds the transmitted forms of the length bytes, the frame bytes
`f` and a closing byte `c`. -/
theorem read_after_unexpected_start (enc : Nat → List Nat) (mode : Bool) (P : Nat → Prop)
    (hd : Decodes enc mode P) (hne : ∀ x, enc x ≠ []) (r : SimpleZigBeeRadio)
    (f : List Nat) (c : Nat) (rest : List Nat) (hm : r.escaped_mode = mode)
    (herr : r.incoming_packet.errorCode = UNEXPECTED_PACKET_START)
    (hf : ∀ x ∈ f, x < 256 ∧ P x) (hc : c < 256 ∧ P c) (hlen : f.length < 65536)
    (hPm : P (f.length / 256)) (hPl : P (f.length % 256))
    (hM : (f.length : Int) + 3 ≤ r.incoming_packet.maxFrameLength) :
    r.read (enc (f.length / 256) ++ enc (f.length % 256) ++ f.flatMap enc ++ enc c ++ rest)
      = (if (f.sum + c) % 256 = 255 then
          { r with
            in_byte := c
            in_checksum := 255
            in_index := 3 + (f.length : Int)
            in_escaping := false
            in_complete := true
            incoming_packet :=
              ((storeFrom { r.incoming_packet.reset with frameLength := (f.length : Int) } 0
                  f).setChecksum 255).setErrorCode NO_ERROR }
        else
          { r with
            in_byte := c
            in_checksum := (f.sum + c) % 256
            in_index := 3 + (f.length : Int)
            in_escaping := false
            in_complete := false
            incoming_packet :=
              (storeFrom { r.incoming_packet.reset with frameLength := (f.length : Int) } 0
                  f).setErrorCode CHECKSUM_FAILURE }, rest) := by
  have hnil : enc (f.length / 256) ++ enc (f.length % 256) ++ f.flatMap enc ++ enc c ++ rest
      ≠ [] := by
    simp [hne]
  have hpre : r.read
        (enc (f.length / 256) ++ enc (f.length % 256) ++ f.flatMap enc ++ enc c ++ rest)
      = ({ r.resetIncoming with in_index := 1 } : SimpleZigBeeRadio).readLoop
        (enc (f.length / 256) ++ enc (f.length % 256) ++ f.flatMap enc ++ enc c ++ rest) := by
    unfold read
    rw [if_pos hnil]
    simp [SimpleZigBeePacket.isError, SimpleZigBeePacket.getErrorCode, herr,
      UNEXPECTED_PACKET_START]
  rw [hpre]
  rw [readLoop_body enc mode P hd _ f c rest (by simpa [resetIncoming] using hm)
    (by simp [resetIncoming]) (by simp) (by simp [resetIncoming]) hf hc hlen hPm hPl
    (by simpa [resetIncoming, SimpleZigBeePacket.reset, SimpleZigBeePacket.init] using hM)]
  by_cases hsum : (f.sum + c) % 256 = 255
  · simp [hsum, resetIncoming]
  · simp [hsum, resetIncoming]

end SimpleZigBeeRadio

/-! ## Further lemmas on packets, the encoder and the decoder -/

namespace SimpleZigBeeRadio

theorem decodes_any_mode (mode : Bool) :
    Decodes (fun x => [x]) mode (fun x => mode = false ∨ (x ≠ START ∧ x ≠ ESCAPE)) := by
  intro r x rest hm he hi hx hP
  cases mode with
  | false => exact decodes_raw r x rest hm he hi hx trivial
  | true =>
    rcases hP with h | h
    · exact absurd h (by decide)
    · exact decodes_unreserved r x rest hm he hi hx h

end SimpleZigBeeRadio

namespace SimpleZigBeeRadio

/-- The loop body, in escaped mode, on a `START` fetched while the cursor is
past 0: the error is recorded and the body returns without fetching more. -/
theorem readBody_unexpected_start (r : SimpleZigBeeRadio) (next : Option Nat)
    (hm : r.escaped_mode = true) (hi : 0 < r.in_index) :
    r.readBody START next =
      (({ r with in_byte := START } : SimpleZigBeeRadio).setIncomingErrorCode
          UNEXPECTED_PACKET_START, true, false) := by
  simp [readBody, hm, hi, START]

theorem readLoop_unexpected_start (r : SimpleZigBeeRadio) (rest : List Nat)
    (hm : r.escaped_mode = true) (hi : 0 < r.in_index) :
    r.readLoop (START :: rest) =
      (({ r with in_byte := START } : SimpleZigBeeRadio).setIncomingErrorCode
          UNEXPECTED_PACKET_START, rest) := by
  cases rest with
  | nil => rw [readLoop_single, readBody_unexpected_start r none hm hi]
  | cons c rest =>
    rw [readLoop_cons_cons, readBody_unexpected_start r (some c) hm hi]
    simp

theorem esc_ne_nil (m : Bool) (x : Nat) : esc m x ≠ [] := by
  unfold esc
  split_ifs <;> simp

/-- The bytes that follow `START` in the wire format of a frame `f` whose
length fits the two length bytes. -/
theorem wireFormat_tail (m : Bool) (f : List Nat) (hlen : f.length < 65536) :
    (wireFormat m (f.length : Int) f).tail =
      esc m (f.length / 256) ++ esc m (f.length % 256) ++ f.flatMap (esc m)
        ++ esc m (0xFF - f.sum % 256) := by
  have h1 : (((f.length : Int) / 256) % 256).toNat = f.length / 256 := by omega
  have h2 : ((f.length : Int) % 256).toNat = f.length % 256 := by omega
  simp [wireFormat, h1, h2]

/-- The packet in which the decoder has stored the frame `f` has frame length
`|f|` and, when the buffer grows by tens, holds every byte of `f`. -/
theorem stored_frame (p : SimpleZigBeePacket) (f : List Nat) (hf : ∀ x ∈ f, x < 256)
    (hM : (f.length : Int) + 3 ≤ p.maxFrameLength) (hg : GrowsByTens p)
    (hr : p.reallocSucceeds = true) :
    (storeFrom { p.reset with frameLength := (f.length : Int) } 0 f).frameLength
        = (f.length : Int)
      ∧ ∀ (j : Nat) (hj : j < f.length),
          (storeFrom { p.reset with frameLength := (f.length : Int) } 0 f).getMemoryData
            (j : Int) = f[j] := by
  have hq1 := storeFrom_frameLength f
    ({ p.reset with frameLength := (f.length : Int) } : SimpleZigBeePacket) 0
    (by simp)
    (by simp only [SimpleZigBeePacket.reset, SimpleZigBeePacket.init]; omega)
  have hst := (storeFrom_stored f
    ({ p.reset with frameLength := (f.length : Int) } : SimpleZigBeePacket) 0
    (by simpa [GrowsByTens, SimpleZigBeePacket.reset, SimpleZigBeePacket.init,
      SimpleZigBeePacket.memoryArrayLength] using hg)
    (by simpa [SimpleZigBeePacket.reset, SimpleZigBeePacket.init] using hr) (le_refl 0)
    (by simp [SimpleZigBeePacket.memoryArrayLength])
    (by simp only [SimpleZigBeePacket.reset, SimpleZigBeePacket.init]; omega)).1
  refine ⟨hq1, ?_⟩
  intro j hj
  have h := hst j hj
  simp only [zero_add] at h
  rw [h, Nat.mod_eq_of_lt (hf _ (List.getElem_mem hj))]

/-- Reading a frame byte of a packet whose error code and checksum were set
after the frame was stored. -/
theorem getFrameData_stored (q : SimpleZigBeePacket) (L : Int) (j : Int) (b : Nat)
    (hL : q.frameLength = L) (hj : j < L) (hb : q.getMemoryData j = b) (e : Int) :
    ((q.setErrorCode e).getFrameData j = (b, q.setErrorCode e))
      ∧ (((q.setChecksum 255).setErrorCode e).getFrameData j
          = (b, (q.setChecksum 255).setErrorCode e)) := by
  constructor
  · rw [SimpleZigBeePacket.getFrameData_of_lt _ _
      (by simpa [SimpleZigBeePacket.setErrorCode, hL] using hj)]
    simp [hb]
  · rw [SimpleZigBeePacket.getFrameData_of_lt _ _
      (by simpa [SimpleZigBeePacket.setErrorCode, SimpleZigBeePacket.setChecksum, hL]
        using hj)]
    simp [hb]

end SimpleZigBeeRadio

theorem errorCode_setErrorCode (p : SimpleZigBeePacket) (e : Int) :
    (p.setErrorCode e).errorCode = e := rfl

namespace SimpleZigBeePacket

/-- A write inside the limit at an index that the buffer holds, or to which it
can grow by ten within the limit, records no error and reads back. -/
theorem setFrameData_readback (p : SimpleZigBeePacket) (k : Int) (b : Nat)
    (h0 : 0 ≤ k) (hM : k < p.maxFrameLength)
    (hbuf : k < p.memoryArrayLength
      ∨ (k + 10 ≤ p.maxFrameLength ∧ p.reallocSucceeds = true)) :
    (p.setFrameData k b).errorCode = p.errorCode
      ∧ (p.setFrameData k b).getMemoryData k = b % 256 := by
  by_cases hc : k < p.memoryArrayLength
  · have hc2 : k.toNat < p.ptrMemoryArray.length := by
      unfold memoryArrayLength at hc
      omega
    rw [setFrameData_inside p k b h0 hM hc]
    refine ⟨rfl, ?_⟩
    rw [load_set _ p.ptrMemoryArray k.toNat (b % 256) k rfl h0 hc2]
    simp
  · rcases hbuf with h | ⟨hg, hr⟩
    · exact absurd h hc
    · unfold memoryArrayLength at hc
      rw [setFrameData_grow p k b h0 (by unfold memoryArrayLength; omega) hg hr]
      refine ⟨rfl, ?_⟩
      rw [load_set _ _ k.toNat (b % 256) k rfl h0
        (by simp only [List.length_append, List.length_replicate]; omega)]
      simp

end SimpleZigBeePacket

/-- In the stuffed form of any byte list, `0x7E`, `0x11` and `0x13` do not
occur, and every `0x7D` is followed by `0x5E`, `0x5D`, `0x31` or `0x33`. -/
theorem stuffed_bytes (bs : List Nat) :
    (∀ i : Nat, (bs.flatMap (esc true))[i]? ≠ some 0x7E
        ∧ (bs.flatMap (esc true))[i]? ≠ some 0x11
        ∧ (bs.flatMap (esc true))[i]? ≠ some 0x13)
      ∧ ∀ i : Nat, (bs.flatMap (esc true))[i]? = some 0x7D →
          (bs.flatMap (esc true))[i + 1]? = some 0x5E
          ∨ (bs.flatMap (esc true))[i + 1]? = some 0x5D
          ∨ (bs.flatMap (esc true))[i + 1]? = some 0x31
          ∨ (bs.flatMap (esc true))[i + 1]? = some 0x33 := by
  induction bs with
  | nil => simp
  | cons b bs ih =>
    obtain ⟨ih1, ih2⟩ := ih
    rw [List.flatMap_cons]
    by_cases hres : b = 0x7E ∨ b = 0x7D ∨ b = 0x11 ∨ b = 0x13
    · have hy : b ^^^ 0x20 = 0x5E ∨ b ^^^ 0x20 = 0x5D ∨ b ^^^ 0x20 = 0x31
          ∨ b ^^^ 0x20 = 0x33 := by
        rcases hres with h | h | h | h <;> subst h <;> decide
      have he : esc true b = [0x7D, b ^^^ 0x20] := by simp [esc, hres]
      rw [he]
      constructor
      · intro i
        rcases i with _ | _ | i
        · simp
        · simp only [List.cons_append, List.getElem?_cons_succ, List.getElem?_cons_zero]
          rcases hy with h | h | h | h <;> rw [h] <;> decide
        · simpa using ih1 i
      · intro i hi
        rcases i with _ | _ | i
        · simp only [List.cons_append, List.getElem?_cons_succ, List.getElem?_cons_zero]
          rcases hy with h | h | h | h <;> rw [h] <;> simp
        · simp only [List.cons_append, List.getElem?_cons_succ, List.getElem?_cons_zero,
            Option.some.injEq] at hi
          rcases hy with h | h | h | h <;> rw [h] at hi <;> exact absurd hi (by decide)
        · simpa using ih2 i (by simpa using hi)
    · have he : esc true b = [b] := by simp [esc, hres]
      rw [he]
      constructor
      · intro i
        rcases i with _ | i
        · simp only [List.cons_append, List.getElem?_cons_zero, ne_eq, Option.some.injEq]
          refine ⟨fun h => hres (Or.inl h), fun h => hres (Or.inr (Or.inr (Or.inl h))),
            fun h => hres (Or.inr (Or.inr (Or.inr h)))⟩
        · simpa using ih1 i
      · intro i hi
        rcases i with _ | i
        · simp only [List.cons_append, List.getElem?_cons_zero, Option.some.injEq] at hi
          exact absurd hi (fun h => hres (Or.inr (Or.inl h)))
        · simpa using ih2 i (by simpa using hi)

namespace SimpleZigBeePacket

/-- What can be observed of a packet after a write inside the limit at an index
that the buffer holds. -/
theorem setFrameData_inside_obs (p : SimpleZigBeePacket) (k : Int) (b : Nat)
    (h0 : 0 ≤ k) (hM : k < p.maxFrameLength) (hc : k < p.memoryArrayLength) :
    (p.setFrameData k b).maxFrameLength = p.maxFrameLength
      ∧ (p.setFrameData k b).memoryArrayLength = p.memoryArrayLength
      ∧ (p.setFrameData k b).frameLength
          = (if k + 1 > p.frameLength then k + 1 else p.frameLength)
      ∧ (p.setFrameData k b).errorCode = p.errorCode
      ∧ (p.setFrameData k b).getMemoryData k = b % 256
      ∧ ∀ j : Int, j ≠ k → (p.setFrameData k b).getMemoryData j = p.getMemoryData j := by
  have hc2 : k.toNat < p.ptrMemoryArray.length := by
    unfold memoryArrayLength at hc
    omega
  rw [setFrameData_inside p k b h0 hM hc]
  refine ⟨rfl, by simp [memoryArrayLength], rfl, rfl, ?_, ?_⟩
  · rw [load_set _ p.ptrMemoryArray k.toNat (b % 256) k rfl h0 hc2]
    simp
  · intro j hj
    by_cases hj0 : 0 ≤ j
    · by_cases hjl : j < p.memoryArrayLength
      · have hjl2 : j.toNat < p.ptrMemoryArray.length := by
          unfold memoryArrayLength at hjl
          omega
        rw [load_set _ p.ptrMemoryArray k.toNat (b % 256) j rfl hj0 hjl2]
        have hne : ¬ (k.toNat = j.toNat) := by omega
        simp [hne, getMemoryData, load, hjl, hj0]
      · have hjl3 : ¬ (j < (p.ptrMemoryArray.length : Int)) := hjl
        simp [getMemoryData, memoryArrayLength, hjl3]
    · simp [getMemoryData, load, hj0]

end SimpleZigBeePacket

/-! ## The buffer invariant of the decoder -/

namespace SimpleZigBeeRadio

/-- A radio whose incoming packet has the same buffer, limit and allocator and
whose cursor is not further on keeps the invariant. -/
theorem DecoderInv_of_same (r s : SimpleZigBeeRadio) (h : DecoderInv r)
    (hm : s.incoming_packet.ptrMemoryArray = r.incoming_packet.ptrMemoryArray)
    (hM : s.incoming_packet.maxFrameLength = r.incoming_packet.maxFrameLength)
    (hr : s.incoming_packet.reallocSucceeds = r.incoming_packet.reallocSucceeds)
    (h0 : 0 ≤ s.in_index) (hi : s.in_index ≤ max r.in_index 3) : DecoderInv s := by
  obtain ⟨⟨g1, g2⟩, g3, g4, g5⟩ := h
  unfold SimpleZigBeePacket.memoryArrayLength at g1 g2 g5
  refine ⟨⟨?_, ?_⟩, ?_, h0, ?_⟩
  · unfold SimpleZigBeePacket.memoryArrayLength
    rw [hm, hM]
    exact g1
  · unfold SimpleZigBeePacket.memoryArrayLength
    rw [hm, hM]
    exact g2
  · rw [hr]
    exact g3
  · unfold SimpleZigBeePacket.memoryArrayLength
    rw [hm]
    omega

theorem readDispatch_inv (r : SimpleZigBeeRadio) (h : DecoderInv r) :
    DecoderInv r.readDispatch.1 := by
  have hinv := h
  obtain ⟨g, g3, g4, g5⟩ := h
  by_cases e0 : r.in_index = 0
  · by_cases hb : r.in_byte = START
    · rw [readDispatch_start r e0 hb]
      exact DecoderInv_of_same r _ hinv rfl rfl rfl (by simp) (by simp)
    · have hb2 : ¬ (START = r.in_byte) := fun e => hb e.symm
      have e : r.readDispatch = (r.setIncomingErrorCode PACKET_INCOMPLETE, false) := by
        simp [readDispatch, e0, hb2, FRAME_TYPE_INDEX]
      rw [e]
      exact DecoderInv_of_same r _ hinv rfl rfl rfl g4 (by simp [setIncomingErrorCode])
  · by_cases e1 : r.in_index = 1
    · rw [readDispatch_msb r e1]
      exact DecoderInv_of_same r _ hinv rfl rfl rfl (by simp) (by simp)
    · by_cases e2 : r.in_index = 2
      · rw [readDispatch_lsb r e2]
        exact DecoderInv_of_same r _ hinv rfl rfl rfl (by simp) (by simp)
      · have h3 : 3 ≤ r.in_index := by omega
        by_cases eM : r.in_index ≤ r.incoming_packet.maxFrameLength
        · by_cases eL : r.incoming_packet.frameLength + 3 = r.in_index
          · rw [readDispatch_checksum r h3 eM eL]
            split_ifs
            · exact DecoderInv_of_same r _ hinv rfl rfl rfl g4 (by simp)
            · exact DecoderInv_of_same r _ hinv rfl rfl rfl g4 (by simp)
          · have n0 : ¬ (0 = r.in_index) := fun e => e0 e.symm
            have n1 : ¬ (1 = r.in_index) := fun e => e1 e.symm
            have n2 : ¬ (2 = r.in_index) := fun e => e2 e.symm
            have nM : ¬ (r.in_index > r.incoming_packet.maxFrameLength) := by omega
            have h3b : r.in_index ≥ 3 := h3
            have e : r.readDispatch =
                ({ r with
                    in_checksum := (r.in_checksum + r.in_byte) % 256
                    incoming_packet :=
                      r.incoming_packet.setFrameData (r.in_index - 3) r.in_byte
                    in_index := r.in_index + 1 }, false) := by
              simp [readDispatch, SimpleZigBeePacket.getMaxFrameLength,
                SimpleZigBeePacket.getFrameLength, n0, n1, n2, nM, eL, h3b]
            rw [e]
            obtain ⟨s1, s2, _, _⟩ := SimpleZigBeePacket.setFrameData_step r.incoming_packet
              (r.in_index - 3) r.in_byte g g3 (by omega) g5 (by omega)
            refine ⟨s1, ?_, ?_, ?_⟩
            · simp only [SimpleZigBeePacket.setFrameData_reallocSucceeds]
              exact g3
            · simp only
              omega
            · simp only
              omega
        · have n0 : ¬ (0 = r.in_index) := fun e => e0 e.symm
          have n1 : ¬ (1 = r.in_index) := fun e => e1 e.symm
          have n2 : ¬ (2 = r.in_index) := fun e => e2 e.symm
          have nM : r.in_index > r.incoming_packet.maxFrameLength := by omega
          have h3b : r.in_index ≥ 3 := h3
          have e : r.readDispatch =
              (({ r with in_checksum := (r.in_checksum + r.in_byte) % 256 }
                : SimpleZigBeeRadio).setIncomingErrorCode MAX_FRAME_LENGTH_EXCEEDED, true) := by
            simp [readDispatch, SimpleZigBeePacket.getMaxFrameLength, n0, n1, n2, nM, h3b]
          rw [e]
          exact DecoderInv_of_same r _ hinv rfl rfl rfl g4 (by simp [setIncomingErrorCode])

theorem readBody_inv (r : SimpleZigBeeRadio) (b : Nat) (next : Option Nat)
    (h : DecoderInv r) : DecoderInv (r.readBody b next).1 := by
  have base : ∀ (x : Nat) (e : Bool),
      DecoderInv ({ r with in_byte := x, in_escaping := e } : SimpleZigBeeRadio) :=
    fun x e => DecoderInv_of_same r _ h rfl rfl rfl h.2.2.1 (by simp)
  unfold readBody
  simp only []
  split_ifs
  · exact DecoderInv_of_same r _ h rfl rfl rfl h.2.2.1 (by simp [setIncomingErrorCode])
  · cases next with
    | none => exact DecoderInv_of_same r _ h rfl rfl rfl h.2.2.1 (by simp [setEscaping])
    | some c => exact readDispatch_inv _ (base _ _)
  · exact readDispatch_inv _ (base _ _)
  · cases next with
    | none => exact DecoderInv_of_same r _ h rfl rfl rfl h.2.2.1 (by simp [setEscaping])
    | some c => exact readDispatch_inv _ (base _ _)
  · exact readDispatch_inv _ (base _ _)
  · exact readDispatch_inv _ (base _ _)

theorem readLoop_inv : ∀ (n : Nat) (s : List Nat) (r : SimpleZigBeeRadio),
    s.length ≤ n → DecoderInv r → DecoderInv (r.readLoop s).1 := by
  intro n
  induction n with
  | zero =>
    intro s r hs h
    have : s = [] := List.length_eq_zero.mp (by omega)
    subst this
    rw [readLoop_nil]
    exact h
  | succ n ih =>
    intro s r hs h
    match s with
    | [] => rw [readLoop_nil]; exact h
    | [b] => rw [readLoop_single]; exact readBody_inv r b none h
    | b :: c :: rest =>
      rw [readLoop_cons_cons]
      have hb := readBody_inv r b (some c) h
      simp only [List.length_cons] at hs
      by_cases h1 : (r.readBody b (some c)).2.1 = true
      · rw [if_pos h1]
        exact hb
      · rw [if_neg h1]
        by_cases h2 : (r.readBody b (some c)).2.2 = true
        · rw [if_pos h2]
          exact ih rest _ (by omega) hb
        · rw [if_neg h2]
          exact ih (c :: rest) _ (by simp only [List.length_cons]; omega) hb

/-- Every call of `read()` keeps the buffer invariant of the decoder. -/
theorem read_inv (r : SimpleZigBeeRadio) (s : List Nat) (h : DecoderInv r) :
    DecoderInv (r.read s).1 := by
  have h1 : DecoderInv ({ r.resetIncoming with in_index := 1 } : SimpleZigBeeRadio) :=
    DecoderInv_of_same r _ h rfl rfl rfl (by simp) (by simp)
  have h2 : DecoderInv r.resetIncoming :=
    DecoderInv_of_same r _ h rfl rfl rfl (by simp [resetIncoming]) (by simp [resetIncoming])
  unfold read
  by_cases hs : s ≠ []
  · rw [if_pos hs]
    by_cases he : r.incoming_packet.isError = true ∨ r.isComplete = true
    · simp only [he, if_true]
      by_cases hu : UNEXPECTED_PACKET_START = r.incoming_packet.getErrorCode
      · simp only [hu, if_true]
        exact readLoop_inv s.length s _ (le_refl _) h1
      · simp only [hu, if_false]
        exact readLoop_inv s.length s _ (le_refl _) h2
    · simp only [he, if_false]
      exact readLoop_inv s.length s _ (le_refl _) h
  · rw [if_neg hs]
    exact h

/-- A constructed radio whose allocator grants requests has the buffer
invariant of the decoder. -/
theorem construct_inv (m : Bool) (junkIn junkOut : List Nat) :
    DecoderInv (construct m junkIn junkOut true) := by
  refine ⟨⟨?_, ?_⟩, rfl, ?_, ?_⟩ <;>
    simp [construct, reset, resetIncoming, resetOutgoing, SimpleZigBeePacket.constructDefault,
      SimpleZigBeePacket.construct, SimpleZigBeePacket.reset, SimpleZigBeePacket.init,
      SimpleZigBeePacket.memoryArrayLength]

/-- Under the buffer invariant, at a frame-data position, the buffer holds the
frame index of the cursor or can grow to it by ten within the limit. -/
theorem DecoderInv_admits (r : SimpleZigBeeRadio) (h : DecoderInv r)
    (hM : r.in_index ≤ r.incoming_packet.maxFrameLength) :
    r.in_index - 3 < r.incoming_packet.memoryArrayLength
      ∨ (r.in_index - 3 + 10 ≤ r.incoming_packet.maxFrameLength
          ∧ r.incoming_packet.reallocSucceeds = true) := by
  obtain ⟨⟨g1, g2⟩, g3, _, g5⟩ := h
  by_cases hc : r.in_index - 3 < r.incoming_packet.memoryArrayLength
  · exact Or.inl hc
  · exact Or.inr ⟨by omega, g3⟩

end SimpleZigBeeRadio

/-! ## The claims -/

/-- C1 at a failing input.  On the default session (`maxFrameLength` 50) the
outgoing packet holds without error a frame of 48 bytes; the bytes `sendPacket`
emits for it, fed in one `read()` call to the freshly reset decoder, are all
consumed, and the decoder ends not complete, with `MaxFrameLengthExceeded`: the
closing byte arrives at cursor 51, which the guard `_in_index > maxFrameLength`
rejects. -/
theorem C1_round_trip_fails_at_48_bytes :
    (defaultSession.outgoing_packet.setFrameDataArray 0 (List.replicate 48 1) 48).getErrorCode
        = NO_ERROR
      ∧ frameBytes (defaultSession.outgoing_packet.setFrameDataArray 0 (List.replicate 48 1) 48)
        = List.replicate 48 1
      ∧ (defaultSession.resetIncoming.read
          (defaultSession.sendPacket
            (defaultSession.outgoing_packet.setFrameDataArray 0 (List.replicate 48 1) 48)).2).2
        = []
      ∧ (defaultSession.resetIncoming.read
          (defaultSession.sendPacket
            (defaultSession.outgoing_packet.setFrameDataArray 0 (List.replicate 48 1)
              48)).2).1.isComplete = false
      ∧ (defaultSession.resetIncoming.read
          (defaultSession.sendPacket
            (defaultSession.outgoing_packet.setFrameDataArray 0 (List.replicate 48 1)
              48)).2).1.incoming_packet.getErrorCode = MAX_FRAME_LENGTH_EXCEEDED := by
  decide!

/-- C2 at a failing input.  For the frame `7D` the encoder emits
`7E 00 01 7D 5D 82`.  Fed in one `read()` call to the freshly reset decoder of
the default session these bytes give a complete packet with frame byte `7D`;
fed one byte per call they leave the packet incomplete with frame byte `A2`:
the byte `5D`, de-escaped to `7D` in its own call, is taken for a second escape
marker, and the checksum byte `82` is de-escaped in its place. -/
theorem C2_one_byte_per_call_differs :
    (defaultSession.sendPacket (defaultSession.outgoing_packet.setFrameData 0 0x7D)).2
        = [0x7E, 0x00, 0x01, 0x7D, 0x5D, 0x82]
      ∧ (defaultSession.resetIncoming.read [0x7E, 0x00, 0x01, 0x7D, 0x5D, 0x82]).1.isComplete
        = true
      ∧ ((defaultSession.resetIncoming.read
          [0x7E, 0x00, 0x01, 0x7D, 0x5D, 0x82]).1.incoming_packet.getFrameData 0).1 = 0x7D
      ∧ (readOneByOne defaultSession.resetIncoming
          [0x7E, 0x00, 0x01, 0x7D, 0x5D, 0x82]).isComplete = false
      ∧ ((readOneByOne defaultSession.resetIncoming
          [0x7E, 0x00, 0x01, 0x7D, 0x5D, 0x82]).incoming_packet.getFrameData 0).1 = 0xA2
      ∧ (readOneByOne defaultSession.resetIncoming
          [0x7E, 0x00, 0x01, 0x7D, 0x5D, 0x82]).in_checksum = 0xA2 := by
  decide!

/-- C3 (checksum law).  For every frame `f` of bytes with `|f| + 3 <= maxFrameLength`
(and a length that fits the two length bytes) and every byte `c`, feeding the
unstuffed sequence `START, length MSB, length LSB, f, c` in one `read()` call to
a freshly reset decoder that is in non-escaped mode, or when no byte after
`START` is `0x7E` or `0x7D`, ends complete with no error if and only if
`(sum of f + c) mod 256 = 255`, and ends with `ChecksumFailure` otherwise. -/
theorem C3_checksum_law (r : SimpleZigBeeRadio) (f : List Nat) (c : Nat)
    (hf : ∀ x ∈ f, x < 256) (hc : c < 256) (hlen : f.length < 65536)
    (hM : (f.length : Int) + 3 ≤ r.incoming_packet.maxFrameLength)
    (hres : r.escaped_mode = false
      ∨ ∀ x ∈ (f.length / 256) :: (f.length % 256) :: (f ++ [c]), x ≠ START ∧ x ≠ ESCAPE) :
    (((r.resetIncoming.read
            (START :: (f.length / 256) :: (f.length % 256) :: (f ++ [c]))).1.isComplete = true
        ∧ (r.resetIncoming.read
            (START :: (f.length / 256) :: (f.length % 256) :: (f ++ [c]))).1.incoming_packet.getErrorCode
              = NO_ERROR)
      ↔ (f.sum + c) % 256 = 255)
    ∧ ((f.sum + c) % 256 ≠ 255 →
        (r.resetIncoming.read
            (START :: (f.length / 256) :: (f.length % 256) :: (f ++ [c]))).1.isComplete = false
        ∧ (r.resetIncoming.read
            (START :: (f.length / 256) :: (f.length % 256) :: (f ++ [c]))).1.incoming_packet.getErrorCode
              = CHECKSUM_FAILURE) := by
  have hP : ∀ x ∈ (f.length / 256) :: (f.length % 256) :: (f ++ [c]),
      r.escaped_mode = false ∨ (x ≠ START ∧ x ≠ ESCAPE) := by
    intro x hx
    rcases hres with h | h
    · exact Or.inl h
    · exact Or.inr (h x hx)
  have hin : START :: (f.length / 256) :: (f.length % 256) :: (f ++ [c])
      = START :: ((fun x => [x]) (f.length / 256) ++ (fun x => [x]) (f.length % 256)
          ++ f.flatMap (fun x => [x]) ++ (fun x => [x]) c ++ []) := by
    simp [SimpleZigBeeRadio.flatMap_single]
  have h := SimpleZigBeeRadio.read_reset_packet (fun x => [x]) r.escaped_mode _
    (SimpleZigBeeRadio.decodes_any_mode r.escaped_mode) r f c [] rfl
    (fun x hx => ⟨hf x hx, hP x (by simp [hx])⟩) ⟨hc, hP c (by simp)⟩ hlen
    (hP _ (by simp)) (hP _ (by simp)) hM
  rw [hin, h]
  by_cases hsum : (f.sum + c) % 256 = 255
  · simp [hsum, SimpleZigBeeRadio.isComplete, SimpleZigBeePacket.getErrorCode,
      SimpleZigBeePacket.setErrorCode]
  · simp [hsum, SimpleZigBeeRadio.isComplete, SimpleZigBeePacket.getErrorCode,
      SimpleZigBeePacket.setErrorCode, CHECKSUM_FAILURE, NO_ERROR]

/-- Witness of C3: the frame `8A 06` with closing byte `6F` on the default session. -/
theorem C3_checksum_law_witness :
    ((defaultSession.resetIncoming.read [0x7E, 0, 2, 0x8A, 0x06, 0x6F]).1.isComplete = true
        ∧ (defaultSession.resetIncoming.read
            [0x7E, 0, 2, 0x8A, 0x06, 0x6F]).1.incoming_packet.getErrorCode = NO_ERROR)
      ↔ (0x8A + 0x06 + 0x6F) % 256 = 255 := by
  have h := (C3_checksum_law defaultSession [0x8A, 0x06] 0x6F (by decide) (by decide)
    (by decide) (by decide) (Or.inr (by decide))).1
  exact h

/-- C4 fails in the code: the default session (escaped mode) reads
`7E 00 02 7D 7E` in one call.  The last byte is a raw `START` read from the
transport while the cursor is 3, but it is the byte fetched right after an
`ESCAPE`: it is de-escaped to `5E` and stored as frame byte 0, no error is
recorded and the cursor moves on to 4.  When the same bytes arrive in two calls,
`7E 00 02 7D` and `7E`, the `START` is met at the head of a loop pass and
`UnexpectedPacketStart` is recorded.  A valid packet `7E 00 02 8A 06 6F` that
follows `7E 00 02 7D` is delivered when it arrives in a later call, and lost
when it arrives in the same call. -/
theorem C4_start_after_escape_is_swallowed :
    defaultSession.escaped_mode = true
      ∧ (defaultSession.read [0x7E, 0x00, 0x02]).1.in_index = 3
      ∧ (defaultSession.read [0x7E, 0x00, 0x02, 0x7D, 0x7E]).2 = []
      ∧ (defaultSession.read [0x7E, 0x00, 0x02, 0x7D, 0x7E]).1.incoming_packet.getErrorCode
          = NO_ERROR
      ∧ (defaultSession.read [0x7E, 0x00, 0x02, 0x7D, 0x7E]).1.in_index = 4
      ∧ ((defaultSession.read
          [0x7E, 0x00, 0x02, 0x7D, 0x7E]).1.incoming_packet.getFrameData 0).1 = 0x5E
      ∧ ((defaultSession.read [0x7E, 0x00, 0x02, 0x7D]).1.read
          [0x7E]).1.incoming_packet.getErrorCode = UNEXPECTED_PACKET_START
      ∧ ((defaultSession.read [0x7E, 0x00, 0x02, 0x7D]).1.read [0x7E]).1.in_index = 3
      ∧ ((defaultSession.read [0x7E, 0x00, 0x02, 0x7D]).1.read
          [0x7E, 0x00, 0x02, 0x8A, 0x06, 0x6F]).2 = [0x00, 0x02, 0x8A, 0x06, 0x6F]
      ∧ ((defaultSession.read [0x7E, 0x00, 0x02, 0x7D]).1.read
          [0x7E, 0x00, 0x02, 0x8A, 0x06, 0x6F]).1.incoming_packet.getErrorCode
          = UNEXPECTED_PACKET_START
      ∧ (((defaultSession.read [0x7E, 0x00, 0x02, 0x7D]).1.read
          [0x7E, 0x00, 0x02, 0x8A, 0x06, 0x6F]).1.read
            [0x00, 0x02, 0x8A, 0x06, 0x6F]).1.isComplete = true
      ∧ (((defaultSession.read [0x7E, 0x00, 0x02, 0x7D]).1.read
          [0x7E, 0x00, 0x02, 0x8A, 0x06, 0x6F]).1.read
            [0x00, 0x02, 0x8A, 0x06, 0x6F]).1.incoming_packet.getErrorCode = NO_ERROR
      ∧ frameBytes (((defaultSession.read [0x7E, 0x00, 0x02, 0x7D]).1.read
          [0x7E, 0x00, 0x02, 0x8A, 0x06, 0x6F]).1.read
            [0x00, 0x02, 0x8A, 0x06, 0x6F]).1.incoming_packet = [0x8A, 0x06]
      ∧ (defaultSession.read
          [0x7E, 0x00, 0x02, 0x7D, 0x7E, 0x00, 0x02, 0x8A, 0x06, 0x6F]).2 = [0x8A, 0x06, 0x6F]
      ∧ (defaultSession.read
          [0x7E, 0x00, 0x02, 0x7D, 0x7E, 0x00, 0x02, 0x8A, 0x06, 0x6F]).1.isComplete = false
      ∧ (defaultSession.read [0x7E, 0x00, 0x02, 0x7D, 0x7E, 0x00, 0x02, 0x8A, 0x06,
          0x6F]).1.incoming_packet.getErrorCode = CHECKSUM_FAILURE
      ∧ ((defaultSession.read
          [0x7E, 0x00, 0x02, 0x7D, 0x7E, 0x00, 0x02, 0x8A, 0x06, 0x6F]).1.read
            [0x8A, 0x06, 0x6F]).1.isComplete = false
      ∧ ((defaultSession.read
          [0x7E, 0x00, 0x02, 0x7D, 0x7E, 0x00, 0x02, 0x8A, 0x06, 0x6F]).1.read
            [0x8A, 0x06, 0x6F]).1.incoming_packet.getErrorCode = PACKET_INCOMPLETE := by
  decide!

/-- Unexpected start at the head of a loop pass, and resynchronisation.  In
escaped mode, when a pass of the loop of `read()` fetches a raw `START` as its
first byte while the cursor is past 0, the call records `UnexpectedPacketStart`
and returns with every later byte still in the serial buffer.  The next `read()`
resets the packet and starts the cursor at 1, so that when the bytes left in the
buffer are the length bytes, the stuffed frame bytes and the checksum of a frame
`f` with `|f| + 3 <= maxFrameLength` (followed by anything), it ends complete,
without error, with frame length `|f|` and the bytes of `f`, on a buffer that
grows by tens. -/
theorem unexpected_start_at_loop_head (r : SimpleZigBeeRadio) (f tail : List Nat)
    (hm : r.escaped_mode = true) (hi : 0 < r.in_index)
    (hf : ∀ x ∈ f, x < 256) (hlen : f.length < 65536)
    (hM : (f.length : Int) + 3 ≤ r.incoming_packet.maxFrameLength)
    (hg : GrowsByTens r.incoming_packet) (hr : r.incoming_packet.reallocSucceeds = true) :
    (∀ rest : List Nat,
        (r.readLoop (START :: rest)).2 = rest
        ∧ (r.readLoop (START :: rest)).1.incoming_packet.getErrorCode = UNEXPECTED_PACKET_START
        ∧ (r.incoming_packet.isError = false → r.isComplete = false →
            r.read (START :: rest) = r.readLoop (START :: rest))
        ∧ ∀ s : List Nat, s ≠ [] →
            (r.readLoop (START :: rest)).1.read s =
              ({ (r.readLoop (START :: rest)).1.resetIncoming with in_index := 1 }
                : SimpleZigBeeRadio).readLoop s)
    ∧ (((r.readLoop (START :: ((wireFormat true (f.length : Int) f).tail ++ tail))).1.read
          ((wireFormat true (f.length : Int) f).tail ++ tail)).2 = tail
      ∧ ((r.readLoop (START :: ((wireFormat true (f.length : Int) f).tail ++ tail))).1.read
          ((wireFormat true (f.length : Int) f).tail ++ tail)).1.isComplete = true
      ∧ ((r.readLoop (START :: ((wireFormat true (f.length : Int) f).tail ++ tail))).1.read
          ((wireFormat true (f.length : Int) f).tail ++ tail)).1.incoming_packet.getErrorCode
            = NO_ERROR
      ∧ ((r.readLoop (START :: ((wireFormat true (f.length : Int) f).tail ++ tail))).1.read
          ((wireFormat true (f.length : Int) f).tail ++ tail)).1.incoming_packet.getFrameLength
            = (f.length : Int)
      ∧ ∀ (j : Nat) (hj : j < f.length),
          (((r.readLoop (START :: ((wireFormat true (f.length : Int) f).tail ++ tail))).1.read
            ((wireFormat true (f.length : Int) f).tail
              ++ tail)).1.incoming_packet.getFrameData (j : Int)).1 = f[j]) := by
  refine ⟨?_, ?_⟩
  · intro rest
    have hu := SimpleZigBeeRadio.readLoop_unexpected_start r rest hm hi
    refine ⟨by rw [hu], by rw [hu]; rfl, ?_, ?_⟩
    · intro h1 h2
      simp [SimpleZigBeeRadio.read, h1, h2]
    · intro s hs
      rw [hu]
      unfold SimpleZigBeeRadio.read
      rw [if_pos hs]
      simp [SimpleZigBeeRadio.setIncomingErrorCode, SimpleZigBeePacket.setErrorCode,
        SimpleZigBeePacket.isError, SimpleZigBeePacket.getErrorCode, UNEXPECTED_PACKET_START]
  · rw [SimpleZigBeeRadio.readLoop_unexpected_start r _ hm hi,
      SimpleZigBeeRadio.wireFormat_tail true f hlen]
    have hsum : (f.sum + (0xFF - f.sum % 256)) % 256 = 255 := by omega
    have h := SimpleZigBeeRadio.read_after_unexpected_start (esc true) true (fun _ => True)
      SimpleZigBeeRadio.decodes_esc (SimpleZigBeeRadio.esc_ne_nil true)
      (({ r with in_byte := START } : SimpleZigBeeRadio).setIncomingErrorCode
        UNEXPECTED_PACKET_START) f (0xFF - f.sum % 256) tail
      (by simpa [SimpleZigBeeRadio.setIncomingErrorCode] using hm)
      (by simp [SimpleZigBeeRadio.setIncomingErrorCode, SimpleZigBeePacket.setErrorCode])
      (fun x hx => ⟨hf x hx, trivial⟩) ⟨by omega, trivial⟩ hlen trivial trivial
      (by simpa [SimpleZigBeeRadio.setIncomingErrorCode, SimpleZigBeePacket.setErrorCode]
        using hM)
    rw [h, if_pos hsum]
    have hd := SimpleZigBeeRadio.stored_frame r.incoming_packet f hf hM hg hr
    refine ⟨rfl, rfl, rfl, ?_, ?_⟩
    · simpa [SimpleZigBeeRadio.setIncomingErrorCode, SimpleZigBeePacket.setErrorCode,
        SimpleZigBeePacket.setChecksum, SimpleZigBeePacket.getFrameLength,
        SimpleZigBeePacket.reset, SimpleZigBeePacket.init] using hd.1
    · intro j hj
      have h2 := (SimpleZigBeeRadio.getFrameData_stored _ (f.length : Int) (j : Int) f[j]
        hd.1 (by omega) (hd.2 j hj) NO_ERROR).2
      simp only [SimpleZigBeeRadio.setIncomingErrorCode, SimpleZigBeePacket.setErrorCode,
        SimpleZigBeePacket.reset, SimpleZigBeePacket.init] at h2 ⊢
      rw [h2]

/-- C5, as stated, fails: on the default session, reset and with
acknowledgements enabled, the AT command `NI` is not sent as
`7E 00 04 08 01 4E 49 B1`; `08 + 01 + 4E + 49 = A0`, so the checksum is `5F`. -/
theorem C5_at_command_counterexample :
    ((defaultSession.reset.setAcknowledgement true).prepareATCommand 0x4E49).send.2
      ≠ [0x7E, 0x00, 0x04, 0x08, 0x01, 0x4E, 0x49, 0xB1] := by
  decide!

/-- C5, amended.  After a session reset with acknowledgements enabled, on an
outgoing packet whose limit and buffer hold four bytes, preparing an AT command
`0x4E49` with no payload leaves a frame of length 4 with frame id 1 and no
error, and sending it writes exactly `7E 00 04 08 01 4E 49 5F` (checksum
`0x5F`), in escaped mode as in non-escaped mode, and records frame id 1 as the
last one sent. -/
theorem C5_at_command_amended (r : SimpleZigBeeRadio)
    (hM : 4 ≤ r.outgoing_packet.maxFrameLength)
    (hc : 4 ≤ r.outgoing_packet.memoryArrayLength) :
    ((r.reset.setAcknowledgement true).prepareATCommand 0x4E49).outgoing_packet.getFrameLength
        = 4
      ∧ ((r.reset.setAcknowledgement true).prepareATCommand
          0x4E49).outgoing_packet.getFrameID.1 = 1
      ∧ ((r.reset.setAcknowledgement true).prepareATCommand
          0x4E49).outgoing_packet.getErrorCode = NO_ERROR
      ∧ ((r.reset.setAcknowledgement true).prepareATCommand 0x4E49).send.2
          = [0x7E, 0x00, 0x04, 0x08, 0x01, 0x4E, 0x49, 0x5F]
      ∧ ((r.reset.setAcknowledgement true).prepareATCommand 0x4E49).send.1.getLastFrameID
          = 1 := by
  -- the outgoing packet after `reset()` and `setAcknowledgement(true)`
  have e0 : ((r.reset.setAcknowledgement true).prepareATCommand 0x4E49).outgoing_packet
      = ((((((r.outgoing_packet.reset.setFrameData 1 1).reset).setFrameData 2 0x4E).setFrameData
          3 0x49).setFrameData 0 0x08).setFrameData 1 1) := by
    simp [SimpleZigBeeRadio.prepareATCommand, SimpleZigBeeRadio.setNextFrameID,
      SimpleZigBeeRadio.setOutgoingFrameID, SimpleZigBeeRadio.setOutgoingFrameType,
      SimpleZigBeeRadio.setATCommand, SimpleZigBeeRadio.resetOutgoing,
      SimpleZigBeeRadio.setAcknowledgement, SimpleZigBeeRadio.reset,
      SimpleZigBeeRadio.resetIncoming, SimpleZigBeeRadio.getLastFrameID,
      SimpleZigBeePacket.setATCommand, SimpleZigBeePacket.setFrameType,
      SimpleZigBeePacket.setFrameID, AT_COMMAND]
  have em : ((r.reset.setAcknowledgement true).prepareATCommand 0x4E49).escaped_mode
      = r.escaped_mode := by
    simp [SimpleZigBeeRadio.prepareATCommand, SimpleZigBeeRadio.setNextFrameID,
      SimpleZigBeeRadio.setOutgoingFrameID, SimpleZigBeeRadio.setOutgoingFrameType,
      SimpleZigBeeRadio.setATCommand, SimpleZigBeeRadio.resetOutgoing,
      SimpleZigBeeRadio.setAcknowledgement, SimpleZigBeeRadio.reset,
      SimpleZigBeeRadio.resetIncoming]
  have a := SimpleZigBeePacket.setFrameData_inside_obs r.outgoing_packet.reset 1 1
    (by decide) (by simp only [SimpleZigBeePacket.reset, SimpleZigBeePacket.init]; omega)
    (by simp only [SimpleZigBeePacket.reset, SimpleZigBeePacket.init,
      SimpleZigBeePacket.memoryArrayLength] at hc ⊢; omega)
  generalize r.outgoing_packet.reset.setFrameData 1 1 = p1 at a e0
  have hp1M : p1.reset.maxFrameLength = r.outgoing_packet.maxFrameLength := by
    simpa [SimpleZigBeePacket.reset, SimpleZigBeePacket.init] using a.1
  have hp1c : p1.reset.memoryArrayLength = r.outgoing_packet.memoryArrayLength := by
    simpa [SimpleZigBeePacket.reset, SimpleZigBeePacket.init,
      SimpleZigBeePacket.memoryArrayLength] using a.2.1
  have hp1L : p1.reset.frameLength = 0 := rfl
  have hp1e : p1.reset.errorCode = NO_ERROR := rfl
  generalize p1.reset = p2 at e0 hp1M hp1c hp1L hp1e
  have b2 := SimpleZigBeePacket.setFrameData_inside_obs p2 2 0x4E (by decide) (by omega)
    (by omega)
  generalize p2.setFrameData 2 0x4E = p3 at b2 e0
  have b3 := SimpleZigBeePacket.setFrameData_inside_obs p3 3 0x49 (by decide) (by omega)
    (by omega)
  generalize p3.setFrameData 3 0x49 = p4 at b3 e0
  have b4 := SimpleZigBeePacket.setFrameData_inside_obs p4 0 0x08 (by decide) (by omega)
    (by omega)
  generalize p4.setFrameData 0 0x08 = p5 at b4 e0
  have b5 := SimpleZigBeePacket.setFrameData_inside_obs p5 1 1 (by decide) (by omega)
    (by omega)
  generalize p5.setFrameData 1 1 = p6 at b5 e0
  have hL : p6.frameLength = 4 := by
    rw [b5.2.2.1, b4.2.2.1, b3.2.2.1, b2.2.2.1, hp1L]
    decide
  have hE : p6.errorCode = NO_ERROR := by
    rw [b5.2.2.2.1, b4.2.2.2.1, b3.2.2.2.1, b2.2.2.2.1, hp1e]
  have m0 : p6.getMemoryData 0 = 0x08 := by
    rw [b5.2.2.2.2.2 0 (by decide), b4.2.2.2.2.1]
  have m1 : p6.getMemoryData 1 = 1 := b5.2.2.2.2.1
  have m2 : p6.getMemoryData 2 = 0x4E := by
    rw [b5.2.2.2.2.2 2 (by decide), b4.2.2.2.2.2 2 (by decide), b3.2.2.2.2.2 2 (by decide),
      b2.2.2.2.2.1]
  have m3 : p6.getMemoryData 3 = 0x49 := by
    rw [b5.2.2.2.2.2 3 (by decide), b4.2.2.2.2.2 3 (by decide), b3.2.2.2.2.1]
  have hfb : frameBytes p6 = [0x08, 1, 0x4E, 0x49] := by
    simp [frameBytes, hL, List.range_succ, m0, m1, m2, m3]
  have hid : p6.getFrameID = (1, p6) := by
    unfold SimpleZigBeePacket.getFrameID
    rw [SimpleZigBeePacket.getFrameData_of_lt p6 1 (by omega), m1]
  refine ⟨?_, ?_, ?_, ?_, ?_⟩
  · rw [e0]; exact hL
  · rw [e0, hid]
  · rw [e0]; exact hE
  · simp only [SimpleZigBeeRadio.send, e0, hid, SimpleZigBeeRadio.saveLastFrameID,
      SimpleZigBeeRadio.sendPacket_eq, em, hL, hfb]
    cases r.escaped_mode <;> decide
  · simp only [SimpleZigBeeRadio.send, e0, hid, SimpleZigBeeRadio.saveLastFrameID,
      SimpleZigBeeRadio.getLastFrameID]

/-- Witness of the amended C5 on the default session. -/
theorem C5_at_command_amended_witness :
    ((defaultSession.reset.setAcknowledgement true).prepareATCommand 0x4E49).send.2
      = [0x7E, 0x00, 0x04, 0x08, 0x01, 0x4E, 0x49, 0x5F] :=
  (C5_at_command_amended defaultSession (by decide) (by decide)).2.2.2.1

/-- C6, as stated, fails: on the default session the bytes `7E 00 02 8A 06 55`
do not yield a packet that is complete and free of error, because
`8A + 06 + 55 = E5`, not `FF`. -/
theorem C6_modem_status_counterexample :
    ¬ ((defaultSession.read [0x7E, 0x00, 0x02, 0x8A, 0x06, 0x55]).1.isComplete = true
        ∧ (defaultSession.read
            [0x7E, 0x00, 0x02, 0x8A, 0x06, 0x55]).1.isModemStatus.1 = true
        ∧ (defaultSession.read
            [0x7E, 0x00, 0x02, 0x8A, 0x06, 0x55]).1.getModemStatus.1 = 0x06
        ∧ (defaultSession.read
            [0x7E, 0x00, 0x02, 0x8A, 0x06, 0x55]).1.incoming_packet.isError = false) := by
  decide!

/-- C6, amended.  On a freshly reset decoder with `maxFrameLength >= 5` and a
buffer that grows by tens, the bytes `7E 00 02 8A 06 55` end with
`ChecksumFailure` (not complete, `isError()` true) while the frame type `0x8A`
and the modem status `0x06` are stored; with the checksum byte `6F` in place of
`55` the packet is complete, `isModemStatus()` is true, `getModemStatus()` is
`0x06` and `isError()` is false, also after these two reads. -/
theorem C6_modem_status_amended (r : SimpleZigBeeRadio)
    (hM : 5 ≤ r.incoming_packet.maxFrameLength) (hg : GrowsByTens r.incoming_packet)
    (hr : r.incoming_packet.reallocSucceeds = true) :
    ((r.resetIncoming.read [0x7E, 0x00, 0x02, 0x8A, 0x06, 0x55]).1.isComplete = false
      ∧ (r.resetIncoming.read
          [0x7E, 0x00, 0x02, 0x8A, 0x06, 0x55]).1.incoming_packet.getErrorCode
            = CHECKSUM_FAILURE
      ∧ (r.resetIncoming.read
          [0x7E, 0x00, 0x02, 0x8A, 0x06, 0x55]).1.incoming_packet.isError = true
      ∧ (r.resetIncoming.read [0x7E, 0x00, 0x02, 0x8A, 0x06, 0x55]).1.isModemStatus.1 = true
      ∧ (r.resetIncoming.read [0x7E, 0x00, 0x02, 0x8A, 0x06, 0x55]).1.getModemStatus.1 = 0x06)
    ∧ ((r.resetIncoming.read [0x7E, 0x00, 0x02, 0x8A, 0x06, 0x6F]).1.isComplete = true
      ∧ (r.resetIncoming.read
          [0x7E, 0x00, 0x02, 0x8A, 0x06, 0x6F]).1.getIncomingFrameType.1 = 0x8A
      ∧ (r.resetIncoming.read [0x7E, 0x00, 0x02, 0x8A, 0x06, 0x6F]).1.isModemStatus.1 = true
      ∧ (r.resetIncoming.read [0x7E, 0x00, 0x02, 0x8A, 0x06, 0x6F]).1.getModemStatus.1 = 0x06
      ∧ (r.resetIncoming.read
          [0x7E, 0x00, 0x02, 0x8A, 0x06, 0x6F]).1.incoming_packet.isError = false
      ∧ (r.resetIncoming.read
          [0x7E, 0x00, 0x02, 0x8A, 0x06, 0x6F]).1.isModemStatus.2.getModemStatus.2.incoming_packet.isError
            = false) := by
  have hbytes : ∀ x ∈ ([0x8A, 0x06] : List Nat), x < 256 := by decide
  have hst := SimpleZigBeeRadio.stored_frame r.incoming_packet [0x8A, 0x06] hbytes
    (by simpa using hM) hg hr
  have hmode : ∀ x : Nat, x ≠ START → x ≠ ESCAPE →
      (r.escaped_mode = false ∨ (x ≠ START ∧ x ≠ ESCAPE)) := fun x h1 h2 => Or.inr ⟨h1, h2⟩
  have hrd : ∀ c : Nat, c < 256 → c ≠ START → c ≠ ESCAPE →
      r.resetIncoming.read [0x7E, 0x00, 0x02, 0x8A, 0x06, c] = _ := fun c h1 h2 h3 =>
    SimpleZigBeeRadio.read_reset_packet (fun x => [x]) r.escaped_mode _
      (SimpleZigBeeRadio.decodes_any_mode r.escaped_mode) r [0x8A, 0x06] c [] rfl
      (fun x hx => ⟨hbytes x hx, by
        simp only [List.mem_cons, List.mem_singleton, List.not_mem_nil, or_false] at hx
        rcases hx with h | h <;> subst h <;> exact Or.inr (by decide)⟩)
      ⟨h1, hmode c h2 h3⟩ (by decide) (Or.inr (by decide)) (Or.inr (by decide))
      (by simpa using hM)
  generalize storeFrom
    ({ r.incoming_packet.reset with frameLength := (([0x8A, 0x06] : List Nat).length : Int) }
      : SimpleZigBeePacket) 0 [0x8A, 0x06] = Q at hst hrd
  have g0 : Q.getMemoryData 0 = 0x8A := hst.2 0 (by decide)
  have g1 : Q.getMemoryData 1 = 0x06 := hst.2 1 (by decide)
  have hL : Q.frameLength = 2 := hst.1
  constructor
  · rw [hrd 0x55 (by decide) (by decide) (by decide)]
    have f0 := (SimpleZigBeeRadio.getFrameData_stored Q 2 0 _ hL (by decide) g0
      CHECKSUM_FAILURE).1
    have f1 := (SimpleZigBeeRadio.getFrameData_stored Q 2 1 _ hL (by decide) g1
      CHECKSUM_FAILURE).1
    simp [SimpleZigBeeRadio.isComplete, SimpleZigBeeRadio.isModemStatus,
      SimpleZigBeeRadio.getModemStatus, SimpleZigBeeRadio.getIncomingFrameType,
      SimpleZigBeePacket.getFrameType, SimpleZigBeePacket.getModemStatus, f0, f1,
      SimpleZigBeePacket.getErrorCode, SimpleZigBeePacket.isError,
      errorCode_setErrorCode, CHECKSUM_FAILURE, MODEM_STATUS]
  · rw [hrd 0x6F (by decide) (by decide) (by decide)]
    have f0 := (SimpleZigBeeRadio.getFrameData_stored Q 2 0 _ hL (by decide) g0 NO_ERROR).2
    have f1 := (SimpleZigBeeRadio.getFrameData_stored Q 2 1 _ hL (by decide) g1 NO_ERROR).2
    simp [SimpleZigBeeRadio.isComplete, SimpleZigBeeRadio.isModemStatus,
      SimpleZigBeeRadio.getModemStatus, SimpleZigBeeRadio.getIncomingFrameType,
      SimpleZigBeePacket.getFrameType, SimpleZigBeePacket.getModemStatus, f0, f1,
      SimpleZigBeePacket.getErrorCode, SimpleZigBeePacket.isError,
      errorCode_setErrorCode, NO_ERROR, MODEM_STATUS]

/-- Witness of the amended C6 on the default session. -/
theorem C6_modem_status_amended_witness :
    (defaultSession.resetIncoming.read [0x7E, 0x00, 0x02, 0x8A, 0x06, 0x6F]).1.isComplete = true
      ∧ (defaultSession.resetIncoming.read
          [0x7E, 0x00, 0x02, 0x8A, 0x06, 0x6F]).1.getModemStatus.1 = 0x06 :=
  have h := (C6_modem_status_amended defaultSession (by decide) (by decide) (by decide)).2
  ⟨h.1, h.2.2.2.1⟩

/-- C7 (escaped `0x7E`).  In escaped mode the encoder writes a frame byte `0x7E`
as `7D 5E`; and when the decoder, with no escape pending, fetches `7D 5E` in one
call at a frame-data position (cursor from 3 up to `maxFrameLength` and below
the checksum position), it takes them as the single byte `0x7E`: the cursor
advances by one, the byte is added to the running checksum, the frame length
and the error code stay as they were (no `UnexpectedPacketStart`), and the byte
reads back at frame index `cursor - 3` where the buffer holds that index or can
grow to it. -/
theorem C7_escaped_start_byte (r : SimpleZigBeeRadio) (rest : List Nat)
    (hm : r.escaped_mode = true) (he : r.in_escaping = false) (h3 : 3 ≤ r.in_index)
    (hM : r.in_index ≤ r.incoming_packet.maxFrameLength)
    (hL : r.in_index < r.incoming_packet.frameLength + 3)
    (hbuf : r.in_index - 3 < r.incoming_packet.memoryArrayLength
      ∨ (r.in_index - 3 + 10 ≤ r.incoming_packet.maxFrameLength
          ∧ r.incoming_packet.reallocSucceeds = true)) :
    r.writeByte 0x7E = [0x7D, 0x5E]
      ∧ r.readLoop (0x7D :: 0x5E :: rest) =
          SimpleZigBeeRadio.readLoop
            { r with
              in_byte := 0x7E
              in_checksum := (r.in_checksum + 0x7E) % 256
              in_index := r.in_index + 1
              incoming_packet := r.incoming_packet.setFrameData (r.in_index - 3) 0x7E } rest
      ∧ (r.incoming_packet.setFrameData (r.in_index - 3) 0x7E).getMemoryData (r.in_index - 3)
          = 0x7E
      ∧ (r.incoming_packet.setFrameData (r.in_index - 3) 0x7E).getErrorCode
          = r.incoming_packet.getErrorCode
      ∧ (r.incoming_packet.setFrameData (r.in_index - 3) 0x7E).getFrameLength
          = r.incoming_packet.getFrameLength := by
  have hrb := SimpleZigBeePacket.setFrameData_readback r.incoming_packet (r.in_index - 3)
    0x7E (by omega) (by omega) hbuf
  refine ⟨?_, ?_, hrb.2, hrb.1, ?_⟩
  · simp [SimpleZigBeeRadio.writeByte, hm, START]
  · have h := SimpleZigBeeRadio.readLoop_pair r 0x7E rest hm he (by omega) (by decide)
    rw [SimpleZigBeeRadio.readDispatch_data _ (by simpa using h3) (by simpa using hM)
      (by simpa using hL)] at h
    simpa [ESCAPE] using h
  · unfold SimpleZigBeePacket.getFrameLength
    rw [SimpleZigBeePacket.setFrameData_frameLength _ _ _ (by omega)]
    have : ¬ (r.in_index - 3 + 1 > r.incoming_packet.frameLength) := by omega
    simp [this]

/-- Witness of C7: the default session after `7E 00 05`, cursor at 3. -/
theorem C7_escaped_start_byte_witness :
    (({ defaultSession with
          in_index := 3
          incoming_packet := defaultSession.incoming_packet.setFrameLength 5 }
        : SimpleZigBeeRadio).incoming_packet.setFrameData (3 - 3) 0x7E).getMemoryData (3 - 3)
      = 0x7E :=
  (C7_escaped_start_byte
    { defaultSession with
      in_index := 3
      incoming_packet := defaultSession.incoming_packet.setFrameLength 5 }
    [] (by decide) (by decide) (by decide) (by decide) (by decide)
    (Or.inl (by decide))).2.2.1

/-- C8 (encoder format).  For every radio and every packet, `sendPacket` writes
exactly `START`, then the escaped forms of the length bytes `L >> 8 & 0xFF` and
`L & 0xFF`, of the frame bytes in order and of the checksum
`0xFF - (sum of the frame bytes mod 256)`, where the escaped form of `x` is
`[0x7D, x XOR 0x20]` when escaped mode is on and `x` is `0x7E`, `0x7D`, `0x11` or
`0x13`, and `[x]` otherwise; the frame bytes are what `getFrameData` returns at
the indices below `frameLength`, and the packet is left unchanged. -/
theorem C8_encoder_format (r : SimpleZigBeeRadio) (p : SimpleZigBeePacket) :
    (r.sendPacket p).2 =
        [0x7E] ++ esc r.escaped_mode ((p.frameLength / 256) % 256).toNat
          ++ esc r.escaped_mode (p.frameLength % 256).toNat
          ++ (frameBytes p).flatMap (esc r.escaped_mode)
          ++ esc r.escaped_mode (0xFF - (frameBytes p).sum % 256)
      ∧ (r.sendPacket p).1 = p
      ∧ ((frameBytes p).length : Int) = max p.frameLength 0
      ∧ ∀ (i : Nat) (hi : i < (frameBytes p).length),
          p.getFrameData (i : Int) = ((frameBytes p)[i], p) := by
  have hlen : (frameBytes p).length = p.frameLength.toNat := by simp [frameBytes]
  refine ⟨?_, ?_, ?_, ?_⟩
  · rw [SimpleZigBeeRadio.sendPacket_eq]
    rfl
  · rw [SimpleZigBeeRadio.sendPacket_eq]
  · rw [hlen]
    omega
  · intro i hi
    rw [SimpleZigBeePacket.getFrameData_of_lt p i (by omega)]
    simp [frameBytes]

/-- C9 (framing guarantee of escaped mode).  For every packet, in the bytes that
`sendPacket` writes in escaped mode the value `0x7E` occurs at position 0 and
nowhere else, the values `0x11` and `0x13` occur nowhere, and every `0x7D` is
immediately followed by `0x5E`, `0x5D`, `0x31` or `0x33`. -/
theorem C9_framing_guarantee (r : SimpleZigBeeRadio) (p : SimpleZigBeePacket)
    (hm : r.escaped_mode = true) :
    (r.sendPacket p).2[0]? = some 0x7E
      ∧ (∀ i : Nat, (r.sendPacket p).2[i]? = some 0x7E → i = 0)
      ∧ (∀ i : Nat, (r.sendPacket p).2[i]? ≠ some 0x11 ∧ (r.sendPacket p).2[i]? ≠ some 0x13)
      ∧ ∀ i : Nat, (r.sendPacket p).2[i]? = some 0x7D →
          (r.sendPacket p).2[i + 1]? = some 0x5E ∨ (r.sendPacket p).2[i + 1]? = some 0x5D
          ∨ (r.sendPacket p).2[i + 1]? = some 0x31 ∨ (r.sendPacket p).2[i + 1]? = some 0x33 := by
  have hw : (r.sendPacket p).2 =
      0x7E :: (((p.frameLength / 256) % 256).toNat :: (p.frameLength % 256).toNat
        :: (frameBytes p ++ [0xFF - (frameBytes p).sum % 256])).flatMap (esc true) := by
    rw [SimpleZigBeeRadio.sendPacket_eq, hm]
    simp [wireFormat, List.flatMap_cons, List.flatMap_append]
  rw [hw]
  obtain ⟨s1, s2⟩ := stuffed_bytes (((p.frameLength / 256) % 256).toNat
    :: (p.frameLength % 256).toNat :: (frameBytes p ++ [0xFF - (frameBytes p).sum % 256]))
  refine ⟨by simp, ?_, ?_, ?_⟩
  · intro i hi
    rcases i with _ | i
    · rfl
    · rw [List.getElem?_cons_succ] at hi
      exact absurd hi (s1 i).1
  · intro i
    rcases i with _ | i
    · simp
    · rw [List.getElem?_cons_succ]
      exact ⟨(s1 i).2.1, (s1 i).2.2⟩
  · intro i hi
    rcases i with _ | i
    · simp at hi
    · rw [List.getElem?_cons_succ] at hi ⊢
      exact s2 i hi

/-- Witness of C9: the default session sending a packet whose frame is `7E 11`. -/
theorem C9_framing_guarantee_witness :
    (defaultSession.sendPacket
      ((defaultSession.outgoing_packet.setFrameData 0 0x7E).setFrameData 1 0x11)).2[0]?
        = some 0x7E :=
  (C9_framing_guarantee defaultSession
    ((defaultSession.outgoing_packet.setFrameData 0 0x7E).setFrameData 1 0x11)
    (by decide)).1

/-- C10 (overflowing writes are rejected whole).  For every packet state,
`setFrameData(index, byte)` with `index >= maxFrameLength` and
`setFrameData(start, bytes, len)` with `start + len - 1 >= maxFrameLength` set
the error code to `MaxFrameLengthExceeded` and change nothing else: no byte is
written, and the frame length, the checksum, the buffer and its capacity are as
before. -/
theorem C10_overflowing_writes_rejected (p : SimpleZigBeePacket) :
    (∀ (index : Int) (byte : Nat), index ≥ p.getMaxFrameLength →
        p.setFrameData index byte = { p with errorCode := MAX_FRAME_LENGTH_EXCEEDED }
        ∧ (p.setFrameData index byte).getErrorCode = MAX_FRAME_LENGTH_EXCEEDED
        ∧ (p.setFrameData index byte).getFrameLength = p.getFrameLength
        ∧ (p.setFrameData index byte).getChecksum = p.getChecksum
        ∧ (p.setFrameData index byte).ptrMemoryArray = p.ptrMemoryArray
        ∧ ∀ i : Int, (p.setFrameData index byte).getMemoryData i = p.getMemoryData i)
      ∧ ∀ (start len : Int) (bytes : List Nat), start + len - 1 ≥ p.getMaxFrameLength →
        p.setFrameDataArray start bytes len = { p with errorCode := MAX_FRAME_LENGTH_EXCEEDED }
        ∧ (p.setFrameDataArray start bytes len).getErrorCode = MAX_FRAME_LENGTH_EXCEEDED
        ∧ (p.setFrameDataArray start bytes len).getFrameLength = p.getFrameLength
        ∧ (p.setFrameDataArray start bytes len).getChecksum = p.getChecksum
        ∧ (p.setFrameDataArray start bytes len).ptrMemoryArray = p.ptrMemoryArray
        ∧ ∀ i : Int, (p.setFrameDataArray start bytes len).getMemoryData i
            = p.getMemoryData i := by
  constructor
  · intro index byte h
    have h1 : ¬ (index < p.getMaxFrameLength) := by omega
    have e : p.setFrameData index byte = { p with errorCode := MAX_FRAME_LENGTH_EXCEEDED } := by
      simp [SimpleZigBeePacket.setFrameData, h1, SimpleZigBeePacket.setErrorCode]
    rw [e]
    exact ⟨rfl, rfl, rfl, rfl, rfl, fun _ => rfl⟩
  · intro start len bytes h
    have h1 : ¬ (start + (len - 1) < p.getMaxFrameLength) := by omega
    have e : p.setFrameDataArray start bytes len
        = { p with errorCode := MAX_FRAME_LENGTH_EXCEEDED } := by
      simp [SimpleZigBeePacket.setFrameDataArray, h1, SimpleZigBeePacket.setErrorCode]
    rw [e]
    exact ⟨rfl, rfl, rfl, rfl, rfl, fun _ => rfl⟩

/-- Witness of C10: on a default packet, a write at index 50 and a write of
three bytes from index 48. -/
theorem C10_overflowing_writes_rejected_witness :
    ((SimpleZigBeePacket.constructDefault [] true).setFrameData 50 7).getErrorCode
        = MAX_FRAME_LENGTH_EXCEEDED
      ∧ ((SimpleZigBeePacket.constructDefault [] true).setFrameDataArray 48 [1, 2, 3]
          3).ptrMemoryArray = (SimpleZigBeePacket.constructDefault [] true).ptrMemoryArray :=
  ⟨((C10_overflowing_writes_rejected (SimpleZigBeePacket.constructDefault [] true)).1 50 7
      (by decide)).2.1,
   ((C10_overflowing_writes_rejected (SimpleZigBeePacket.constructDefault [] true)).2 48 3
      [1, 2, 3] (by decide)).2.2.2.2.1⟩

/-! ## Lemmas on a single write beyond the capacity -/

namespace SimpleZigBeePacket

/-- A store beyond the block leaves the packet as it is. -/
theorem store_outside (p : SimpleZigBeePacket) (i : Int) (b : Nat)
    (hc : p.memoryArrayLength ≤ i) : p.store i b = p := by
  unfold memoryArrayLength at hc
  unfold store
  split_ifs with h0
  · have hlen : p.ptrMemoryArray.length ≤ i.toNat := by omega
    rw [List.set_eq_of_length_le hlen]
  · rfl

/-- A write inside the limit at an index beyond the capacity, when the request
for `index + 10` bytes exceeds the limit: the buffer is not grown and the byte
is not recorded. -/
theorem setFrameData_no_room (p : SimpleZigBeePacket) (i : Int) (b : Nat)
    (hM : i < p.maxFrameLength) (hc : p.memoryArrayLength ≤ i)
    (hg : p.maxFrameLength < i + 10) :
    p.setFrameData i b =
      { p with frameLength := if i + 1 > p.frameLength then i + 1 else p.frameLength } := by
  have hnc : ¬ i < p.memoryArrayLength := by omega
  have hsz : ¬ (i + 10 > p.memoryArrayLength ∧ i + 10 ≤ p.maxFrameLength) := by omega
  have hst := store_outside p i b hc
  unfold setFrameData setMemoryData expandMemoryArray setFrameLength getFrameLength
    getMaxFrameLength
  simp only [hM, hnc, hsz, if_true, if_false, hst]
  split_ifs <;> rfl

/-- A write inside the limit at an index beyond the capacity, when the buffer
could grow but `realloc` fails: the error is recorded, the buffer is not grown
and the byte is not recorded. -/
theorem setFrameData_realloc_fails (p : SimpleZigBeePacket) (i : Int) (b : Nat)
    (hc : p.memoryArrayLength ≤ i) (hg : i + 10 ≤ p.maxFrameLength)
    (hr : p.reallocSucceeds = false) :
    p.setFrameData i b =
      { p with
        frameLength := if i + 1 > p.frameLength then i + 1 else p.frameLength
        errorCode := ERROR_REALLOCATING_MEMORY } := by
  have hM : i < p.maxFrameLength := by omega
  have hnc : ¬ i < p.memoryArrayLength := by omega
  have hsz : i + 10 > p.memoryArrayLength ∧ i + 10 ≤ p.maxFrameLength := by
    constructor <;> omega
  have hst := store_outside (p.setErrorCode ERROR_REALLOCATING_MEMORY) i b hc
  obtain ⟨mem, M, cs, fl, ec, rs⟩ := p
  simp only at hr
  subst hr
  unfold setFrameData setMemoryData expandMemoryArray setFrameLength getFrameLength
    getMaxFrameLength
  simp only [hM, hnc, hsz, if_true, if_false, and_self, hst, Bool.false_eq_true]
  simp only [setErrorCode]
  split_ifs <;> rfl

/-- A write that makes the buffer grow keeps the bytes below the old capacity. -/
theorem setFrameData_grow_obs (p : SimpleZigBeePacket) (i : Int) (b : Nat)
    (h0 : 0 ≤ i) (hc : p.memoryArrayLength ≤ i) (hg : i + 10 ≤ p.maxFrameLength)
    (hr : p.reallocSucceeds = true) :
    (p.setFrameData i b).maxFrameLength = p.maxFrameLength
      ∧ (p.setFrameData i b).memoryArrayLength = i + 10
      ∧ (p.setFrameData i b).frameLength
          = (if i + 1 > p.frameLength then i + 1 else p.frameLength)
      ∧ (p.setFrameData i b).errorCode = p.errorCode
      ∧ (p.setFrameData i b).getMemoryData i = b % 256
      ∧ ∀ j : Int, 0 ≤ j → j < p.memoryArrayLength →
          (p.setFrameData i b).getMemoryData j = p.getMemoryData j := by
  unfold memoryArrayLength at hc
  have hlen : (p.ptrMemoryArray
      ++ List.replicate ((i + 10).toNat - p.ptrMemoryArray.length) 0).length
        = (i + 10).toNat := by
    simp only [List.length_append, List.length_replicate]
    omega
  rw [setFrameData_grow p i b h0 (by unfold memoryArrayLength; omega) hg hr]
  refine ⟨rfl, ?_, rfl, rfl, ?_, ?_⟩
  · simp only [memoryArrayLength, List.length_set, hlen]
    omega
  · rw [load_set _ _ i.toNat (b % 256) i rfl h0 (by rw [hlen]; omega)]
    simp
  · intro j hj0 hjl
    unfold memoryArrayLength at hjl
    rw [load_set _ _ i.toNat (b % 256) j rfl hj0 (by rw [hlen]; omega)]
    have hne : ¬ (i.toNat = j.toNat) := by omega
    have hil : j < p.memoryArrayLength := by unfold memoryArrayLength; omega
    have hil2 : j.toNat < p.ptrMemoryArray.length := by omega
    simp [hne, getMemoryData, load, hil, hj0, List.getElem?_append_left hil2]

end SimpleZigBeePacket

/-! ## The claims C11 to C20 -/

/-- C11 at a failing input.  On a default packet (`maxFrameLength` 50, capacity
20) the write `setFrameData(49, 7)` is inside the limit and records no error,
the frame length becomes 50, but the capacity stays 20 (the request for
`49 + 10` bytes exceeds the limit and is dropped) and `getFrameData(49)` returns
0, not 7. -/
theorem C11_write_at_last_index_is_lost :
    ((SimpleZigBeePacket.constructDefault [] true).setFrameData 49 7).getErrorCode = NO_ERROR
      ∧ ((SimpleZigBeePacket.constructDefault [] true).setFrameData 49 7).getFrameLength = 50
      ∧ ((SimpleZigBeePacket.constructDefault [] true).setFrameData 49 7).memoryArrayLength
          = 20
      ∧ (((SimpleZigBeePacket.constructDefault [] true).setFrameData 49 7).getFrameData 49).1
          = 0 := by
  decide!

/-- C12, as stated, fails: on a default packet whose allocator refuses the
request, `setFrameData(25, 7)` (inside the limit, beyond the capacity 20)
changes the error code, from `NoError` to `ReallocationFailed`. -/
theorem C12_setFrameData_effect_counterexample :
    ((SimpleZigBeePacket.constructDefault [] false).setFrameData 25 7).getErrorCode
      ≠ (SimpleZigBeePacket.constructDefault [] false).getErrorCode := by
  decide!

/-- C12, amended.  For every packet state and every index with
`0 <= index < maxFrameLength`, `setFrameData(index, b)` sets the frame length to
`max(old frameLength, index + 1)`, leaves the checksum and the limit unchanged,
leaves every other byte below the old capacity unchanged, and leaves the error
code unchanged unless the buffer has to grow (`capacity <= index` and
`index + 10 <= maxFrameLength`) and `realloc` fails, in which case the error
code becomes `ReallocationFailed`. -/
theorem C12_setFrameData_effect (p : SimpleZigBeePacket) (index : Int) (b : Nat)
    (h0 : 0 ≤ index) (hM : index < p.getMaxFrameLength) :
    (p.setFrameData index b).getFrameLength = max p.getFrameLength (index + 1)
      ∧ (p.setFrameData index b).getChecksum = p.getChecksum
      ∧ (p.setFrameData index b).getMaxFrameLength = p.getMaxFrameLength
      ∧ (∀ j : Int, j ≠ index → 0 ≤ j → j < p.memoryArrayLength →
          (p.setFrameData index b).getMemoryData j = p.getMemoryData j)
      ∧ ((index < p.memoryArrayLength ∨ p.getMaxFrameLength < index + 10
            ∨ p.reallocSucceeds = true) →
          (p.setFrameData index b).getErrorCode = p.getErrorCode)
      ∧ ((p.memoryArrayLength ≤ index ∧ index + 10 ≤ p.getMaxFrameLength
            ∧ p.reallocSucceeds = false) →
          (p.setFrameData index b).getErrorCode = ERROR_REALLOCATING_MEMORY) := by
  have hM2 : index < p.maxFrameLength := hM
  refine ⟨?_, ?_, ?_, ?_, ?_, ?_⟩
  · unfold SimpleZigBeePacket.getFrameLength
    rw [SimpleZigBeePacket.setFrameData_frameLength p index b hM2]
    split_ifs with h
    · rw [max_eq_right (by omega)]
    · rw [max_eq_left (by omega)]
  · unfold SimpleZigBeePacket.getChecksum
    rw [SimpleZigBeePacket.setFrameData_checksum]
  · exact SimpleZigBeePacket.setFrameData_maxFrameLength p index b
  · intro j hj hj0 hjc
    by_cases hc : index < p.memoryArrayLength
    · exact (SimpleZigBeePacket.setFrameData_inside_obs p index b h0 hM2 hc).2.2.2.2.2 j hj
    · by_cases hg : index + 10 ≤ p.maxFrameLength
      · cases hr : p.reallocSucceeds with
        | true =>
          exact (SimpleZigBeePacket.setFrameData_grow_obs p index b h0 (by omega) hg
            hr).2.2.2.2.2 j hj0 hjc
        | false =>
          rw [SimpleZigBeePacket.setFrameData_realloc_fails p index b (by omega) hg hr]
          rfl
      · rw [SimpleZigBeePacket.setFrameData_no_room p index b hM2 (by omega) (by omega)]
        rfl
  · intro h
    unfold SimpleZigBeePacket.getErrorCode
    by_cases hc : index < p.memoryArrayLength
    · exact (SimpleZigBeePacket.setFrameData_inside_obs p index b h0 hM2 hc).2.2.2.1
    · by_cases hg : index + 10 ≤ p.maxFrameLength
      · have hr : p.reallocSucceeds = true := by
          rcases h with h | h | h
          · exact absurd h hc
          · exact absurd h (by unfold SimpleZigBeePacket.getMaxFrameLength; omega)
          · exact h
        exact (SimpleZigBeePacket.setFrameData_grow_obs p index b h0 (by omega) hg
          hr).2.2.2.1
      · rw [SimpleZigBeePacket.setFrameData_no_room p index b hM2 (by omega) (by omega)]
  · rintro ⟨hc, hg, hr⟩
    rw [SimpleZigBeePacket.setFrameData_realloc_fails p index b hc hg hr]
    rfl

/-- Witness of the amended C12: a write at index 25 on a default packet. -/
theorem C12_setFrameData_effect_witness :
    ((SimpleZigBeePacket.constructDefault [] true).setFrameData 25 7).getFrameLength
      = max (SimpleZigBeePacket.constructDefault [] true).getFrameLength (25 + 1) :=
  (C12_setFrameData_effect (SimpleZigBeePacket.constructDefault [] true) 25 7 (by decide)
    (by decide)).1

/-- C13 (`getFrameData`).  For every packet state and every index `>= 0`: when
`index < frameLength`, `getFrameData(index)` leaves the packet unchanged and
returns the byte that the buffer holds at `index` (0 where the buffer does not
reach `index`); otherwise it returns 0 and sets the error code to
`FrameLengthExceeded`, changing nothing else. -/
theorem C13_getFrameData (p : SimpleZigBeePacket) (index : Int) (h0 : 0 ≤ index) :
    (index < p.getFrameLength →
        (p.getFrameData index).2 = p
        ∧ (∀ x : Nat, p.ptrMemoryArray[index.toNat]? = some x →
            (p.getFrameData index).1 = x % 256)
        ∧ (p.memoryArrayLength ≤ index → (p.getFrameData index).1 = 0))
      ∧ (p.getFrameLength ≤ index →
        (p.getFrameData index).1 = 0
        ∧ (p.getFrameData index).2 = { p with errorCode := FRAME_LENGTH_EXCEEDED }) := by
  constructor
  · intro h
    rw [SimpleZigBeePacket.getFrameData_of_lt p index h]
    refine ⟨rfl, ?_, ?_⟩
    · intro x hx
      have hlt : index.toNat < p.ptrMemoryArray.length := by
        rcases Nat.lt_or_ge index.toNat p.ptrMemoryArray.length with hl | hl
        · exact hl
        · rw [List.getElem?_eq_none hl] at hx
          exact absurd hx (by simp)
      have hc : index < p.memoryArrayLength := by
        unfold SimpleZigBeePacket.memoryArrayLength
        omega
      simp [SimpleZigBeePacket.getMemoryData, SimpleZigBeePacket.load, hc, h0, hx]
    · intro hc
      have hnc : ¬ index < p.memoryArrayLength := by omega
      simp [SimpleZigBeePacket.getMemoryData, hnc]
  · intro h
    rw [SimpleZigBeePacket.getFrameData_of_ge p index h]
    exact ⟨rfl, rfl⟩

/-- Witness of C13: index 1 of a default packet holding the two bytes `8A 06`. -/
theorem C13_getFrameData_witness :
    ((((SimpleZigBeePacket.constructDefault [] true).setFrameData 0 0x8A).setFrameData 1
        0x06).getFrameData 1).2
      = ((SimpleZigBeePacket.constructDefault [] true).setFrameData 0 0x8A).setFrameData 1
          0x06 :=
  ((C13_getFrameData
    (((SimpleZigBeePacket.constructDefault [] true).setFrameData 0 0x8A).setFrameData 1 0x06)
    1 (by decide)).1 (by decide)).1

/-! ## Lemmas on sequences of writes -/

namespace SimpleZigBeePacket

/-- A sequence of single writes at indices the block already holds: the byte
read at `j` is that of the last write at `j`, the frame length is raised to the
highest index written plus one, and nothing else changes. -/
theorem foldl_setFrameData_inside (ws : List (Int × Nat)) :
    ∀ (p : SimpleZigBeePacket),
      (∀ w ∈ ws, 0 ≤ w.1 ∧ w.1 < p.maxFrameLength ∧ w.1 < p.memoryArrayLength) →
      (ws.foldl (fun q w => q.setFrameData w.1 w.2) p).maxFrameLength = p.maxFrameLength
        ∧ (ws.foldl (fun q w => q.setFrameData w.1 w.2) p).memoryArrayLength
            = p.memoryArrayLength
        ∧ (ws.foldl (fun q w => q.setFrameData w.1 w.2) p).errorCode = p.errorCode
        ∧ (ws.foldl (fun q w => q.setFrameData w.1 w.2) p).checksum = p.checksum
        ∧ (ws.foldl (fun q w => q.setFrameData w.1 w.2) p).reallocSucceeds
            = p.reallocSucceeds
        ∧ (ws.foldl (fun q w => q.setFrameData w.1 w.2) p).frameLength
            = ws.foldl (fun (L : Int) w => if w.1 + 1 > L then w.1 + 1 else L) p.frameLength
        ∧ ∀ j : Int, (ws.foldl (fun q w => q.setFrameData w.1 w.2) p).getMemoryData j
            = ws.foldl (fun (v : Nat) w => if w.1 = j then w.2 % 256 else v)
                (p.getMemoryData j) := by
  induction ws with
  | nil =>
    intro p _
    exact ⟨rfl, rfl, rfl, rfl, rfl, rfl, fun _ => rfl⟩
  | cons w ws ih =>
    intro p h
    obtain ⟨w0, wM, wc⟩ := h w (by simp)
    obtain ⟨o1, o2, o3, o4, o5, o6⟩ := setFrameData_inside_obs p w.1 w.2 w0 wM wc
    have h2 : ∀ v ∈ ws, 0 ≤ v.1 ∧ v.1 < (p.setFrameData w.1 w.2).maxFrameLength
        ∧ v.1 < (p.setFrameData w.1 w.2).memoryArrayLength := by
      intro v hv
      rw [o1, o2]
      exact h v (by simp [hv])
    obtain ⟨i1, i2, i3, i4, i5, i6, i7⟩ := ih (p.setFrameData w.1 w.2) h2
    simp only [List.foldl_cons]
    refine ⟨by rw [i1, o1], by rw [i2, o2], by rw [i3, o4],
      by rw [i4, setFrameData_checksum], by rw [i5, setFrameData_reallocSucceeds],
      by rw [i6, o3], ?_⟩
    intro j
    rw [i7 j]
    by_cases hj : w.1 = j
    · subst hj
      rw [o5]
      simp
    · rw [o6 j (fun e => hj e.symm)]
      simp [hj]

end SimpleZigBeePacket

/-! ## Lemmas on the array write -/

namespace SimpleZigBeePacket

/-- A granted request to expand the block: the block has the size asked for
and the bytes it held are kept. -/
theorem expandMemoryArray_grows (p : SimpleZigBeePacket) (size : Int)
    (hr : p.reallocSucceeds = true) (h1 : size > p.memoryArrayLength)
    (h2 : size ≤ p.maxFrameLength) :
    (p.expandMemoryArray size).maxFrameLength = p.maxFrameLength
      ∧ (p.expandMemoryArray size).frameLength = p.frameLength
      ∧ (p.expandMemoryArray size).checksum = p.checksum
      ∧ (p.expandMemoryArray size).reallocSucceeds = p.reallocSucceeds
      ∧ (p.expandMemoryArray size).errorCode = p.errorCode
      ∧ (p.expandMemoryArray size).memoryArrayLength = size
      ∧ ∀ j : Int, 0 ≤ j → j < p.memoryArrayLength →
          (p.expandMemoryArray size).getMemoryData j = p.getMemoryData j := by
  have hsz : size > p.memoryArrayLength ∧ size ≤ p.getMaxFrameLength := ⟨h1, h2⟩
  have he : p.expandMemoryArray size
      = { p with ptrMemoryArray :=
            p.ptrMemoryArray ++ List.replicate (size.toNat - p.ptrMemoryArray.length) 0 } := by
    unfold expandMemoryArray
    simp only [hsz, hr, if_true, and_self]
  rw [he]
  have hlen : (({ p with ptrMemoryArray :=
      p.ptrMemoryArray ++ List.replicate (size.toNat - p.ptrMemoryArray.length) 0 } :
        SimpleZigBeePacket).memoryArrayLength) = size := by
    unfold memoryArrayLength at h1 ⊢
    simp only [List.length_append, List.length_replicate]
    omega
  refine ⟨rfl, rfl, rfl, rfl, rfl, hlen, ?_⟩
  intro j hj0 hj
  have hj2 : j.toNat < p.ptrMemoryArray.length := by
    unfold memoryArrayLength at hj
    omega
  unfold getMemoryData
  rw [if_pos (by rw [hlen]; omega), if_pos hj]
  unfold load
  simp only [hj0, if_true, List.getD_eq_getElem?_getD, List.getElem?_append_left hj2]

end SimpleZigBeePacket

/-! ## Lemmas on the address fields -/

namespace SimpleZigBeePacket

/-- The ten writes of `setAddress64` followed by `setAddress16`, in the order
in which the source makes them. -/
theorem setAddress_writes (p : SimpleZigBeePacket) (msb lsb a : Nat) :
    (p.setAddress64 msb lsb).setAddress16 a
      = ([((2 : Int), msb % 4294967296 / 2 ^ 24 % 256),
          ((6 : Int), lsb % 4294967296 / 2 ^ 24 % 256),
          ((3 : Int), msb % 4294967296 / 2 ^ 16 % 256),
          ((7 : Int), lsb % 4294967296 / 2 ^ 16 % 256),
          ((4 : Int), msb % 4294967296 / 2 ^ 8 % 256),
          ((8 : Int), lsb % 4294967296 / 2 ^ 8 % 256),
          ((5 : Int), msb % 4294967296 / 2 ^ 0 % 256),
          ((9 : Int), lsb % 4294967296 / 2 ^ 0 % 256),
          ((10 : Int), a % 65536 / 256 % 256),
          ((11 : Int), a % 65536 % 256)] : List (Int × Nat)).foldl
          (fun q w => q.setFrameData w.1 w.2) p := by
  rfl

/-- A big-endian word of four bytes is recomposed by the shifts and sums of the
address getters. -/
theorem word32_recompose (x : Nat) (hx : x < 4294967296) :
    ((x % 4294967296 / 2 ^ 24 % 256 % 256) * 2 ^ 24 % 4294967296
        + (x % 4294967296 / 2 ^ 16 % 256 % 256) * 2 ^ 16 % 4294967296
        + (x % 4294967296 / 2 ^ 8 % 256 % 256) * 2 ^ 8
        + x % 4294967296 / 2 ^ 0 % 256 % 256) % 4294967296 = x := by
  norm_num
  omega

/-- A big-endian word of two bytes is recomposed by the shift and sum of the
address getters. -/
theorem word16_recompose (x : Nat) (hx : x < 65536) :
    ((x % 65536 / 256 % 256 % 256) * 2 ^ 8 + x % 65536 % 256 % 256) % 65536 = x := by
  norm_num
  omega

end SimpleZigBeePacket

/-- C17 (address round trip).  For every 32-bit `msb`, `lsb` and 16-bit `a`,
after `setAddress64(msb, lsb)` and `setAddress16(a)` on a reset packet whose
limit and buffer hold twelve bytes, `getRemoteATResponseAddress64` returns
exactly `(msb, lsb)` and `getRemoteATResponseAddress16` returns `a`, both
leaving the packet as it is, with no error recorded. -/
theorem C17_address_round_trip (p : SimpleZigBeePacket) (msb lsb a : Nat)
    (hM : 12 ≤ p.maxFrameLength) (hc : 12 ≤ p.memoryArrayLength)
    (h1 : msb < 4294967296) (h2 : lsb < 4294967296) (h3 : a < 65536) :
    ((p.reset.setAddress64 msb lsb).setAddress16 a).getRemoteATResponseAddress64
        = ({ address64MSB := msb, address64LSB := lsb },
            (p.reset.setAddress64 msb lsb).setAddress16 a)
      ∧ ((p.reset.setAddress64 msb lsb).setAddress16 a).getRemoteATResponseAddress16
        = ({ address16 := a }, (p.reset.setAddress64 msb lsb).setAddress16 a)
      ∧ ((p.reset.setAddress64 msb lsb).setAddress16 a).getErrorCode = NO_ERROR := by
  rw [SimpleZigBeePacket.setAddress_writes]
  have hM2 : 12 ≤ p.reset.maxFrameLength := hM
  have hc2 : 12 ≤ p.reset.memoryArrayLength := hc
  have obs := SimpleZigBeePacket.foldl_setFrameData_inside
    ([((2 : Int), msb % 4294967296 / 2 ^ 24 % 256),
      ((6 : Int), lsb % 4294967296 / 2 ^ 24 % 256),
      ((3 : Int), msb % 4294967296 / 2 ^ 16 % 256),
      ((7 : Int), lsb % 4294967296 / 2 ^ 16 % 256),
      ((4 : Int), msb % 4294967296 / 2 ^ 8 % 256),
      ((8 : Int), lsb % 4294967296 / 2 ^ 8 % 256),
      ((5 : Int), msb % 4294967296 / 2 ^ 0 % 256),
      ((9 : Int), lsb % 4294967296 / 2 ^ 0 % 256),
      ((10 : Int), a % 65536 / 256 % 256),
      ((11 : Int), a % 65536 % 256)] : List (Int × Nat)) p.reset
    (by
      intro w hw
      simp only [List.mem_cons, List.mem_singleton, List.not_mem_nil, or_false] at hw
      rcases hw with rfl | rfl | rfl | rfl | rfl | rfl | rfl | rfl | rfl | rfl <;>
        exact ⟨by simp, by simp only; omega, by simp only; omega⟩)
  obtain ⟨_, _, o3, _, _, o6, o7⟩ := obs
  generalize List.foldl (fun (q : SimpleZigBeePacket) (w : Int × Nat) =>
    q.setFrameData w.1 w.2) p.reset _ = q at o3 o6 o7 ⊢
  have hL : q.frameLength = 12 := by
    rw [o6]
    simp [SimpleZigBeePacket.reset, SimpleZigBeePacket.init]
  have g : ∀ i : Int, i < 12 → q.getFrameData i = (q.getMemoryData i, q) := fun i hi =>
    SimpleZigBeePacket.getFrameData_of_lt q i (by
      rw [hL]
      exact hi)
  have w1 := SimpleZigBeePacket.word32_recompose msb h1
  have w2 := SimpleZigBeePacket.word32_recompose lsb h2
  have w3 := SimpleZigBeePacket.word16_recompose a h3
  refine ⟨?_, ?_, ?_⟩
  · unfold SimpleZigBeePacket.getRemoteATResponseAddress64 SimpleZigBeePacket.getWord32
    simp only [g 2 (by decide), g (2 + 1) (by decide), g (2 + 2) (by decide),
      g (2 + 3) (by decide), g 6 (by decide), g (6 + 1) (by decide), g (6 + 2) (by decide),
      g (6 + 3) (by decide)]
    rw [o7 2, o7 (2 + 1), o7 (2 + 2), o7 (2 + 3), o7 6, o7 (6 + 1), o7 (6 + 2), o7 (6 + 3)]
    simp only [List.foldl_cons, List.foldl_nil]
    norm_num
    norm_num at w1 w2
    exact ⟨w1, w2⟩
  · unfold SimpleZigBeePacket.getRemoteATResponseAddress16
    simp only [g 10 (by decide), g 11 (by decide)]
    rw [o7 10, o7 11]
    simp only [List.foldl_cons, List.foldl_nil]
    norm_num
    norm_num at w3
    exact w3
  · unfold SimpleZigBeePacket.getErrorCode
    rw [o3]
    rfl

/-- Witness of C17 on the default packet with the address `0013A200 40A1B2C3`
and the 16-bit address `FFFE`. -/
theorem C17_address_round_trip_witness :
    ((((SimpleZigBeePacket.constructDefault [] true).reset.setAddress64 0x0013A200
        0x40A1B2C3).setAddress16 0xFFFE).getRemoteATResponseAddress16).1
      = { address16 := 0xFFFE } :=
  congrArg Prod.fst (C17_address_round_trip (SimpleZigBeePacket.constructDefault [] true)
    0x0013A200 0x40A1B2C3 0xFFFE (by decide) (by decide) (by decide) (by decide)
    (by decide)).2.1

/-- C18, as stated, fails: an incoming packet constructed with the limit 300
and holding 268 stored frame bytes has `frameLength >= 12`, but
`getRXPayloadLength` (an 8-bit result) returns 0, not `268 - 12 = 256`. -/
theorem C18_rx_layout_counterexample :
    12 ≤ (SimpleZigBeePacket.setFrameDataArray (SimpleZigBeePacket.construct 300 [] true) 0
        (List.replicate 268 1) 268).getFrameLength
      ∧ ((SimpleZigBeePacket.setFrameDataArray (SimpleZigBeePacket.construct 300 [] true) 0
        (List.replicate 268 1) 268).getRXPayloadLength : Int)
        ≠ (SimpleZigBeePacket.setFrameDataArray (SimpleZigBeePacket.construct 300 [] true) 0
            (List.replicate 268 1) 268).getFrameLength - 12 := by
  decide!

/-- C18, amended.  For every incoming packet with `frameLength >= 12`,
`getRXAddress64` returns the big-endian 32-bit values of frame bytes 1-4 and
5-8, `getRXAddress16` returns byte 9 * 256 + byte 10, `getRXOptions` returns
byte 11, `getRXPayload(i)` returns byte 12 + i for every `0 <= i < frameLength - 12`,
all leaving the packet unchanged (no error recorded), and `getRXPayloadLength`
returns `(frameLength - 12) mod 256`, which is `frameLength - 12` whenever
`frameLength <= 267`.  Frame byte `k` is what the buffer holds at `k`. -/
theorem C18_rx_layout (p : SimpleZigBeePacket) (h : 12 ≤ p.getFrameLength) :
    p.getRXAddress64
        = ({ address64MSB := p.getMemoryData 1 * 2 ^ 24 + p.getMemoryData 2 * 2 ^ 16
              + p.getMemoryData 3 * 2 ^ 8 + p.getMemoryData 4
             address64LSB := p.getMemoryData 5 * 2 ^ 24 + p.getMemoryData 6 * 2 ^ 16
              + p.getMemoryData 7 * 2 ^ 8 + p.getMemoryData 8 }, p)
      ∧ p.getRXAddress16
        = ({ address16 := p.getMemoryData 9 * 256 + p.getMemoryData 10 }, p)
      ∧ p.getRXOptions = (p.getMemoryData 11, p)
      ∧ (p.getRXPayloadLength : Int) = (p.getFrameLength - 12) % 256
      ∧ (p.getFrameLength ≤ 267 → (p.getRXPayloadLength : Int) = p.getFrameLength - 12)
      ∧ ∀ i : Int, 0 ≤ i → i < p.getFrameLength - 12 →
          p.getRXPayload i = (p.getMemoryData (i + 12), p) := by
  have hL : 12 ≤ p.frameLength := h
  have g : ∀ i : Int, i < 12 → p.getFrameData i = (p.getMemoryData i, p) := fun i hi =>
    SimpleZigBeePacket.getFrameData_of_lt p i (by omega)
  have b1 := SimpleZigBeePacket.getMemoryData_lt p 1
  have b2 := SimpleZigBeePacket.getMemoryData_lt p 2
  have b3 := SimpleZigBeePacket.getMemoryData_lt p 3
  have b4 := SimpleZigBeePacket.getMemoryData_lt p 4
  have b5 := SimpleZigBeePacket.getMemoryData_lt p 5
  have b6 := SimpleZigBeePacket.getMemoryData_lt p 6
  have b7 := SimpleZigBeePacket.getMemoryData_lt p 7
  have b8 := SimpleZigBeePacket.getMemoryData_lt p 8
  have b9 := SimpleZigBeePacket.getMemoryData_lt p 9
  have b10 := SimpleZigBeePacket.getMemoryData_lt p 10
  refine ⟨?_, ?_, ?_, ?_, ?_, ?_⟩
  · unfold SimpleZigBeePacket.getRXAddress64 SimpleZigBeePacket.getWord32
    simp only [g 1 (by decide), g (1 + 1) (by decide), g (1 + 2) (by decide),
      g (1 + 3) (by decide), g 5 (by decide), g (5 + 1) (by decide), g (5 + 2) (by decide),
      g (5 + 3) (by decide)]
    norm_num
    constructor <;> omega
  · unfold SimpleZigBeePacket.getRXAddress16
    simp only [g 9 (by decide), g 10 (by decide)]
    norm_num
    omega
  · unfold SimpleZigBeePacket.getRXOptions
    exact g 11 (by decide)
  · unfold SimpleZigBeePacket.getRXPayloadLength SimpleZigBeePacket.getFrameLength
    omega
  · intro h2
    unfold SimpleZigBeePacket.getRXPayloadLength SimpleZigBeePacket.getFrameLength at *
    omega
  · intro i hi0 hi
    unfold SimpleZigBeePacket.getRXPayload
    exact SimpleZigBeePacket.getFrameData_of_lt p (i + 12) (by
      unfold SimpleZigBeePacket.getFrameLength at hi
      omega)

/-- Witness of the amended C18: the RX frame of fourteen bytes received by the
default session from `7E 00 0E 90 00 13 A2 00 40 A1 B2 C3 FF FE 01 48 69 B5`. -/
theorem C18_rx_layout_witness :
    (SimpleZigBeeRadio.read defaultSession
        [0x7E, 0x00, 0x0E, 0x90, 0x00, 0x7D, 0x33, 0xA2, 0x00, 0x40, 0xA1, 0xB2, 0xC3, 0xFF,
          0xFE, 0x01, 0x48, 0x69, 0xB5]).1.incoming_packet.getRXOptions
      = ((SimpleZigBeeRadio.read defaultSession
        [0x7E, 0x00, 0x0E, 0x90, 0x00, 0x7D, 0x33, 0xA2, 0x00, 0x40, 0xA1, 0xB2, 0xC3, 0xFF,
          0xFE, 0x01, 0x48, 0x69, 0xB5]).1.incoming_packet.getMemoryData 11,
        (SimpleZigBeeRadio.read defaultSession
        [0x7E, 0x00, 0x0E, 0x90, 0x00, 0x7D, 0x33, 0xA2, 0x00, 0x40, 0xA1, 0xB2, 0xC3, 0xFF,
          0xFE, 0x01, 0x48, 0x69, 0xB5]).1.incoming_packet) :=
  (C18_rx_layout (SimpleZigBeeRadio.read defaultSession
        [0x7E, 0x00, 0x0E, 0x90, 0x00, 0x7D, 0x33, 0xA2, 0x00, 0x40, 0xA1, 0xB2, 0xC3, 0xFF,
          0xFE, 0x01, 0x48, 0x69, 0xB5]).1.incoming_packet (by decide!)).2.2.1

/-- C19, as stated, fails: an incoming packet constructed with the limit 300
and holding 261 stored frame bytes has `frameLength >= 5`, but
`getATResponsePayloadLength` (an 8-bit result) returns 0, not `261 - 5 = 256`. -/
theorem C19_at_response_layout_counterexample :
    5 ≤ (SimpleZigBeePacket.setFrameDataArray (SimpleZigBeePacket.construct 300 [] true) 0
        (List.replicate 261 2) 261).getFrameLength
      ∧ ((SimpleZigBeePacket.setFrameDataArray (SimpleZigBeePacket.construct 300 [] true) 0
        (List.replicate 261 2) 261).getATResponsePayloadLength : Int)
        ≠ (SimpleZigBeePacket.setFrameDataArray (SimpleZigBeePacket.construct 300 [] true) 0
            (List.replicate 261 2) 261).getFrameLength - 5 := by
  decide!

/-- C19, amended.  For every incoming packet with `frameLength >= 5`,
`getFrameID` returns frame byte 1, `getATResponseCommand` returns
byte 2 * 256 + byte 3, `getATResponseStatus` returns byte 4,
`getATResponsePayload(i)` returns byte 5 + i for every `0 <= i < frameLength - 5`,
all leaving the packet unchanged (no error recorded), and
`getATResponsePayloadLength` returns `(frameLength - 5) mod 256`, which is
`frameLength - 5` whenever `frameLength <= 260`.  Frame byte `k` is what the
buffer holds at `k`. -/
theorem C19_at_response_layout (p : SimpleZigBeePacket) (h : 5 ≤ p.getFrameLength) :
    p.getFrameID = (p.getMemoryData 1, p)
      ∧ p.getATResponseCommand = (p.getMemoryData 2 * 256 + p.getMemoryData 3, p)
      ∧ p.getATResponseStatus = (p.getMemoryData 4, p)
      ∧ (p.getATResponsePayloadLength : Int) = (p.getFrameLength - 5) % 256
      ∧ (p.getFrameLength ≤ 260 →
          (p.getATResponsePayloadLength : Int) = p.getFrameLength - 5)
      ∧ ∀ i : Int, 0 ≤ i → i < p.getFrameLength - 5 →
          p.getATResponsePayload i = (p.getMemoryData (i + 5), p) := by
  have hL : 5 ≤ p.frameLength := h
  have g : ∀ i : Int, i < 5 → p.getFrameData i = (p.getMemoryData i, p) := fun i hi =>
    SimpleZigBeePacket.getFrameData_of_lt p i (by omega)
  have b2 := SimpleZigBeePacket.getMemoryData_lt p 2
  have b3 := SimpleZigBeePacket.getMemoryData_lt p 3
  refine ⟨?_, ?_, ?_, ?_, ?_, ?_⟩
  · unfold SimpleZigBeePacket.getFrameID
    exact g 1 (by decide)
  · unfold SimpleZigBeePacket.getATResponseCommand
    simp only [g 2 (by decide), g 3 (by decide)]
    norm_num
    omega
  · unfold SimpleZigBeePacket.getATResponseStatus
    exact g 4 (by decide)
  · unfold SimpleZigBeePacket.getATResponsePayloadLength SimpleZigBeePacket.getFrameLength
    omega
  · intro h2
    unfold SimpleZigBeePacket.getATResponsePayloadLength SimpleZigBeePacket.getFrameLength
      at *
    omega
  · intro i hi0 hi
    unfold SimpleZigBeePacket.getATResponsePayload
    exact SimpleZigBeePacket.getFrameData_of_lt p (i + 5) (by
      unfold SimpleZigBeePacket.getFrameLength at hi
      omega)

/-- Witness of the amended C19: the AT command response of seven bytes received
by the default session from `7E 00 07 88 01 4E 49 00 AB CD 67`. -/
theorem C19_at_response_layout_witness :
    (SimpleZigBeeRadio.read defaultSession
        [0x7E, 0x00, 0x07, 0x88, 0x01, 0x4E, 0x49, 0x00, 0xAB, 0xCD,
          0x67]).1.incoming_packet.getATResponseCommand
      = ((SimpleZigBeeRadio.read defaultSession
        [0x7E, 0x00, 0x07, 0x88, 0x01, 0x4E, 0x49, 0x00, 0xAB, 0xCD,
          0x67]).1.incoming_packet.getMemoryData 2 * 256
          + (SimpleZigBeeRadio.read defaultSession
        [0x7E, 0x00, 0x07, 0x88, 0x01, 0x4E, 0x49, 0x00, 0xAB, 0xCD,
          0x67]).1.incoming_packet.getMemoryData 3,
        (SimpleZigBeeRadio.read defaultSession
        [0x7E, 0x00, 0x07, 0x88, 0x01, 0x4E, 0x49, 0x00, 0xAB, 0xCD,
          0x67]).1.incoming_packet) :=
  (C19_at_response_layout (SimpleZigBeeRadio.read defaultSession
        [0x7E, 0x00, 0x07, 0x88, 0x01, 0x4E, 0x49, 0x00, 0xAB, 0xCD,
          0x67]).1.incoming_packet (by decide!)).2.1

/-- C20 at a failing input.  The default session receives the TX Status frame
`8B 01 12 34 00 00 00` (wire bytes `7E 00 07 8B 01 12 34 00 00 00 2D`), complete
and free of error, carrying the destination address `0x1234` in frame bytes 2
and 3.  `getTXStatusAddress16` reads `getFrameData(9) << 2` plus
`getFrameData(3)`: it returns `0x34` and, index 9 being beyond the frame of 7
bytes, records `FrameLengthExceeded` on the packet. -/
theorem C20_tx_status_address_is_wrong :
    (SimpleZigBeeRadio.read defaultSession
        [0x7E, 0x00, 0x07, 0x8B, 0x01, 0x12, 0x34, 0x00, 0x00, 0x00, 0x2D]).1.isComplete = true
      ∧ (SimpleZigBeeRadio.read defaultSession
        [0x7E, 0x00, 0x07, 0x8B, 0x01, 0x12, 0x34, 0x00, 0x00, 0x00,
          0x2D]).1.incoming_packet.getErrorCode = NO_ERROR
      ∧ frameBytes (SimpleZigBeeRadio.read defaultSession
        [0x7E, 0x00, 0x07, 0x8B, 0x01, 0x12, 0x34, 0x00, 0x00, 0x00,
          0x2D]).1.incoming_packet = [0x8B, 0x01, 0x12, 0x34, 0x00, 0x00, 0x00]
      ∧ (SimpleZigBeeRadio.read defaultSession
        [0x7E, 0x00, 0x07, 0x8B, 0x01, 0x12, 0x34, 0x00, 0x00, 0x00,
          0x2D]).1.incoming_packet.getTXStatusAddress16.1 = { address16 := 0x34 }
      ∧ (SimpleZigBeeRadio.read defaultSession
        [0x7E, 0x00, 0x07, 0x8B, 0x01, 0x12, 0x34, 0x00, 0x00, 0x00,
          0x2D]).1.incoming_packet.getTXStatusAddress16.2.getErrorCode
          = FRAME_LENGTH_EXCEEDED := by
  decide!

/-- C15 at a failing input.  The default session prepares and sends a Transmit
Request with the two payload bytes `01 02` (the outgoing buffer grows from 20 to
25 bytes), then prepares a Transmit Request with 36 payload bytes `AA`
(`14 + 36 = 50 <= maxFrameLength`).  The outgoing packet then has no error and
`frameLength = 50`, but its capacity is 45: the request to grow to 55 bytes for
index 45 exceeds the limit and is dropped, the writes at indices 45..49 fall
outside the block, and frame bytes 45..49 read back 0 instead of `AA`. -/
theorem C15_tx_request_payload_tail_is_lost :
    (((defaultSession.prepareTXRequest 0 0 0 [1, 2] 2).send.1).prepareTXRequest 0x0013A200
        0x40A1B2C3 0xFFFE (List.replicate 36 0xAA) 36).outgoing_packet.getErrorCode = NO_ERROR
      ∧ (((defaultSession.prepareTXRequest 0 0 0 [1, 2] 2).send.1).prepareTXRequest
          0x0013A200 0x40A1B2C3 0xFFFE (List.replicate 36 0xAA)
          36).outgoing_packet.getFrameLength = 50
      ∧ (((defaultSession.prepareTXRequest 0 0 0 [1, 2] 2).send.1).prepareTXRequest
          0x0013A200 0x40A1B2C3 0xFFFE (List.replicate 36 0xAA)
          36).outgoing_packet.memoryArrayLength = 45
      ∧ ((((defaultSession.prepareTXRequest 0 0 0 [1, 2] 2).send.1).prepareTXRequest
          0x0013A200 0x40A1B2C3 0xFFFE (List.replicate 36 0xAA)
          36).outgoing_packet.getFrameData 44).1 = 0xAA
      ∧ ((((defaultSession.prepareTXRequest 0 0 0 [1, 2] 2).send.1).prepareTXRequest
          0x0013A200 0x40A1B2C3 0xFFFE (List.replicate 36 0xAA)
          36).outgoing_packet.getFrameData 49).1 = 0 := by
  decide!

/-! ## Lemmas on the prepared Remote AT Command -/

/-- The frame bytes of a packet are the list `L` when the frame length is the
length of `L` and the buffer reads `L[j]` at every index `j` of `L`. -/
theorem frameBytes_eq (q : SimpleZigBeePacket) (L : List Nat)
    (hL : q.frameLength = (L.length : Int))
    (h : ∀ (j : Nat) (hj : j < L.length), q.getMemoryData (j : Int) = L[j]) :
    frameBytes q = L := by
  apply List.ext_getElem
  · simp [frameBytes, hL]
  · intro j h1 h2
    simp only [frameBytes, List.getElem_map, List.getElem_range]
    exact h j h2

namespace SimpleZigBeePacket

/-- Whatever its argument, `expandMemoryArray` keeps the limit and the frame
length, does not shrink the block and keeps the bytes the block held. -/
theorem expandMemoryArray_keeps (p : SimpleZigBeePacket) (size : Int) :
    (p.expandMemoryArray size).maxFrameLength = p.maxFrameLength
      ∧ (p.expandMemoryArray size).frameLength = p.frameLength
      ∧ p.memoryArrayLength ≤ (p.expandMemoryArray size).memoryArrayLength
      ∧ ∀ j : Int, 0 ≤ j → j < p.memoryArrayLength →
          (p.expandMemoryArray size).getMemoryData j = p.getMemoryData j := by
  by_cases hsz : size > p.memoryArrayLength ∧ size ≤ p.maxFrameLength
  · cases hr : p.reallocSucceeds with
    | true =>
      obtain ⟨e1, e2, _, _, _, e6, e7⟩ := expandMemoryArray_grows p size hr hsz.1 hsz.2
      refine ⟨e1, e2, ?_, e7⟩
      rw [e6]
      omega
    | false =>
      have e : p.expandMemoryArray size = p.setErrorCode ERROR_REALLOCATING_MEMORY := by
        unfold expandMemoryArray getMaxFrameLength
        simp only [hsz, hr, if_true, and_self, Bool.false_eq_true, if_false]
      rw [e]
      exact ⟨rfl, rfl, le_refl _, fun _ _ _ => rfl⟩
  · have e : p.expandMemoryArray size = p := by
      unfold expandMemoryArray getMaxFrameLength
      rw [if_neg hsz]
    rw [e]
    exact ⟨rfl, rfl, le_refl _, fun _ _ _ => rfl⟩

/-- A store keeps the limit, the frame length, the size of the block and every
byte at another index. -/
theorem store_keeps (p : SimpleZigBeePacket) (i : Int) (b : Nat) :
    (p.store i b).maxFrameLength = p.maxFrameLength
      ∧ (p.store i b).frameLength = p.frameLength
      ∧ (p.store i b).memoryArrayLength = p.memoryArrayLength
      ∧ ∀ j : Int, j ≠ i → (p.store i b).getMemoryData j = p.getMemoryData j := by
  by_cases h0 : 0 ≤ i
  · have e : p.store i b
        = { p with ptrMemoryArray := p.ptrMemoryArray.set i.toNat (b % 256) } := by
      unfold store
      rw [if_pos h0]
    rw [e]
    refine ⟨rfl, rfl, by simp [memoryArrayLength], ?_⟩
    intro j hj
    unfold getMemoryData load memoryArrayLength
    simp only [List.length_set]
    by_cases hj0 : 0 ≤ j
    · have hne : i.toNat ≠ j.toNat := by omega
      simp [hj0, List.getElem?_set_ne hne]
    · simp [hj0]
  · have e : p.store i b = p := by
      unfold store
      rw [if_neg h0]
    rw [e]
    exact ⟨rfl, rfl, rfl, fun _ _ => rfl⟩

/-- Whatever its arguments, `setMemoryData` keeps the limit and the frame
length, does not shrink the block and keeps the bytes the block held at the
other indices. -/
theorem setMemoryData_keeps (p : SimpleZigBeePacket) (i : Int) (b : Nat) :
    (p.setMemoryData i b).maxFrameLength = p.maxFrameLength
      ∧ (p.setMemoryData i b).frameLength = p.frameLength
      ∧ p.memoryArrayLength ≤ (p.setMemoryData i b).memoryArrayLength
      ∧ ∀ j : Int, 0 ≤ j → j < p.memoryArrayLength → j ≠ i →
          (p.setMemoryData i b).getMemoryData j = p.getMemoryData j := by
  unfold setMemoryData getMaxFrameLength
  by_cases hM : i < p.maxFrameLength
  · rw [if_pos hM]
    by_cases hc : i < p.memoryArrayLength
    · rw [if_pos hc]
      obtain ⟨s1, s2, s3, s4⟩ := store_keeps p i b
      exact ⟨s1, s2, by rw [s3], fun j _ _ hj => s4 j hj⟩
    · rw [if_neg hc]
      obtain ⟨e1, e2, e3, e4⟩ := expandMemoryArray_keeps p (i + 10)
      obtain ⟨s1, s2, s3, s4⟩ := store_keeps (p.expandMemoryArray (i + 10)) i b
      refine ⟨by rw [s1, e1], by rw [s2, e2], by rw [s3]; exact e3, ?_⟩
      intro j hj0 hjc hj
      rw [s4 j hj, e4 j hj0 hjc]
  · rw [if_neg hM]
    exact ⟨rfl, rfl, le_refl _, fun _ _ _ _ => rfl⟩

/-- Whatever its arguments, `setFrameData` keeps the limit and does not shrink
the block. -/
theorem setFrameData_keeps (p : SimpleZigBeePacket) (i : Int) (b : Nat) :
    (p.setFrameData i b).maxFrameLength = p.maxFrameLength
      ∧ p.memoryArrayLength ≤ (p.setFrameData i b).memoryArrayLength := by
  refine ⟨setFrameData_maxFrameLength p i b, ?_⟩
  obtain ⟨_, _, m3, _⟩ := setMemoryData_keeps p i b
  unfold setFrameData getMaxFrameLength
  by_cases hM : i < p.maxFrameLength
  · simp only [hM, if_true]
    split_ifs
    · exact m3
    · exact m3
  · rw [if_neg hM]
    exact le_refl _

/-- Whatever the writes, a sequence of single writes keeps the limit and does
not shrink the block. -/
theorem foldl_setFrameData_keeps (ws : List (Int × Nat)) :
    ∀ (p : SimpleZigBeePacket),
      (ws.foldl (fun q w => q.setFrameData w.1 w.2) p).maxFrameLength = p.maxFrameLength
        ∧ p.memoryArrayLength
            ≤ (ws.foldl (fun q w => q.setFrameData w.1 w.2) p).memoryArrayLength := by
  induction ws with
  | nil =>
    intro p
    exact ⟨rfl, le_refl _⟩
  | cons w ws ih =>
    intro p
    obtain ⟨k1, k2⟩ := setFrameData_keeps p w.1 w.2
    obtain ⟨i1, i2⟩ := ih (p.setFrameData w.1 w.2)
    simp only [List.foldl_cons]
    exact ⟨by rw [i1, k1], le_trans k2 i2⟩

/-- Whatever its arguments, the loop of the array write keeps the limit and the
frame length, does not shrink the block and keeps the bytes the block held below
the first index it writes. -/
theorem setFrameDataLoop_keeps (f : List Nat) :
    ∀ (p : SimpleZigBeePacket) (start i : Int),
      (setFrameDataLoop p start i f).maxFrameLength = p.maxFrameLength
        ∧ (setFrameDataLoop p start i f).frameLength = p.frameLength
        ∧ p.memoryArrayLength ≤ (setFrameDataLoop p start i f).memoryArrayLength
        ∧ ∀ j : Int, 0 ≤ j → j < p.memoryArrayLength → j < start + i →
            (setFrameDataLoop p start i f).getMemoryData j = p.getMemoryData j := by
  induction f with
  | nil =>
    intro p start i
    exact ⟨rfl, rfl, le_refl _, fun _ _ _ _ => rfl⟩
  | cons b f ih =>
    intro p start i
    obtain ⟨m1, m2, m3, m4⟩ := setMemoryData_keeps p (start + i) b
    obtain ⟨i1, i2, i3, i4⟩ := ih (p.setMemoryData (start + i) b) start (i + 1)
    simp only [setFrameDataLoop]
    refine ⟨by rw [i1, m1], by rw [i2, m2], le_trans m3 i3, ?_⟩
    intro j hj0 hjc hj
    rw [i4 j hj0 (by omega) (by omega), m4 j hj0 hjc (by omega)]

/-- Whatever its arguments, the array write keeps the limit, does not lower the
frame length, does not shrink the block and keeps the bytes the block held below
`startIndex`. -/
theorem setFrameDataArray_keeps (p : SimpleZigBeePacket) (start : Int) (f : List Nat)
    (n : Int) :
    (p.setFrameDataArray start f n).maxFrameLength = p.maxFrameLength
      ∧ p.frameLength ≤ (p.setFrameDataArray start f n).frameLength
      ∧ p.memoryArrayLength ≤ (p.setFrameDataArray start f n).memoryArrayLength
      ∧ ∀ j : Int, 0 ≤ j → j < p.memoryArrayLength → j < start →
          (p.setFrameDataArray start f n).getMemoryData j = p.getMemoryData j := by
  unfold setFrameDataArray getMaxFrameLength
  by_cases hM : start + (n - 1) < p.maxFrameLength
  · obtain ⟨e1, e2, e3, e4⟩ := expandMemoryArray_keeps p (start + (n - 1) + 10)
    obtain ⟨l1, l2, l3, l4⟩ := setFrameDataLoop_keeps (f.take n.toNat)
      (p.expandMemoryArray (start + (n - 1) + 10)) start 0
    simp only [hM, if_true, getFrameLength, setFrameLength]
    rw [l2, e2]
    have hb : ∀ j : Int, 0 ≤ j → j < p.memoryArrayLength → j < start →
        (setFrameDataLoop (p.expandMemoryArray (start + (n - 1) + 10)) start 0
          (f.take n.toNat)).getMemoryData j = p.getMemoryData j := by
      intro j hj0 hjc hj
      rw [l4 j hj0 (by omega) (by omega), e4 j hj0 hjc]
    by_cases hL : start + (n - 1) + 1 > p.frameLength
    · simp only [hL, if_true]
      exact ⟨by rw [l1, e1], by omega, le_trans e3 l3, hb⟩
    · simp only [hL, if_false]
      exact ⟨by rw [l1, e1], by rw [l2, e2], le_trans e3 l3, hb⟩
  · rw [if_neg hM]
    exact ⟨rfl, le_refl _, le_refl _, fun _ _ _ _ => rfl⟩

/-- The byte returned by `getFrameData` is below 256. -/
theorem getFrameData_lt (p : SimpleZigBeePacket) (i : Int) : (p.getFrameData i).1 < 256 := by
  unfold getFrameData
  split_ifs
  · exact getMemoryData_lt p i
  · simp

end SimpleZigBeePacket

/-! ## Lemmas on the frame id of a prepared packet -/

namespace SimpleZigBeePacket

/-- The writes of `setAddress64` and `setAddress16` keep the limit and do not
shrink the block. -/
theorem setAddress_keeps (p : SimpleZigBeePacket) (msb lsb a : Nat) :
    ((p.setAddress64 msb lsb).setAddress16 a).maxFrameLength = p.maxFrameLength
      ∧ p.memoryArrayLength ≤ ((p.setAddress64 msb lsb).setAddress16 a).memoryArrayLength := by
  rw [setAddress_writes]
  exact foldl_setFrameData_keeps _ p

/-- Writing the frame id into a packet whose limit and block hold two bytes:
`getFrameID` reads it back and leaves the packet as it is. -/
theorem setFrameID_readback (p : SimpleZigBeePacket) (id : Nat)
    (hM : 2 ≤ p.maxFrameLength) (hc : 2 ≤ p.memoryArrayLength) :
    (p.setFrameData 1 id).getFrameID = (id % 256, p.setFrameData 1 id)
      ∧ (p.setFrameData 1 id).maxFrameLength = p.maxFrameLength
      ∧ 2 ≤ (p.setFrameData 1 id).memoryArrayLength
      ∧ 2 ≤ (p.setFrameData 1 id).frameLength
      ∧ (p.setFrameData 1 id).getMemoryData 1 = id % 256 := by
  obtain ⟨o1, o2, o3, _, o5, _⟩ :=
    setFrameData_inside_obs p 1 id (by decide) (by omega) (by omega)
  have hL : 2 ≤ (p.setFrameData 1 id).frameLength := by
    rw [o3]
    split_ifs <;> omega
  refine ⟨?_, o1, by rw [o2]; exact hc, hL, o5⟩
  unfold getFrameID
  rw [getFrameData_of_lt _ 1 (by omega), o5]

/-- An array write at index 15 after the frame id has been written: `getFrameID`
still reads the frame id and leaves the packet as it is. -/
theorem setFrameDataArray_keeps_frameID (p : SimpleZigBeePacket) (f : List Nat) (n : Int)
    (v : Nat) (hc : 2 ≤ p.memoryArrayLength) (hL : 2 ≤ p.frameLength)
    (hv : p.getMemoryData 1 = v) :
    (p.setFrameDataArray 15 f n).getFrameID = (v, p.setFrameDataArray 15 f n)
      ∧ (p.setFrameDataArray 15 f n).maxFrameLength = p.maxFrameLength
      ∧ 2 ≤ (p.setFrameDataArray 15 f n).memoryArrayLength := by
  obtain ⟨a1, a2, a3, a4⟩ := setFrameDataArray_keeps p 15 f n
  refine ⟨?_, a1, by omega⟩
  unfold getFrameID
  rw [getFrameData_of_lt _ 1 (by omega), a4 1 (by decide) (by omega) (by decide), hv]

end SimpleZigBeePacket

namespace SimpleZigBeePacket

theorem keeps_setFrameData (p0 y : SimpleZigBeePacket) (i : Int) (b : Nat)
    (h : y.maxFrameLength = p0.maxFrameLength ∧ p0.memoryArrayLength ≤ y.memoryArrayLength) :
    (y.setFrameData i b).maxFrameLength = p0.maxFrameLength
      ∧ p0.memoryArrayLength ≤ (y.setFrameData i b).memoryArrayLength := by
  obtain ⟨k1, k2⟩ := setFrameData_keeps y i b
  exact ⟨by rw [k1, h.1], le_trans h.2 k2⟩

theorem keeps_setAddress (p0 y : SimpleZigBeePacket) (msb lsb a : Nat)
    (h : y.maxFrameLength = p0.maxFrameLength ∧ p0.memoryArrayLength ≤ y.memoryArrayLength) :
    ((y.setAddress64 msb lsb).setAddress16 a).maxFrameLength = p0.maxFrameLength
      ∧ p0.memoryArrayLength ≤ ((y.setAddress64 msb lsb).setAddress16 a).memoryArrayLength := by
  obtain ⟨k1, k2⟩ := setAddress_keeps y msb lsb a
  exact ⟨by rw [k1, h.1], le_trans h.2 k2⟩

theorem keeps_setFrameDataArray (p0 y : SimpleZigBeePacket) (start : Int) (f : List Nat)
    (n : Int)
    (h : y.maxFrameLength = p0.maxFrameLength ∧ p0.memoryArrayLength ≤ y.memoryArrayLength) :
    (y.setFrameDataArray start f n).maxFrameLength = p0.maxFrameLength
      ∧ p0.memoryArrayLength ≤ (y.setFrameDataArray start f n).memoryArrayLength := by
  obtain ⟨k1, _, k3, _⟩ := setFrameDataArray_keeps y start f n
  exact ⟨by rw [k1, h.1], le_trans h.2 k3⟩

end SimpleZigBeePacket

namespace SimpleZigBeeRadio

/-- After any of the `prepare` calls, on an outgoing packet whose limit and
block hold two bytes, `getFrameID` reads from the outgoing packet the id that
`setNextFrameID` computes, and leaves the packet as it is; the acknowledgement
flag and the last frame id are those before the call. -/
theorem prepare_frame_id (r : SimpleZigBeeRadio) (c : PrepareCall)
    (hM : 2 ≤ r.outgoing_packet.maxFrameLength)
    (hc : 2 ≤ r.outgoing_packet.memoryArrayLength) :
    (r.prepare c).outgoing_packet.getFrameID
        = ((if r.out_acknowledgement = true then (r.getLastFrameID % 255 + 1) % 256 else 0)
            % 256, (r.prepare c).outgoing_packet)
      ∧ (r.prepare c).outgoing_packet.maxFrameLength = r.outgoing_packet.maxFrameLength
      ∧ 2 ≤ (r.prepare c).outgoing_packet.memoryArrayLength
      ∧ (r.prepare c).out_acknowledgement = r.out_acknowledgement
      ∧ (r.prepare c).out_frame_id = r.out_frame_id := by
  have k0 : r.outgoing_packet.reset.maxFrameLength = r.outgoing_packet.maxFrameLength
      ∧ r.outgoing_packet.memoryArrayLength ≤ r.outgoing_packet.reset.memoryArrayLength :=
    ⟨rfl, le_refl _⟩
  cases c with
  | atCommand command =>
    have e : (r.prepare (.atCommand command)).outgoing_packet
        = (((r.outgoing_packet.reset.setFrameData 2 (command % 65536 / 256 % 256)).setFrameData
            3 (command % 65536 % 256)).setFrameData 0 AT_COMMAND).setFrameData 1
            (if r.out_acknowledgement = true then (r.getLastFrameID % 255 + 1) % 256
              else 0) := rfl
    obtain ⟨kM, kc⟩ := SimpleZigBeePacket.keeps_setFrameData r.outgoing_packet _ 0 AT_COMMAND
      (SimpleZigBeePacket.keeps_setFrameData r.outgoing_packet _ 3 (command % 65536 % 256)
        (SimpleZigBeePacket.keeps_setFrameData r.outgoing_packet _ 2
          (command % 65536 / 256 % 256) k0))
    obtain ⟨s1, s2, s3, _, _⟩ := SimpleZigBeePacket.setFrameID_readback _
      (if r.out_acknowledgement = true then (r.getLastFrameID % 255 + 1) % 256 else 0)
      (by rw [kM]; exact hM) (le_trans hc kc)
    rw [e]
    exact ⟨s1, by rw [s2, kM], s3, rfl, rfl⟩
  | txRequest msb lsb a payload n =>
    have e : (r.prepare (.txRequest msb lsb a payload n)).outgoing_packet
        = ((((((r.outgoing_packet.reset.setFrameDataArray 14 payload n).setFrameData 0
            ZIGBEE_TRANSMIT_REQUEST).setAddress64 msb lsb).setAddress16 a).setFrameData 12
            0).setFrameData 13 0).setFrameData 1
            (if r.out_acknowledgement = true then (r.getLastFrameID % 255 + 1) % 256
              else 0) := rfl
    obtain ⟨kM, kc⟩ := SimpleZigBeePacket.keeps_setFrameData r.outgoing_packet _ 13 0
      (SimpleZigBeePacket.keeps_setFrameData r.outgoing_packet _ 12 0
        (SimpleZigBeePacket.keeps_setAddress r.outgoing_packet _ msb lsb a
          (SimpleZigBeePacket.keeps_setFrameData r.outgoing_packet _ 0 ZIGBEE_TRANSMIT_REQUEST
            (SimpleZigBeePacket.keeps_setFrameDataArray r.outgoing_packet _ 14 payload n
              k0))))
    obtain ⟨s1, s2, s3, _, _⟩ := SimpleZigBeePacket.setFrameID_readback _
      (if r.out_acknowledgement = true then (r.getLastFrameID % 255 + 1) % 256 else 0)
      (by rw [kM]; exact hM) (le_trans hc kc)
    rw [e]
    exact ⟨s1, by rw [s2, kM], s3, rfl, rfl⟩
  | remoteATCommand msb lsb a command =>
    have e : (r.prepare (.remoteATCommand msb lsb a command)).outgoing_packet
        = ((((((r.outgoing_packet.reset.setFrameData 13
            (command % 65536 / 256 % 256)).setFrameData 14
            (command % 65536 % 256)).setFrameData 0 REMOTE_AT_COMMAND).setAddress64 msb
            lsb).setAddress16 a).setFrameData 12 0x02).setFrameData 1
            (if r.out_acknowledgement = true then (r.getLastFrameID % 255 + 1) % 256
              else 0) := rfl
    obtain ⟨kM, kc⟩ := SimpleZigBeePacket.keeps_setFrameData r.outgoing_packet _ 12 0x02
      (SimpleZigBeePacket.keeps_setAddress r.outgoing_packet _ msb lsb a
        (SimpleZigBeePacket.keeps_setFrameData r.outgoing_packet _ 0 REMOTE_AT_COMMAND
          (SimpleZigBeePacket.keeps_setFrameData r.outgoing_packet _ 14
            (command % 65536 % 256)
            (SimpleZigBeePacket.keeps_setFrameData r.outgoing_packet _ 13
              (command % 65536 / 256 % 256) k0))))
    obtain ⟨s1, s2, s3, _, _⟩ := SimpleZigBeePacket.setFrameID_readback _
      (if r.out_acknowledgement = true then (r.getLastFrameID % 255 + 1) % 256 else 0)
      (by rw [kM]; exact hM) (le_trans hc kc)
    rw [e]
    exact ⟨s1, by rw [s2, kM], s3, rfl, rfl⟩
  | remoteATCommandArray msb lsb a command payload n =>
    have e : (r.prepare (.remoteATCommandArray msb lsb a command payload n)).outgoing_packet
        = SimpleZigBeePacket.setFrameDataArray (((((((r.outgoing_packet.reset.setFrameData 13
            (command % 65536 / 256 % 256)).setFrameData 14
            (command % 65536 % 256)).setFrameData 0 REMOTE_AT_COMMAND).setAddress64 msb
            lsb).setAddress16 a).setFrameData 12 0x02).setFrameData 1
            (if r.out_acknowledgement = true then (r.getLastFrameID % 255 + 1) % 256
              else 0)) 15 payload n := rfl
    obtain ⟨kM, kc⟩ := SimpleZigBeePacket.keeps_setFrameData r.outgoing_packet _ 12 0x02
      (SimpleZigBeePacket.keeps_setAddress r.outgoing_packet _ msb lsb a
        (SimpleZigBeePacket.keeps_setFrameData r.outgoing_packet _ 0 REMOTE_AT_COMMAND
          (SimpleZigBeePacket.keeps_setFrameData r.outgoing_packet _ 14
            (command % 65536 % 256)
            (SimpleZigBeePacket.keeps_setFrameData r.outgoing_packet _ 13
              (command % 65536 / 256 % 256) k0))))
    obtain ⟨_, s2, s3, s4, s5⟩ := SimpleZigBeePacket.setFrameID_readback _
      (if r.out_acknowledgement = true then (r.getLastFrameID % 255 + 1) % 256 else 0)
      (by rw [kM]; exact hM) (le_trans hc kc)
    obtain ⟨t1, t2, t3⟩ := SimpleZigBeePacket.setFrameDataArray_keeps_frameID _ payload n _
      s3 s4 s5
    rw [e]
    exact ⟨t1, by rw [t2, s2, kM], t3, rfl, rfl⟩

end SimpleZigBeeRadio

/-! ## Lemmas on prepare-then-send cycles -/

namespace SimpleZigBeeRadio

/-- The session after `send()`: the outgoing packet is the one `getFrameID`
leaves, and the last frame id is the byte `getFrameID` returned. -/
theorem send_fields (r : SimpleZigBeeRadio) :
    r.send.1 = { r with
      outgoing_packet := r.outgoing_packet.getFrameID.2
      out_frame_id := r.outgoing_packet.getFrameID.1 % 256 } := by
  unfold send saveLastFrameID
  simp only [sendPacket_eq]

/-- One prepare-then-send cycle with acknowledgements enabled. -/
theorem cycle_step (r : SimpleZigBeeRadio) (c : PrepareCall)
    (hM : 2 ≤ r.outgoing_packet.maxFrameLength)
    (hc : 2 ≤ r.outgoing_packet.memoryArrayLength)
    (ha : r.out_acknowledgement = true) :
    (r.prepare c).outgoing_packet.getFrameID.1 = r.getLastFrameID % 255 + 1
      ∧ (r.prepare c).send.1.getLastFrameID = r.getLastFrameID % 255 + 1
      ∧ (r.prepare c).send.1.out_acknowledgement = true
      ∧ (r.prepare c).send.1.outgoing_packet.maxFrameLength
          = r.outgoing_packet.maxFrameLength
      ∧ 2 ≤ (r.prepare c).send.1.outgoing_packet.memoryArrayLength := by
  obtain ⟨p1, p2, p3, p4, _⟩ := prepare_frame_id r c hM hc
  have hid : (if r.out_acknowledgement = true then (r.getLastFrameID % 255 + 1) % 256 else 0)
      % 256 = r.getLastFrameID % 255 + 1 := by
    rw [if_pos ha]
    omega
  rw [hid] at p1
  rw [send_fields]
  simp only [getLastFrameID, p1] at *
  refine ⟨trivial, by omega, by rw [p4, ha], p2, p3⟩

/-- The frame id after `k` cycles that started with the last frame id 0. -/
theorem iterate_frame_id (k : Nat) :
    (fun x : Nat => x % 255 + 1)^[k] 0 = if k = 0 then 0 else (k - 1) % 255 + 1 := by
  induction k with
  | zero => rfl
  | succ k ih =>
    rw [Function.iterate_succ_apply', ih]
    have hne : k + 1 ≠ 0 := by omega
    rw [if_neg hne]
    by_cases h : k = 0
    · subst h
      rfl
    · rw [if_neg h]
      simp only [Nat.add_sub_cancel]
      omega

/-- The session after a list of prepare-then-send cycles with acknowledgements
enabled. -/
theorem prepareSendCycles_inv (calls : List PrepareCall) :
    ∀ (r : SimpleZigBeeRadio), 2 ≤ r.outgoing_packet.maxFrameLength →
      2 ≤ r.outgoing_packet.memoryArrayLength → r.out_acknowledgement = true →
      (prepareSendCycles r calls).getLastFrameID
          = (fun x : Nat => x % 255 + 1)^[calls.length] r.getLastFrameID
        ∧ (prepareSendCycles r calls).out_acknowledgement = true
        ∧ (prepareSendCycles r calls).outgoing_packet.maxFrameLength
            = r.outgoing_packet.maxFrameLength
        ∧ 2 ≤ (prepareSendCycles r calls).outgoing_packet.memoryArrayLength := by
  induction calls with
  | nil =>
    intro r _ hc ha
    exact ⟨rfl, ha, rfl, hc⟩
  | cons c calls ih =>
    intro r hM hc ha
    obtain ⟨_, s2, s3, s4, s5⟩ := cycle_step r c hM hc ha
    obtain ⟨i1, i2, i3, i4⟩ := ih (r.prepare c).send.1 (by rw [s4]; exact hM) s5 s3
    have e : prepareSendCycles r (c :: calls) = prepareSendCycles (r.prepare c).send.1 calls :=
      rfl
    rw [e]
    refine ⟨?_, i2, by rw [i3, s4], i4⟩
    rw [i1, s2, List.length_cons, Function.iterate_succ_apply]

end SimpleZigBeeRadio

/-- C14 (frame-id sequencing).  `setNextFrameID` writes at frame index 1 the
value 0 when acknowledgements are disabled and otherwise `(last mod 255) + 1`,
where `last` is the id recorded by the latest `send()`, which records the id
that `getFrameID` reads from the outgoing packet.  Hence, starting from a reset
session with acknowledgements enabled (its outgoing limit and block holding two
bytes), after any `k - 1` prepare-then-send cycles the `k`-th prepared frame
carries the frame id `((k-1) mod 255) + 1`, and sending it records that id. -/
theorem C14_frame_id_sequencing (r : SimpleZigBeeRadio) (calls : List PrepareCall)
    (c : PrepareCall)
    (hM : 2 ≤ r.outgoing_packet.maxFrameLength)
    (hc : 2 ≤ r.outgoing_packet.memoryArrayLength) :
    r.setNextFrameID.outgoing_packet
        = r.outgoing_packet.setFrameData 1
            (if r.out_acknowledgement = true then r.getLastFrameID % 255 + 1 else 0)
      ∧ r.send.1.getLastFrameID = r.outgoing_packet.getFrameID.1
      ∧ ((prepareSendCycles (r.reset.setAcknowledgement true) calls).prepare
          c).outgoing_packet.getFrameID.1 = calls.length % 255 + 1
      ∧ ((prepareSendCycles (r.reset.setAcknowledgement true) calls).prepare
          c).send.1.getLastFrameID = calls.length % 255 + 1 := by
  refine ⟨?_, ?_, ?_⟩
  · unfold SimpleZigBeeRadio.setNextFrameID SimpleZigBeeRadio.setOutgoingFrameID
      SimpleZigBeePacket.setFrameID
    have e : (r.getLastFrameID % 255 + 1) % 256 = r.getLastFrameID % 255 + 1 := by omega
    simp only [e]
  · rw [SimpleZigBeeRadio.send_fields]
    have h := SimpleZigBeePacket.getFrameData_lt r.outgoing_packet 1
    unfold SimpleZigBeePacket.getFrameID
    simp only [SimpleZigBeeRadio.getLastFrameID]
    omega
  · have e0 : (r.reset.setAcknowledgement true).outgoing_packet
        = r.outgoing_packet.reset.setFrameData 1 1 := rfl
    have hk := SimpleZigBeePacket.setFrameData_keeps r.outgoing_packet.reset 1 1
    have hM0 : 2 ≤ (r.reset.setAcknowledgement true).outgoing_packet.maxFrameLength := by
      rw [e0, hk.1]
      exact hM
    have hc0 : 2 ≤ (r.reset.setAcknowledgement true).outgoing_packet.memoryArrayLength := by
      rw [e0]
      exact le_trans hc hk.2
    have ha0 : (r.reset.setAcknowledgement true).out_acknowledgement = true := rfl
    have hl0 : (r.reset.setAcknowledgement true).getLastFrameID = 0 := rfl
    obtain ⟨i1, i2, i3, i4⟩ := SimpleZigBeeRadio.prepareSendCycles_inv calls
      (r.reset.setAcknowledgement true) hM0 hc0 ha0
    obtain ⟨s1, s2, _⟩ := SimpleZigBeeRadio.cycle_step
      (prepareSendCycles (r.reset.setAcknowledgement true) calls) c
      (by rw [i3]; exact hM0) i4 i2
    rw [i1, hl0, SimpleZigBeeRadio.iterate_frame_id] at s1 s2
    have e : (if calls.length = 0 then 0 else (calls.length - 1) % 255 + 1) % 255 + 1
        = calls.length % 255 + 1 := by
      split_ifs with h
      · rw [h]
      · omega
    rw [e] at s1 s2
    exact ⟨s1, s2⟩

/-- Witness of C14 on the default session: the third cycle, after an AT command
and a Transmit Request, carries frame id 3. -/
theorem C14_frame_id_sequencing_witness :
    ((prepareSendCycles (defaultSession.reset.setAcknowledgement true)
        [PrepareCall.atCommand 0x4E49, PrepareCall.txRequest 0 0 0xFFFE [1, 2] 2]).prepare
          (PrepareCall.atCommand 0x4944)).outgoing_packet.getFrameID.1
      = 3 :=
  (C14_frame_id_sequencing defaultSession
    [PrepareCall.atCommand 0x4E49, PrepareCall.txRequest 0 0 0xFFFE [1, 2] 2]
    (PrepareCall.atCommand 0x4944) (by decide) (by decide)).2.2.1

/-! ## The claims C21 to C30 -/

/-- C21 (length bytes).  For every packet state and bytes `m`, `l`, calling
`setFrameLengthMSB(m)` and `setFrameLengthLSB(l)` in either order yields
`frameLength = 256 * m + l`, after which `getLengthMSB() = m` and
`getLengthLSB() = l`; and each setter alone sets its own half and leaves the
other half of the 16-bit length as it was. -/
theorem C21_length_bytes (p : SimpleZigBeePacket) (m l : Nat) (hm : m < 256) (hl : l < 256) :
    ((p.setFrameLengthMSB m).setFrameLengthLSB l).getFrameLength = ((256 * m + l : Nat) : Int)
      ∧ ((p.setFrameLengthLSB l).setFrameLengthMSB m).getFrameLength
          = ((256 * m + l : Nat) : Int)
      ∧ ((p.setFrameLengthMSB m).setFrameLengthLSB l).getLengthMSB = m
      ∧ ((p.setFrameLengthMSB m).setFrameLengthLSB l).getLengthLSB = l
      ∧ ((p.setFrameLengthLSB l).setFrameLengthMSB m).getLengthMSB = m
      ∧ ((p.setFrameLengthLSB l).setFrameLengthMSB m).getLengthLSB = l
      ∧ (p.setFrameLengthMSB m).getLengthMSB = m
      ∧ (p.setFrameLengthMSB m).getLengthLSB = p.getLengthLSB
      ∧ (p.setFrameLengthLSB l).getLengthLSB = l
      ∧ (p.setFrameLengthLSB l).getLengthMSB = p.getLengthMSB := by
  unfold SimpleZigBeePacket.setFrameLengthLSB SimpleZigBeePacket.setFrameLengthMSB
    SimpleZigBeePacket.getLengthMSB SimpleZigBeePacket.getLengthLSB
    SimpleZigBeePacket.setFrameLength SimpleZigBeePacket.getFrameLength
  simp only
  refine ⟨?_, ?_, ?_, ?_, ?_, ?_, ?_, ?_, ?_, ?_⟩ <;> omega

/-- Witness of C21 on a default packet: the length bytes `01` and `2C`. -/
theorem C21_length_bytes_witness :
    (((SimpleZigBeePacket.constructDefault [] true).setFrameLengthLSB 0x2C).setFrameLengthMSB
        0x01).getFrameLength = ((256 * 0x01 + 0x2C : Nat) : Int) :=
  (C21_length_bytes (SimpleZigBeePacket.constructDefault [] true) 0x01 0x2C (by decide)
    (by decide)).2.1

/-- C22 at a failing input.  A default packet holds the frame `08 01 4E 49`,
whose checksum is `0xFF - 0xA0 = 0x5F`; that is the value of the local variable
`checksum` when `calculateChecksum()` returns, but the method returns the stored
field `_checksum`: 0 for this packet, and `0x33` once `setChecksum(0x33)` has
been called. -/
theorem C22_calculateChecksum_returns_stored_field :
    frameBytes
        (((((SimpleZigBeePacket.constructDefault [] true).setFrameData 0 0x08).setFrameData
          1 0x01).setFrameData 2 0x4E).setFrameData 3 0x49) = [0x08, 0x01, 0x4E, 0x49]
      ∧ (SimpleZigBeePacket.calculateChecksum
          (((((SimpleZigBeePacket.constructDefault [] true).setFrameData 0 0x08).setFrameData
            1 0x01).setFrameData 2 0x4E).setFrameData 3 0x49)).1 = 0
      ∧ SimpleZigBeePacket.calculateChecksumLocal
          (((((SimpleZigBeePacket.constructDefault [] true).setFrameData 0 0x08).setFrameData
            1 0x01).setFrameData 2 0x4E).setFrameData 3 0x49) = 0x5F
      ∧ (SimpleZigBeePacket.calculateChecksum
          ((((((SimpleZigBeePacket.constructDefault [] true).setFrameData 0 0x08).setFrameData
            1 0x01).setFrameData 2 0x4E).setFrameData 3 0x49).setChecksum 0x33)).1 = 0x33 := by
  decide!

/-- C23 (`reset()`).  For every packet state, `reset()` sets `frameLength`,
`checksum` and `errorCode` to 0 and leaves `maxFrameLength`, the buffer, its
capacity and every stored byte unchanged. -/
theorem C23_reset (p : SimpleZigBeePacket) :
    p.reset.getFrameLength = 0
      ∧ p.reset.getChecksum = 0
      ∧ p.reset.getErrorCode = NO_ERROR
      ∧ p.reset.getMaxFrameLength = p.getMaxFrameLength
      ∧ p.reset.memoryArrayLength = p.memoryArrayLength
      ∧ p.reset.ptrMemoryArray = p.ptrMemoryArray
      ∧ ∀ i : Int, p.reset.getMemoryData i = p.getMemoryData i :=
  ⟨rfl, rfl, rfl, rfl, rfl, rfl, fun _ => rfl⟩

/-! ## Lemmas on `calculateChecksum` -/

namespace SimpleZigBeePacket

/-- The loop of `calculateChecksum()` from counter `i` with exactly the fuel of
the remaining iterations: the packet is unchanged and the local `checksum` has
accumulated the remaining frame bytes. -/
theorem calculateChecksumLoop_eq (p : SimpleZigBeePacket) :
    ∀ (n : Nat) (i : Int) (cs : Nat), cs < 256 → (p.frameLength - i).toNat = n →
      calculateChecksumLoop n i p cs =
        (p, (cs + ((List.range n).map
          (fun (j : Nat) => p.getMemoryData (i + (j : Int)))).sum) % 256) := by
  intro n
  induction n with
  | zero =>
    intro i cs hcs _
    simp [calculateChecksumLoop, Nat.mod_eq_of_lt hcs]
  | succ n ih =>
    intro i cs hcs hn
    have hi : i < p.frameLength := by omega
    have hn2 : (p.frameLength - (i + 1)).toNat = n := by omega
    have ih2 := ih (i + 1) ((cs + p.getMemoryData i) % 256) (Nat.mod_lt _ (by decide)) hn2
    rw [calculateChecksumLoop]
    simp only [getFrameLength, hi, if_true, getFrameData_of_lt p i hi, ih2]
    rw [List.range_succ_eq_map]
    simp only [List.map_cons, List.map_map, List.sum_cons, Nat.cast_zero, add_zero]
    have hfun : ((fun j : Nat => p.getMemoryData (i + (j : Int))) ∘ Nat.succ)
        = (fun j : Nat => p.getMemoryData (i + 1 + (j : Int))) := by
      funext j
      simp only [Function.comp, Nat.succ_eq_add_one, Nat.cast_add, Nat.cast_one]
      congr 1
      omega
    rw [hfun]
    refine Prod.ext rfl ?_
    simp only
    omega

/-- For every packet, `calculateChecksum()` returns the stored checksum field
and leaves the packet as it is, while its local variable holds
`0xFF - (sum of the frame bytes mod 256)`. -/
theorem calculateChecksum_eq (p : SimpleZigBeePacket) :
    p.calculateChecksum = (p.getChecksum, p)
      ∧ p.calculateChecksumLocal = 0xFF - (frameBytes p).sum % 256 := by
  have hl := calculateChecksumLoop_eq p p.frameLength.toNat 0 0 (by decide) (by simp)
  constructor
  · unfold calculateChecksum
    simp only [getFrameLength, hl]
  · unfold calculateChecksumLocal frameBytes
    simp only [getFrameLength, hl, zero_add]
    omega

end SimpleZigBeePacket

/-! ## Lemmas on decoding the encoder's output -/

namespace SimpleZigBeeRadio

/-- In either mode the decoder takes the transmitted form of a byte, at a
position past the start byte with no escape pending, as that one byte. -/
theorem decodes_mode (m : Bool) : Decodes (esc m) m (fun _ => True) := by
  cases m with
  | true => exact decodes_esc
  | false =>
    have e : esc false = fun x => [x] := by
      funext x
      simp [esc]
    rw [e]
    exact decodes_raw

/-- A call of `read()` on a freshly reset decoder whose input starts with the
wire format of a frame `f` with `|f| + 3 <= maxFrameLength`, in the mode of the
session: the call stops after the checksum byte, complete and free of error,
and leaves the rest of the input unread. -/
theorem read_wire (r : SimpleZigBeeRadio) (f rest : List Nat)
    (hf : ∀ x ∈ f, x < 256) (hlen : f.length < 65536)
    (hM : (f.length : Int) + 3 ≤ r.incoming_packet.maxFrameLength) :
    r.resetIncoming.read (wireFormat r.escaped_mode (f.length : Int) f ++ rest)
      = ({ r with
            in_byte := 0xFF - f.sum % 256
            in_checksum := 255
            in_index := 3 + (f.length : Int)
            in_escaping := false
            in_complete := true
            incoming_packet :=
              ((storeFrom { r.incoming_packet.reset with frameLength := (f.length : Int) } 0
                  f).setChecksum 255).setErrorCode NO_ERROR }, rest) := by
  have hsum : (f.sum + (0xFF - f.sum % 256)) % 256 = 255 := by omega
  have h := read_reset_packet (esc r.escaped_mode) r.escaped_mode (fun _ => True)
    (decodes_mode r.escaped_mode) r f (0xFF - f.sum % 256) rest rfl
    (fun x hx => ⟨hf x hx, trivial⟩) ⟨by omega, trivial⟩ hlen trivial trivial hM
  rw [if_pos hsum] at h
  have h1 : (((f.length : Int) / 256) % 256).toNat = f.length / 256 := by omega
  have h2 : ((f.length : Int) % 256).toNat = f.length % 256 := by omega
  have e : wireFormat r.escaped_mode (f.length : Int) f ++ rest
      = START :: (esc r.escaped_mode (f.length / 256) ++ esc r.escaped_mode (f.length % 256)
          ++ f.flatMap (esc r.escaped_mode) ++ esc r.escaped_mode (0xFF - f.sum % 256)
          ++ rest) := by
    simp [wireFormat, h1, h2, START]
  rw [e, h]

/-- What can be observed of the session after the call of `read_wire`, when the
incoming buffer grows by tens. -/
theorem read_wire_obs (r : SimpleZigBeeRadio) (f rest : List Nat)
    (hf : ∀ x ∈ f, x < 256) (hlen : f.length < 65536)
    (hM : (f.length : Int) + 3 ≤ r.incoming_packet.maxFrameLength)
    (hg : GrowsByTens r.incoming_packet) (hr : r.incoming_packet.reallocSucceeds = true) :
    (r.resetIncoming.read (wireFormat r.escaped_mode (f.length : Int) f ++ rest)).2 = rest
      ∧ (r.resetIncoming.read
          (wireFormat r.escaped_mode (f.length : Int) f ++ rest)).1.isComplete = true
      ∧ (r.resetIncoming.read (wireFormat r.escaped_mode (f.length : Int) f
          ++ rest)).1.incoming_packet.getErrorCode = NO_ERROR
      ∧ (r.resetIncoming.read (wireFormat r.escaped_mode (f.length : Int) f
          ++ rest)).1.incoming_packet.getFrameLength = (f.length : Int)
      ∧ frameBytes (r.resetIncoming.read (wireFormat r.escaped_mode (f.length : Int) f
          ++ rest)).1.incoming_packet = f
      ∧ (r.resetIncoming.read (wireFormat r.escaped_mode (f.length : Int) f
          ++ rest)).1.escaped_mode = r.escaped_mode
      ∧ (r.resetIncoming.read (wireFormat r.escaped_mode (f.length : Int) f
          ++ rest)).1.incoming_packet.maxFrameLength = r.incoming_packet.maxFrameLength
      ∧ GrowsByTens (r.resetIncoming.read (wireFormat r.escaped_mode (f.length : Int) f
          ++ rest)).1.incoming_packet
      ∧ (r.resetIncoming.read (wireFormat r.escaped_mode (f.length : Int) f
          ++ rest)).1.incoming_packet.reallocSucceeds = true := by
  have hinv0 : DecoderInv r.resetIncoming := by
    refine ⟨hg, hr, by simp [resetIncoming], ?_⟩
    have h0 : (0 : Int) ≤ r.incoming_packet.memoryArrayLength := by
      unfold SimpleZigBeePacket.memoryArrayLength
      omega
    have e1 : r.resetIncoming.in_index = 0 := rfl
    have e2 : r.resetIncoming.incoming_packet.memoryArrayLength
        = r.incoming_packet.memoryArrayLength := rfl
    rw [e1, e2]
    omega
  have hinv := read_inv r.resetIncoming
    (wireFormat r.escaped_mode (f.length : Int) f ++ rest) hinv0
  have hd := stored_frame r.incoming_packet f hf hM hg hr
  rw [read_wire r f rest hf hlen hM] at hinv ⊢
  have hL : (((storeFrom { r.incoming_packet.reset with frameLength := (f.length : Int) } 0
      f).setChecksum 255).setErrorCode NO_ERROR).frameLength = (f.length : Int) := hd.1
  refine ⟨rfl, rfl, rfl, hL, ?_, rfl, ?_, hinv.1, hinv.2.1⟩
  · apply frameBytes_eq _ f hL
    intro j hj
    exact hd.2 j hj
  · show (storeFrom { r.incoming_packet.reset with frameLength := (f.length : Int) } 0
      f).maxFrameLength = r.incoming_packet.maxFrameLength
    rw [storeFrom_maxFrameLength]
    rfl

/-- A call of `read()` with bytes available on a decoder that is complete or
carries an error other than `UnexpectedPacketStart`: the decoder is reset and
the loop runs on the bytes from the reset state. -/
theorem read_terminal (r : SimpleZigBeeRadio) (s : List Nat) (hs : s ≠ [])
    (ht : r.isComplete = true ∨ r.incoming_packet.isError = true)
    (hu : r.incoming_packet.getErrorCode ≠ UNEXPECTED_PACKET_START) :
    r.read s = r.resetIncoming.readLoop s := by
  have ht2 : r.incoming_packet.isError = true ∨ r.isComplete = true := ht.symm
  have hu2 : ¬ (UNEXPECTED_PACKET_START = r.incoming_packet.getErrorCode) :=
    fun e => hu e.symm
  unfold read
  rw [if_pos hs]
  simp only [ht2, if_true, hu2, if_false]

/-- A call of `read()` with bytes available on a freshly reset decoder runs the
loop on the bytes. -/
theorem read_resetIncoming (r : SimpleZigBeeRadio) (s : List Nat) (hs : s ≠ []) :
    r.resetIncoming.read s = r.resetIncoming.readLoop s := by
  unfold read
  rw [if_pos hs]
  simp [resetIncoming, SimpleZigBeePacket.reset, SimpleZigBeePacket.init,
    SimpleZigBeePacket.isError, isComplete, NO_ERROR]

end SimpleZigBeeRadio

/-- The frame bytes of a packet are bytes, and there are `frameLength` of them. -/
theorem frameBytes_lt (p : SimpleZigBeePacket) : ∀ x ∈ frameBytes p, x < 256 := by
  intro x hx
  simp only [frameBytes, List.mem_map] at hx
  obtain ⟨i, _, rfl⟩ := hx
  exact SimpleZigBeePacket.getMemoryData_lt p _

theorem frameBytes_length (p : SimpleZigBeePacket) :
    (frameBytes p).length = p.frameLength.toNat := by
  simp [frameBytes]

/-- C24 (non-escaped mode).  With `escaped_mode = false`, `sendPacket` writes for
every packet with `frameLength >= 0` exactly the `4 + frameLength` bytes `START`,
the two length bytes, the frame bytes as they are and the checksum; a pass of
the decoder loop dispatches every byte it fetches as it is (no
`UnexpectedPacketStart`, no de-escaping, no second byte fetched); and for every
packet whose frame fits the decoder (`frameLength + 3 <= maxFrameLength`, that is
`frameLength <= 47` on a default session), decoding the encoder's output in one
call from the reset state consumes all of it and yields the complete, error-free,
identical frame. -/
theorem C24_non_escaped_mode (r : SimpleZigBeeRadio) (p : SimpleZigBeePacket)
    (hm : r.escaped_mode = false)
    (h0 : 0 ≤ p.getFrameLength) (hlen : p.getFrameLength < 65536)
    (hM : p.getFrameLength + 3 ≤ r.incoming_packet.getMaxFrameLength)
    (hg : GrowsByTens r.incoming_packet) (hr : r.incoming_packet.reallocSucceeds = true) :
    (r.sendPacket p).2
        = 0x7E :: ((p.getFrameLength / 256) % 256).toNat :: (p.getFrameLength % 256).toNat
            :: (frameBytes p ++ [0xFF - (frameBytes p).sum % 256])
      ∧ (((r.sendPacket p).2.length : Nat) : Int) = 4 + p.getFrameLength
      ∧ (∀ (s : SimpleZigBeeRadio) (b : Nat) (next : Option Nat), s.escaped_mode = false →
          s.readBody b next
            = (({ s with in_byte := b % 256 } : SimpleZigBeeRadio).readDispatch.1,
               ({ s with in_byte := b % 256 } : SimpleZigBeeRadio).readDispatch.2, false))
      ∧ (r.resetIncoming.read (r.sendPacket p).2).2 = []
      ∧ (r.resetIncoming.read (r.sendPacket p).2).1.isComplete = true
      ∧ (r.resetIncoming.read (r.sendPacket p).2).1.incoming_packet.getErrorCode = NO_ERROR
      ∧ (r.resetIncoming.read (r.sendPacket p).2).1.incoming_packet.getFrameLength
          = p.getFrameLength
      ∧ frameBytes (r.resetIncoming.read (r.sendPacket p).2).1.incoming_packet
          = frameBytes p := by
  have hL0 : 0 ≤ p.frameLength := h0
  have hcast : ((frameBytes p).length : Int) = p.frameLength := by
    rw [frameBytes_length]
    omega
  have hw : (r.sendPacket p).2 = wireFormat false p.frameLength (frameBytes p) := by
    rw [SimpleZigBeeRadio.sendPacket_eq, hm]
  have hlist : wireFormat false p.frameLength (frameBytes p)
      = 0x7E :: ((p.frameLength / 256) % 256).toNat :: (p.frameLength % 256).toNat
          :: (frameBytes p ++ [0xFF - (frameBytes p).sum % 256]) := by
    have e : esc false = fun x => [x] := by
      funext x
      simp [esc]
    simp [wireFormat, e, SimpleZigBeeRadio.flatMap_single]
  have hobs := SimpleZigBeeRadio.read_wire_obs r (frameBytes p) [] (frameBytes_lt p)
    (by
      have h2 : p.frameLength < 65536 := hlen
      rw [frameBytes_length]
      omega)
    (by
      rw [hcast]
      exact hM) hg hr
  rw [hcast, hm, List.append_nil, ← hw] at hobs
  obtain ⟨o1, o2, o3, o4, o5, _⟩ := hobs
  refine ⟨?_, ?_, ?_, o1, o2, o3, o4, o5⟩
  · rw [hw, hlist]
    rfl
  · have hlen2 : (r.sendPacket p).2.length = (frameBytes p).length + 4 := by
      rw [hw, hlist]
      simp
    rw [hlen2]
    unfold SimpleZigBeePacket.getFrameLength
    omega
  · intro s b next hs
    exact SimpleZigBeeRadio.readBody_plain s b next (Or.inl hs)

/-- Witness of C24: a session constructed in non-escaped mode sends the frame
`7E 7D 11 13` and decodes what it sent. -/
theorem C24_non_escaped_mode_witness :
    ((SimpleZigBeeRadio.construct false [] [] true).resetIncoming.read
        ((SimpleZigBeeRadio.construct false [] [] true).sendPacket
          (SimpleZigBeePacket.setFrameDataArray (SimpleZigBeePacket.constructDefault [] true) 0
            [0x7E, 0x7D, 0x11, 0x13] 4)).2).1.isComplete = true
      ∧ frameBytes ((SimpleZigBeeRadio.construct false [] [] true).resetIncoming.read
          ((SimpleZigBeeRadio.construct false [] [] true).sendPacket
            (SimpleZigBeePacket.setFrameDataArray (SimpleZigBeePacket.constructDefault [] true)
              0 [0x7E, 0x7D, 0x11, 0x13] 4)).2).1.incoming_packet
        = frameBytes (SimpleZigBeePacket.setFrameDataArray
            (SimpleZigBeePacket.constructDefault [] true) 0 [0x7E, 0x7D, 0x11, 0x13] 4) :=
  have h := C24_non_escaped_mode (SimpleZigBeeRadio.construct false [] [] true)
    (SimpleZigBeePacket.setFrameDataArray (SimpleZigBeePacket.constructDefault [] true) 0
      [0x7E, 0x7D, 0x11, 0x13] 4) (by decide) (by decide) (by decide) (by decide) (by decide)
    (by decide)
  ⟨h.2.2.2.2.1, h.2.2.2.2.2.2.2⟩

/-- C25 fails in the code: the default session, with the decoder at `idx = 0`,
reads `00 7E` in one call.  The first byte is not `START` and
`PacketIncomplete` is recorded, but the call does not stop there: it consumes
the second byte too, which moves `idx` to 1 with the error still recorded.
When the packet `7E 00 02 8A 06 6F` follows the byte `00` in the same call it is
delivered complete and free of error; when the call ends inside the packet, after
`00 7E 00 02`, the next call finds the error code set, resets the decoder and
the packet is lost. -/
theorem C25_packet_incomplete_does_not_stop :
    defaultSession.in_index = 0
      ∧ (defaultSession.read [0x00]).1.incoming_packet.getErrorCode = PACKET_INCOMPLETE
      ∧ (defaultSession.read [0x00]).1.in_index = 0
      ∧ (defaultSession.read [0x00, 0x7E]).2 = []
      ∧ (defaultSession.read [0x00, 0x7E]).1.in_index = 1
      ∧ (defaultSession.read [0x00, 0x7E]).1.incoming_packet.getErrorCode
          = PACKET_INCOMPLETE
      ∧ (defaultSession.read [0x00, 0x7E, 0x00, 0x02, 0x8A, 0x06, 0x6F]).2 = []
      ∧ (defaultSession.read [0x00, 0x7E, 0x00, 0x02, 0x8A, 0x06, 0x6F]).1.isComplete = true
      ∧ (defaultSession.read
          [0x00, 0x7E, 0x00, 0x02, 0x8A, 0x06, 0x6F]).1.incoming_packet.getErrorCode
          = NO_ERROR
      ∧ frameBytes (defaultSession.read
          [0x00, 0x7E, 0x00, 0x02, 0x8A, 0x06, 0x6F]).1.incoming_packet = [0x8A, 0x06]
      ∧ (defaultSession.read [0x00, 0x7E, 0x00, 0x02]).2 = []
      ∧ (defaultSession.read [0x00, 0x7E, 0x00, 0x02]).1.in_index = 3
      ∧ (defaultSession.read [0x00, 0x7E, 0x00, 0x02]).1.incoming_packet.getErrorCode
          = PACKET_INCOMPLETE
      ∧ ((defaultSession.read [0x00, 0x7E, 0x00, 0x02]).1.read
          [0x8A, 0x06, 0x6F]).1.isComplete = false
      ∧ ((defaultSession.read [0x00, 0x7E, 0x00, 0x02]).1.read
          [0x8A, 0x06, 0x6F]).1.in_index = 0
      ∧ ((defaultSession.read [0x00, 0x7E, 0x00, 0x02]).1.read
          [0x8A, 0x06, 0x6F]).1.incoming_packet.getErrorCode = PACKET_INCOMPLETE
      ∧ ((defaultSession.read [0x00, 0x7E, 0x00, 0x02]).1.read
          [0x8A, 0x06, 0x6F]).1.incoming_packet.getFrameLength = 0 := by
  decide!

/-- A byte other than `START` at the cursor 0.  When the decoder is at
`idx = 0` with no escape pending and the byte it reads is not `START`, the loop
of `read()` records `PacketIncomplete`, leaves `idx` at 0 and everything else but
the byte register as it was, and goes on with the bytes that remain available in
the call: it stops only when there is none, and a `START` that follows moves
`idx` to 1 with `PacketIncomplete` still recorded. -/
theorem readLoop_after_junk_byte (r : SimpleZigBeeRadio) (b : Nat) (rest : List Nat)
    (h0 : r.in_index = 0) (he : r.escaped_mode = false ∨ r.in_escaping = false)
    (hb : b % 256 ≠ START) :
    r.readLoop (b :: rest)
        = SimpleZigBeeRadio.readLoop
            (({ r with in_byte := b % 256 } : SimpleZigBeeRadio).setIncomingErrorCode
              PACKET_INCOMPLETE) rest
      ∧ r.readLoop [b]
        = ((({ r with in_byte := b % 256 } : SimpleZigBeeRadio).setIncomingErrorCode
              PACKET_INCOMPLETE), [])
      ∧ r.readLoop (b :: START :: rest)
        = SimpleZigBeeRadio.readLoop
            ({ (({ r with in_byte := START } : SimpleZigBeeRadio).setIncomingErrorCode
              PACKET_INCOMPLETE) with in_index := 1 }) rest
      ∧ (r.incoming_packet.isError = false → r.isComplete = false →
          r.read (b :: rest) = r.readLoop (b :: rest)) := by
  have hplain : ∀ (s : SimpleZigBeeRadio) (x : Nat), s.in_index = 0 →
      (s.escaped_mode = false ∨ s.in_escaping = false) →
      (s.escaped_mode = false
        ∨ (s.in_escaping = false
            ∧ ((x % 256 ≠ START ∧ x % 256 ≠ ESCAPE) ∨ s.in_index ≤ 0))) := by
    intro s x hs0 hse
    rcases hse with h | h
    · exact Or.inl h
    · exact Or.inr ⟨h, Or.inr (by omega)⟩
  have hb2 : ¬ (START = b % 256) := fun e => hb e.symm
  have hd : (({ r with in_byte := b % 256 } : SimpleZigBeeRadio)).readDispatch
      = ((({ r with in_byte := b % 256 } : SimpleZigBeeRadio)).setIncomingErrorCode
          PACKET_INCOMPLETE, false) := by
    simp [SimpleZigBeeRadio.readDispatch, h0, hb2, FRAME_TYPE_INDEX]
  have h1 : ∀ l : List Nat, r.readLoop (b :: l)
      = SimpleZigBeeRadio.readLoop
          (({ r with in_byte := b % 256 } : SimpleZigBeeRadio).setIncomingErrorCode
            PACKET_INCOMPLETE) l := by
    intro l
    rw [SimpleZigBeeRadio.readLoop_plain r b l (hplain r b h0 he), hd]
    simp
  refine ⟨h1 rest, ?_, ?_, ?_⟩
  · rw [h1 [], SimpleZigBeeRadio.readLoop_nil]
  · rw [h1 (START :: rest)]
    rw [SimpleZigBeeRadio.readLoop_plain _ START rest
      (hplain _ START (by simp [SimpleZigBeeRadio.setIncomingErrorCode, h0])
        (by simpa [SimpleZigBeeRadio.setIncomingErrorCode] using he))]
    rw [SimpleZigBeeRadio.readDispatch_start _
      (by simp [SimpleZigBeeRadio.setIncomingErrorCode, h0]) (by simp [START])]
    simp [SimpleZigBeeRadio.setIncomingErrorCode, START]
  · intro hE hC
    simp [SimpleZigBeeRadio.read, hE, hC]

/-- C26 at a failing input.  The default session reads `7E 00 02 7D` and is left
with `escaping = true` at `idx = 3`, below the checksum position 5.  The next
call brings `5D`, which is not a raw `START`; the value `5D XOR 20 = 7D` should
be processed as one data byte.  The code de-escapes it, then tests the result
against `ESCAPE` again: with `5D` alone the call ends with `escaping = true`
again, `idx = 3`, the running checksum 0 and nothing stored; with `5D 31` the
byte stored at frame index 0 is `11`, and `7D` is lost. -/
theorem C26_escaped_escape_across_calls_is_lost :
    (defaultSession.read [0x7E, 0x00, 0x02, 0x7D]).1.in_escaping = true
      ∧ (defaultSession.read [0x7E, 0x00, 0x02, 0x7D]).1.in_index = 3
      ∧ (defaultSession.read [0x7E, 0x00, 0x02, 0x7D]).1.incoming_packet.getFrameLength = 2
      ∧ (defaultSession.read [0x7E, 0x00, 0x02, 0x7D]).1.incoming_packet.getErrorCode
          = NO_ERROR
      ∧ ((defaultSession.read [0x7E, 0x00, 0x02, 0x7D]).1.read [0x5D]).1.in_escaping = true
      ∧ ((defaultSession.read [0x7E, 0x00, 0x02, 0x7D]).1.read [0x5D]).1.in_index = 3
      ∧ ((defaultSession.read [0x7E, 0x00, 0x02, 0x7D]).1.read [0x5D]).1.in_checksum = 0
      ∧ ((defaultSession.read [0x7E, 0x00, 0x02, 0x7D]).1.read [0x5D, 0x31]).1.in_index = 4
      ∧ ((defaultSession.read [0x7E, 0x00, 0x02, 0x7D]).1.read
          [0x5D, 0x31]).1.in_checksum = 0x11
      ∧ ((defaultSession.read [0x7E, 0x00, 0x02, 0x7D]).1.read
          [0x5D, 0x31]).1.incoming_packet.getMemoryData 0 = 0x11 := by
  decide!

/-- C27 (suspension mid-escape).  In escaped mode, when the loop of `read()`
fetches `ESCAPE` as the last byte available while `idx > 0` (no escape pending:
the byte is not itself the second byte of an escape pair), the call returns with
`escaping = true` and with `idx`, the running checksum, the completion flag and
the whole incoming packet (frame length, stored bytes, error code) unchanged. -/
theorem C27_suspension_mid_escape (r : SimpleZigBeeRadio)
    (hm : r.escaped_mode = true) (he : r.in_escaping = false) (hi : 0 < r.in_index) :
    r.readLoop [ESCAPE] = ({ r with in_byte := ESCAPE, in_escaping := true }, [])
      ∧ (r.readLoop [ESCAPE]).1.in_escaping = true
      ∧ (r.readLoop [ESCAPE]).1.in_index = r.in_index
      ∧ (r.readLoop [ESCAPE]).1.in_checksum = r.in_checksum
      ∧ (r.readLoop [ESCAPE]).1.in_complete = r.in_complete
      ∧ (r.readLoop [ESCAPE]).1.incoming_packet = r.incoming_packet
      ∧ (r.incoming_packet.isError = false → r.isComplete = false →
          r.read [ESCAPE] = r.readLoop [ESCAPE]) := by
  have h : r.readLoop [ESCAPE] = ({ r with in_byte := ESCAPE, in_escaping := true }, []) := by
    rw [SimpleZigBeeRadio.readLoop_single]
    simp [SimpleZigBeeRadio.readBody, hm, he, hi, SimpleZigBeeRadio.isEscaping,
      SimpleZigBeeRadio.setEscaping, START, ESCAPE]
  refine ⟨h, ?_, ?_, ?_, ?_, ?_, ?_⟩
  · rw [h]
  · rw [h]
  · rw [h]
  · rw [h]
  · rw [h]
  · intro hE hC
    simp [SimpleZigBeeRadio.read, hE, hC]

/-- Witness of C27: the default session has read `7E 00 02` and then reads the
single byte `7D`. -/
theorem C27_suspension_mid_escape_witness :
    ((defaultSession.read [0x7E, 0x00, 0x02]).1.readLoop [ESCAPE]).1.in_index
      = (defaultSession.read [0x7E, 0x00, 0x02]).1.in_index :=
  (C27_suspension_mid_escape (defaultSession.read [0x7E, 0x00, 0x02]).1 (by decide!)
    (by decide!) (by decide!)).2.2.1

namespace SimpleZigBeeRadio

/-- A call that begins with an escape pending at a frame-data position below
the checksum position: a byte `x` that is not a raw `START` and whose de-escaped
value is not `ESCAPE` is processed as the one data byte `x XOR 0x20`. -/
theorem readLoop_pending_escape (r : SimpleZigBeeRadio) (x : Nat) (rest : List Nat)
    (hm : r.escaped_mode = true) (he : r.in_escaping = true)
    (h3 : 3 ≤ r.in_index) (hM : r.in_index ≤ r.incoming_packet.maxFrameLength)
    (hL : r.in_index < r.incoming_packet.frameLength + 3)
    (hs : x % 256 ≠ START) (hx : (0x20 ^^^ (x % 256)) % 256 ≠ ESCAPE) :
    r.readLoop (x :: rest)
      = SimpleZigBeeRadio.readLoop
          { r with
            in_byte := (0x20 ^^^ (x % 256)) % 256
            in_escaping := false
            in_checksum := (r.in_checksum + (0x20 ^^^ (x % 256)) % 256) % 256
            incoming_packet :=
              r.incoming_packet.setFrameData (r.in_index - 3) ((0x20 ^^^ (x % 256)) % 256)
            in_index := r.in_index + 1 } rest := by
  have hs2 : ¬ (START = x % 256) := fun e => hs e.symm
  have hb : ∀ next : Option Nat, r.readBody x next
      = (({ r with in_byte := (0x20 ^^^ (x % 256)) % 256, in_escaping := false }
            : SimpleZigBeeRadio).readDispatch.1,
         ({ r with in_byte := (0x20 ^^^ (x % 256)) % 256, in_escaping := false }
            : SimpleZigBeeRadio).readDispatch.2, false) := by
    intro next
    simp [readBody, hm, he, hs2, hx, isEscaping]
  have hd := readDispatch_data
    ({ r with in_byte := (0x20 ^^^ (x % 256)) % 256, in_escaping := false }
      : SimpleZigBeeRadio) h3 hM hL
  cases rest with
  | nil =>
    rw [readLoop_single, hb none, hd, readLoop_nil]
  | cons c rest =>
    rw [readLoop_cons_cons, hb (some c), hd]
    simp

end SimpleZigBeeRadio

/-- C28 (terminal-state restart).  When `read()` is called with at least one
byte available while the decoder is complete or the incoming packet carries an
error, the error code not being `UnexpectedPacketStart`, the packet is reset
(`frameLength`, checksum and error code cleared), the escaping flag, the
completion flag and the running checksum are cleared and the loop runs on the
available bytes from `idx = 0`, before any byte is consumed; when no byte is
available the call changes nothing. -/
theorem C28_terminal_state_restart (r : SimpleZigBeeRadio) (s : List Nat) :
    (s ≠ [] → (r.isComplete = true ∨ r.incoming_packet.isError = true) →
        r.incoming_packet.getErrorCode ≠ UNEXPECTED_PACKET_START →
        r.read s = r.resetIncoming.readLoop s)
      ∧ r.resetIncoming.incoming_packet = r.incoming_packet.reset
      ∧ r.resetIncoming.incoming_packet.getFrameLength = 0
      ∧ r.resetIncoming.incoming_packet.getChecksum = 0
      ∧ r.resetIncoming.incoming_packet.getErrorCode = NO_ERROR
      ∧ r.resetIncoming.in_escaping = false
      ∧ r.resetIncoming.in_complete = false
      ∧ r.resetIncoming.in_checksum = 0
      ∧ r.resetIncoming.in_index = 0
      ∧ r.read [] = (r, []) := by
  refine ⟨fun hs ht hu => SimpleZigBeeRadio.read_terminal r s hs ht hu, rfl, rfl, rfl, rfl,
    rfl, rfl, rfl, rfl, ?_⟩
  simp [SimpleZigBeeRadio.read]

/-- Witness of C28: the default session has received the complete frame of
`7E 00 02 8A 06 6F` and then reads the byte `7E`. -/
theorem C28_terminal_state_restart_witness :
    (defaultSession.read [0x7E, 0x00, 0x02, 0x8A, 0x06, 0x6F]).1.read [0x7E]
      = (defaultSession.read [0x7E, 0x00, 0x02, 0x8A, 0x06,
          0x6F]).1.resetIncoming.readLoop [0x7E] :=
  (C28_terminal_state_restart (defaultSession.read [0x7E, 0x00, 0x02, 0x8A, 0x06, 0x6F]).1
    [0x7E]).1 (by decide) (Or.inl (by decide!)) (by decide!)

/-- C29 (the decoder stops at the end of a packet).  When the input holds the
wire formats of two frames `f1` and `f2` back to back, each with
`|f| + 3 <= maxFrameLength`, the first `read()` on a reset decoder whose buffer
grows by tens consumes exactly the bytes of the first and ends complete, without
error, with the contents of `f1`, leaving all bytes of the second unread; the
second `read()` then ends complete, without error, with the contents of `f2`. -/
theorem C29_back_to_back_frames (r : SimpleZigBeeRadio) (f1 f2 : List Nat)
    (hf1 : ∀ x ∈ f1, x < 256) (hf2 : ∀ x ∈ f2, x < 256)
    (hlen1 : f1.length < 65536) (hlen2 : f2.length < 65536)
    (hM1 : (f1.length : Int) + 3 ≤ r.incoming_packet.getMaxFrameLength)
    (hM2 : (f2.length : Int) + 3 ≤ r.incoming_packet.getMaxFrameLength)
    (hg : GrowsByTens r.incoming_packet) (hr : r.incoming_packet.reallocSucceeds = true) :
    (r.resetIncoming.read (wireFormat r.escaped_mode (f1.length : Int) f1
        ++ wireFormat r.escaped_mode (f2.length : Int) f2)).2
        = wireFormat r.escaped_mode (f2.length : Int) f2
      ∧ (r.resetIncoming.read (wireFormat r.escaped_mode (f1.length : Int) f1
        ++ wireFormat r.escaped_mode (f2.length : Int) f2)).1.isComplete = true
      ∧ (r.resetIncoming.read (wireFormat r.escaped_mode (f1.length : Int) f1
        ++ wireFormat r.escaped_mode (f2.length : Int) f2)).1.incoming_packet.getErrorCode
          = NO_ERROR
      ∧ frameBytes (r.resetIncoming.read (wireFormat r.escaped_mode (f1.length : Int) f1
        ++ wireFormat r.escaped_mode (f2.length : Int) f2)).1.incoming_packet = f1
      ∧ ((r.resetIncoming.read (wireFormat r.escaped_mode (f1.length : Int) f1
          ++ wireFormat r.escaped_mode (f2.length : Int) f2)).1.read
          (r.resetIncoming.read (wireFormat r.escaped_mode (f1.length : Int) f1
            ++ wireFormat r.escaped_mode (f2.length : Int) f2)).2).2 = []
      ∧ ((r.resetIncoming.read (wireFormat r.escaped_mode (f1.length : Int) f1
          ++ wireFormat r.escaped_mode (f2.length : Int) f2)).1.read
          (r.resetIncoming.read (wireFormat r.escaped_mode (f1.length : Int) f1
            ++ wireFormat r.escaped_mode (f2.length : Int) f2)).2).1.isComplete = true
      ∧ ((r.resetIncoming.read (wireFormat r.escaped_mode (f1.length : Int) f1
          ++ wireFormat r.escaped_mode (f2.length : Int) f2)).1.read
          (r.resetIncoming.read (wireFormat r.escaped_mode (f1.length : Int) f1
            ++ wireFormat r.escaped_mode (f2.length : Int)
              f2)).2).1.incoming_packet.getErrorCode = NO_ERROR
      ∧ frameBytes ((r.resetIncoming.read (wireFormat r.escaped_mode (f1.length : Int) f1
          ++ wireFormat r.escaped_mode (f2.length : Int) f2)).1.read
          (r.resetIncoming.read (wireFormat r.escaped_mode (f1.length : Int) f1
            ++ wireFormat r.escaped_mode (f2.length : Int) f2)).2).1.incoming_packet
          = f2 := by
  obtain ⟨a1, a2, a3, _, a5, a6, a7, a8, a9⟩ := SimpleZigBeeRadio.read_wire_obs r f1
    (wireFormat r.escaped_mode (f2.length : Int) f2) hf1 hlen1 hM1 hg hr
  generalize r.resetIncoming.read (wireFormat r.escaped_mode (f1.length : Int) f1
    ++ wireFormat r.escaped_mode (f2.length : Int) f2) = first at a1 a2 a3 a5 a6 a7 a8 a9 ⊢
  have hne : wireFormat r.escaped_mode (f2.length : Int) f2 ≠ [] := by
    simp [wireFormat]
  have e2 : first.1.read first.2
      = first.1.resetIncoming.read (wireFormat first.1.escaped_mode (f2.length : Int) f2
          ++ []) := by
    rw [a1, a6, List.append_nil, SimpleZigBeeRadio.read_resetIncoming _ _ hne]
    exact SimpleZigBeeRadio.read_terminal first.1 _ hne (Or.inl a2)
      (by rw [a3]; decide)
  obtain ⟨b1, b2, b3, _, b5, _⟩ := SimpleZigBeeRadio.read_wire_obs first.1 f2 [] hf2 hlen2
    (by rw [a7]; exact hM2) a8 a9
  rw [← e2] at b1 b2 b3 b5
  exact ⟨a1, a2, a3, a5, b1, b2, b3, b5⟩

/-- Witness of C29 on the default session: the frames `8A 06` and `7E 11 13`. -/
theorem C29_back_to_back_frames_witness :
    (defaultSession.resetIncoming.read
        (wireFormat defaultSession.escaped_mode (([0x8A, 0x06] : List Nat).length : Int)
          [0x8A, 0x06]
        ++ wireFormat defaultSession.escaped_mode
          (([0x7E, 0x11, 0x13] : List Nat).length : Int) [0x7E, 0x11, 0x13])).2
      = wireFormat defaultSession.escaped_mode (([0x7E, 0x11, 0x13] : List Nat).length : Int)
          [0x7E, 0x11, 0x13] :=
  (C29_back_to_back_frames defaultSession [0x8A, 0x06] [0x7E, 0x11, 0x13] (by decide)
    (by decide) (by decide) (by decide) (by decide) (by decide) (by decide) (by decide)).1

/-! ## Lemmas on what a pass of the decoder can change -/

namespace SimpleZigBeePacket

/-- Whatever its arguments, `setFrameData` keeps the bytes the block held at the
other indices. -/
theorem setFrameData_other (p : SimpleZigBeePacket) (k : Int) (b : Nat) (j : Int)
    (hj0 : 0 ≤ j) (hjc : j < p.memoryArrayLength) (hjk : j ≠ k) :
    (p.setFrameData k b).getMemoryData j = p.getMemoryData j := by
  obtain ⟨_, _, _, m4⟩ := setMemoryData_keeps p k b
  unfold setFrameData getMaxFrameLength
  by_cases hM : k < p.maxFrameLength
  · simp only [hM, if_true]
    split_ifs
    · exact m4 j hj0 hjc hjk
    · exact m4 j hj0 hjc hjk
  · rw [if_neg hM]
    rfl

end SimpleZigBeePacket

namespace SimpleZigBeeRadio

/-- The outcomes of the dispatch of a de-escaped byte, by cursor position.  The
running checksum takes the byte in only from the cursor position 3 on. -/
theorem readDispatch_cases (r : SimpleZigBeeRadio) :
    (r.in_index = 0 ∧ r.in_byte = START ∧ r.readDispatch = ({ r with in_index := 1 }, false))
    ∨ (r.in_index = 0 ∧ r.in_byte ≠ START
        ∧ r.readDispatch = (r.setIncomingErrorCode PACKET_INCOMPLETE, false))
    ∨ (r.in_index = 1
        ∧ r.readDispatch =
          ({ r with
              incoming_packet := r.incoming_packet.setFrameLengthMSB r.in_byte
              in_index := 2 }, false))
    ∨ (r.in_index = 2
        ∧ r.readDispatch =
          ({ r with
              incoming_packet := r.incoming_packet.setFrameLengthLSB r.in_byte
              in_index := 3 }, false))
    ∨ (r.in_index ≠ 0 ∧ r.in_index ≠ 1 ∧ r.in_index ≠ 2
        ∧ r.in_index > r.incoming_packet.maxFrameLength
        ∧ r.readDispatch =
          (({ r with
              in_checksum := if 3 ≤ r.in_index then (r.in_checksum + r.in_byte) % 256
                else r.in_checksum } : SimpleZigBeeRadio).setIncomingErrorCode
            MAX_FRAME_LENGTH_EXCEEDED, true))
    ∨ (r.in_index ≠ 0 ∧ r.in_index ≠ 1 ∧ r.in_index ≠ 2
        ∧ r.in_index ≤ r.incoming_packet.maxFrameLength
        ∧ r.incoming_packet.frameLength + 3 = r.in_index
        ∧ r.readDispatch.2 = true
        ∧ r.readDispatch.1.in_index = r.in_index
        ∧ (r.readDispatch.1.incoming_packet
              = (r.incoming_packet.setChecksum r.readDispatch.1.in_checksum).setErrorCode
                  NO_ERROR
            ∨ r.readDispatch.1.incoming_packet
              = r.incoming_packet.setErrorCode CHECKSUM_FAILURE))
    ∨ (r.in_index ≠ 0 ∧ r.in_index ≠ 1 ∧ r.in_index ≠ 2
        ∧ r.in_index ≤ r.incoming_packet.maxFrameLength
        ∧ r.incoming_packet.frameLength + 3 ≠ r.in_index
        ∧ r.readDispatch =
          ({ r with
              in_checksum := if 3 ≤ r.in_index then (r.in_checksum + r.in_byte) % 256
                else r.in_checksum
              incoming_packet := r.incoming_packet.setFrameData (r.in_index - 3) r.in_byte
              in_index := r.in_index + 1 }, false)) := by
  by_cases e0 : r.in_index = 0
  · by_cases hb : r.in_byte = START
    · exact Or.inl ⟨e0, hb, readDispatch_start r e0 hb⟩
    · have hb2 : ¬ (START = r.in_byte) := fun e => hb e.symm
      refine Or.inr (Or.inl ⟨e0, hb, ?_⟩)
      simp [readDispatch, e0, hb2, FRAME_TYPE_INDEX]
  · by_cases e1 : r.in_index = 1
    · exact Or.inr (Or.inr (Or.inl ⟨e1, readDispatch_msb r e1⟩))
    · by_cases e2 : r.in_index = 2
      · exact Or.inr (Or.inr (Or.inr (Or.inl ⟨e2, readDispatch_lsb r e2⟩)))
      · have n0 : ¬ (0 = r.in_index) := fun e => e0 e.symm
        have n1 : ¬ (1 = r.in_index) := fun e => e1 e.symm
        have n2 : ¬ (2 = r.in_index) := fun e => e2 e.symm
        by_cases eM : r.in_index ≤ r.incoming_packet.maxFrameLength
        · have nM : ¬ (r.in_index > r.incoming_packet.maxFrameLength) := by omega
          by_cases eL : r.incoming_packet.frameLength + 3 = r.in_index
          · refine Or.inr (Or.inr (Or.inr (Or.inr (Or.inr (Or.inl
              ⟨e0, e1, e2, eM, eL, ?_⟩)))))
            by_cases h3 : r.in_index ≥ FRAME_TYPE_INDEX
            · by_cases hc : 0xff = (r.in_checksum + r.in_byte) % 256
              · simp [readDispatch, SimpleZigBeePacket.getMaxFrameLength,
                  SimpleZigBeePacket.getFrameLength, n0, n1, n2, nM, eL, h3, hc, setComplete]
              · simp [readDispatch, SimpleZigBeePacket.getMaxFrameLength,
                  SimpleZigBeePacket.getFrameLength, n0, n1, n2, nM, eL, h3, hc,
                  setIncomingErrorCode, setComplete]
            · by_cases hc : 0xff = r.in_checksum % 256
              · simp [readDispatch, SimpleZigBeePacket.getMaxFrameLength,
                  SimpleZigBeePacket.getFrameLength, n0, n1, n2, nM, eL, h3, hc, setComplete]
              · simp [readDispatch, SimpleZigBeePacket.getMaxFrameLength,
                  SimpleZigBeePacket.getFrameLength, n0, n1, n2, nM, eL, h3, hc,
                  setIncomingErrorCode]
          · refine Or.inr (Or.inr (Or.inr (Or.inr (Or.inr (Or.inr
              ⟨e0, e1, e2, eM, eL, ?_⟩)))))
            by_cases h3 : r.in_index ≥ FRAME_TYPE_INDEX
            · have h3b : 3 ≤ r.in_index := h3
              simp [readDispatch, SimpleZigBeePacket.getMaxFrameLength,
                SimpleZigBeePacket.getFrameLength, n0, n1, n2, nM, eL, h3, h3b,
                FRAME_TYPE_INDEX]
            · have h3b : ¬ (3 ≤ r.in_index) := h3
              simp [readDispatch, SimpleZigBeePacket.getMaxFrameLength,
                SimpleZigBeePacket.getFrameLength, n0, n1, n2, nM, eL, h3, h3b,
                FRAME_TYPE_INDEX]
        · have nM : r.in_index > r.incoming_packet.maxFrameLength := by omega
          refine Or.inr (Or.inr (Or.inr (Or.inr (Or.inl ⟨e0, e1, e2, nM, ?_⟩))))
          by_cases h3 : r.in_index ≥ FRAME_TYPE_INDEX
          · have h3b : 3 ≤ r.in_index := h3
            simp [readDispatch, SimpleZigBeePacket.getMaxFrameLength, n0, n1, n2, nM, h3, h3b]
          · have h3b : ¬ (3 ≤ r.in_index) := h3
            simp [readDispatch, SimpleZigBeePacket.getMaxFrameLength, n0, n1, n2, nM, h3, h3b]

end SimpleZigBeeRadio

namespace SimpleZigBeeRadio

/-- A property of the decoder state that the dispatch keeps, and that does not
depend on the byte register, the escaping flag or the error code, is kept by the
loop of `read()`. -/
theorem readLoop_preserves (Q : SimpleZigBeeRadio → Prop)
    (hd : ∀ r : SimpleZigBeeRadio, Q r → Q r.readDispatch.1)
    (hb : ∀ (r : SimpleZigBeeRadio) (x : Nat) (e : Bool), Q r →
      Q ({ r with in_byte := x, in_escaping := e } : SimpleZigBeeRadio))
    (hc : ∀ (r : SimpleZigBeeRadio) (c : Int), Q r → Q (r.setIncomingErrorCode c)) :
    ∀ (n : Nat) (s : List Nat) (r : SimpleZigBeeRadio),
      s.length ≤ n → Q r → Q (r.readLoop s).1 := by
  have hbody : ∀ (r : SimpleZigBeeRadio) (b : Nat) (next : Option Nat),
      Q r → Q (r.readBody b next).1 := by
    intro r b next h
    unfold readBody
    simp only []
    split_ifs
    · exact hc _ _ (hb r _ r.in_escaping h)
    · cases next with
      | none => exact hb r _ true h
      | some c => exact hd _ (hb r _ false h)
    · exact hd _ (hb r _ false h)
    · cases next with
      | none => exact hb r _ true h
      | some c => exact hd _ (hb r _ r.in_escaping h)
    · exact hd _ (hb r _ r.in_escaping h)
    · exact hd _ (hb r _ r.in_escaping h)
  intro n
  induction n with
  | zero =>
    intro s r hs h
    have : s = [] := List.length_eq_zero.mp (by omega)
    subst this
    rw [readLoop_nil]
    exact h
  | succ n ih =>
    intro s r hs h
    match s with
    | [] => rw [readLoop_nil]; exact h
    | [b] => rw [readLoop_single]; exact hbody r b none h
    | b :: c :: rest =>
      rw [readLoop_cons_cons]
      have hb2 := hbody r b (some c) h
      simp only [List.length_cons] at hs
      by_cases h1 : (r.readBody b (some c)).2.1 = true
      · rw [if_pos h1]
        exact hb2
      · rw [if_neg h1]
        by_cases h2 : (r.readBody b (some c)).2.2 = true
        · rw [if_pos h2]
          exact ih rest _ (by omega) hb2
        · rw [if_neg h2]
          exact ih (c :: rest) _ (by simp only [List.length_cons]; omega) hb2

/-- Such a property, when the reset of the decoder keeps it too, is kept by
every call of `read()`. -/
theorem read_preserves (Q : SimpleZigBeeRadio → Prop)
    (hd : ∀ r : SimpleZigBeeRadio, Q r → Q r.readDispatch.1)
    (hb : ∀ (r : SimpleZigBeeRadio) (x : Nat) (e : Bool), Q r →
      Q ({ r with in_byte := x, in_escaping := e } : SimpleZigBeeRadio))
    (hc : ∀ (r : SimpleZigBeeRadio) (c : Int), Q r → Q (r.setIncomingErrorCode c))
    (hr0 : ∀ r : SimpleZigBeeRadio, Q r → Q r.resetIncoming)
    (hr1 : ∀ r : SimpleZigBeeRadio, Q r →
      Q ({ r.resetIncoming with in_index := 1 } : SimpleZigBeeRadio))
    (r : SimpleZigBeeRadio) (s : List Nat) (h : Q r) : Q (r.read s).1 := by
  unfold read
  by_cases hs : s ≠ []
  · rw [if_pos hs]
    by_cases he : r.incoming_packet.isError = true ∨ r.isComplete = true
    · simp only [he, if_true]
      by_cases hu : UNEXPECTED_PACKET_START = r.incoming_packet.getErrorCode
      · simp only [hu, if_true]
        exact readLoop_preserves Q hd hb hc s.length s _ (le_refl _) (hr1 r h)
      · simp only [hu, if_false]
        exact readLoop_preserves Q hd hb hc s.length s _ (le_refl _) (hr0 r h)
    · simp only [he, if_false]
      exact readLoop_preserves Q hd hb hc s.length s _ (le_refl _) h
  · rw [if_neg hs]
    exact h

end SimpleZigBeeRadio

namespace SimpleZigBeeRadio

/-- Every call of `read()` keeps the limit of the incoming packet, keeps the
cursor at most one past the limit, does not shrink the incoming buffer, and
keeps the bytes the buffer holds at the frame indices from
`maxFrameLength - 2` on. -/
theorem read_guard_inv (M0 cap0 : Int) (p0 : SimpleZigBeePacket) (hM0 : 2 ≤ M0)
    (r : SimpleZigBeeRadio) (s : List Nat)
    (h : r.incoming_packet.maxFrameLength = M0 ∧ r.in_index ≤ M0 + 1
      ∧ cap0 ≤ r.incoming_packet.memoryArrayLength
      ∧ ∀ j : Int, M0 - 2 ≤ j → 0 ≤ j → j < cap0 →
          r.incoming_packet.getMemoryData j = p0.getMemoryData j) :
    (r.read s).1.incoming_packet.maxFrameLength = M0 ∧ (r.read s).1.in_index ≤ M0 + 1
      ∧ cap0 ≤ (r.read s).1.incoming_packet.memoryArrayLength
      ∧ ∀ j : Int, M0 - 2 ≤ j → 0 ≤ j → j < cap0 →
          (r.read s).1.incoming_packet.getMemoryData j = p0.getMemoryData j := by
  refine read_preserves
    (fun t => t.incoming_packet.maxFrameLength = M0 ∧ t.in_index ≤ M0 + 1
      ∧ cap0 ≤ t.incoming_packet.memoryArrayLength
      ∧ ∀ j : Int, M0 - 2 ≤ j → 0 ≤ j → j < cap0 →
          t.incoming_packet.getMemoryData j = p0.getMemoryData j)
    ?_ ?_ ?_ ?_ ?_ r s h
  · intro t ⟨q1, q2, q3, q4⟩
    rcases readDispatch_cases t with ⟨_, _, e⟩ | ⟨_, _, e⟩ | ⟨_, e⟩ | ⟨_, e⟩
      | ⟨_, _, _, _, e⟩ | ⟨_, _, _, _, _, _, e1, e2⟩ | ⟨_, _, _, c4, _, e⟩
    · rw [e]
      exact ⟨q1, by simp only; omega, q3, q4⟩
    · rw [e]
      exact ⟨q1, q2, q3, q4⟩
    · rw [e]
      exact ⟨q1, by simp only; omega, q3, q4⟩
    · rw [e]
      exact ⟨q1, by simp only; omega, q3, q4⟩
    · rw [e]
      exact ⟨q1, q2, q3, q4⟩
    · rcases e2 with e2 | e2
      · rw [e1, e2]
        exact ⟨q1, q2, q3, q4⟩
      · rw [e1, e2]
        exact ⟨q1, q2, q3, q4⟩
    · rw [e]
      obtain ⟨k1, k2⟩ := SimpleZigBeePacket.setFrameData_keeps t.incoming_packet
        (t.in_index - 3) t.in_byte
      refine ⟨by simp only; rw [k1, q1], by simp only; omega, le_trans q3 k2, ?_⟩
      intro j hj1 hj0 hjc
      simp only
      rw [SimpleZigBeePacket.setFrameData_other t.incoming_packet (t.in_index - 3) t.in_byte j
        hj0 (by omega) (by omega)]
      exact q4 j hj1 hj0 hjc
  · intro t x e q
    exact q
  · intro t c q
    exact q
  · intro t ⟨q1, q2, q3, q4⟩
    exact ⟨q1, by simp only [resetIncoming]; omega, q3, q4⟩
  · intro t ⟨q1, q2, q3, q4⟩
    exact ⟨q1, by simp only; omega, q3, q4⟩

end SimpleZigBeeRadio

/-! ## Lemmas on the bytes read back at every index -/

namespace SimpleZigBeePacket

end SimpleZigBeePacket

namespace SimpleZigBeeRadio

end SimpleZigBeeRadio

/-- C31 fails in the code: the default session reads, in one call, the packet
`7E 00 02 8A 06 6F`, which is the wire format of the frame `8A 06` and ends with
the checksum byte `6F`.  The decode succeeds (complete, `NoError`, frame length
2), but `getChecksum()` returns `FF`, not `6F`: the success branch of `read()`
stores the running sum `_in_checksum`, which includes the checksum byte and is
`FF` at every successful decode. -/
theorem C31_stored_checksum_is_running_sum :
    wireFormat true 2 [0x8A, 0x06] = [0x7E, 0x00, 0x02, 0x8A, 0x06, 0x6F]
      ∧ (defaultSession.read [0x7E, 0x00, 0x02, 0x8A, 0x06, 0x6F]).2 = []
      ∧ (defaultSession.read [0x7E, 0x00, 0x02, 0x8A, 0x06, 0x6F]).1.isComplete = true
      ∧ (defaultSession.read
          [0x7E, 0x00, 0x02, 0x8A, 0x06, 0x6F]).1.incoming_packet.getErrorCode = NO_ERROR
      ∧ (defaultSession.read
          [0x7E, 0x00, 0x02, 0x8A, 0x06, 0x6F]).1.incoming_packet.getFrameLength = 2
      ∧ (defaultSession.read
          [0x7E, 0x00, 0x02, 0x8A, 0x06, 0x6F]).1.incoming_packet.getChecksum = 0xFF
      ∧ (defaultSession.read
          [0x7E, 0x00, 0x02, 0x8A, 0x06, 0x6F]).1.incoming_packet.getChecksum ≠ 0x6F := by
  decide!

/-- C33 fails in the code: on a default-constructed packet (capacity 20, maximum
50) the index 45 satisfies `capacity <= index < maxFrameLength`, and
`setMemoryData(45, 7)` requests a growth to `45 + 10 = 55` bytes, which
`expandMemoryArray` refuses because it exceeds the maximum.  The capacity stays
20 (not `min(55, 50) = 50`), the write falls outside the allocated block, no
error is recorded, and `getMemoryData(45)` returns 0, not 7. -/
theorem C33_growth_request_is_not_clipped :
    (SimpleZigBeePacket.constructDefault [] true).memoryArrayLength = 20
      ∧ (SimpleZigBeePacket.constructDefault [] true).getMaxFrameLength = 50
      ∧ ((SimpleZigBeePacket.constructDefault [] true).setMemoryData 45 7).memoryArrayLength
          = 20
      ∧ ((SimpleZigBeePacket.constructDefault [] true).setMemoryData 45 7).getMemoryData 45
          = 0
      ∧ ((SimpleZigBeePacket.constructDefault [] true).setMemoryData 45 7).getErrorCode
          = NO_ERROR
      ∧ (SimpleZigBeePacket.constructDefault [] true).expandMemoryArray (45 + 10)
          = SimpleZigBeePacket.constructDefault [] true := by
  decide!

/-- C40 (payload-length getters).  Each getter returns `frameLength - h` reduced
modulo 256, with `h = 12` for `getRXPayloadLength`, `5` for
`getATResponsePayloadLength` and `15` for `getRemoteATResponsePayloadLength`.  For
a frame length `0 <= frameLength < h` that value is `256 + frameLength - h`, at
least `256 - h >= 241` and never 0; for `h <= frameLength <= h + 255` it is
exactly `frameLength - h`. -/
theorem C40_payload_length_wraps (p : SimpleZigBeePacket) (h0 : 0 ≤ p.getFrameLength) :
    (p.getRXPayloadLength : Int) = (p.getFrameLength - 12) % 256
      ∧ (p.getATResponsePayloadLength : Int) = (p.getFrameLength - 5) % 256
      ∧ (p.getRemoteATResponsePayloadLength : Int) = (p.getFrameLength - 15) % 256
      ∧ (p.getFrameLength < 12 →
          (p.getRXPayloadLength : Int) = 256 + p.getFrameLength - 12
            ∧ 241 ≤ p.getRXPayloadLength ∧ p.getRXPayloadLength ≠ 0)
      ∧ (p.getFrameLength < 5 →
          (p.getATResponsePayloadLength : Int) = 256 + p.getFrameLength - 5
            ∧ 241 ≤ p.getATResponsePayloadLength ∧ p.getATResponsePayloadLength ≠ 0)
      ∧ (p.getFrameLength < 15 →
          (p.getRemoteATResponsePayloadLength : Int) = 256 + p.getFrameLength - 15
            ∧ 241 ≤ p.getRemoteATResponsePayloadLength
            ∧ p.getRemoteATResponsePayloadLength ≠ 0)
      ∧ (12 ≤ p.getFrameLength → p.getFrameLength ≤ 12 + 255 →
          (p.getRXPayloadLength : Int) = p.getFrameLength - 12)
      ∧ (5 ≤ p.getFrameLength → p.getFrameLength ≤ 5 + 255 →
          (p.getATResponsePayloadLength : Int) = p.getFrameLength - 5)
      ∧ (15 ≤ p.getFrameLength → p.getFrameLength ≤ 15 + 255 →
          (p.getRemoteATResponsePayloadLength : Int) = p.getFrameLength - 15) := by
  unfold SimpleZigBeePacket.getRXPayloadLength SimpleZigBeePacket.getATResponsePayloadLength
    SimpleZigBeePacket.getRemoteATResponsePayloadLength
  unfold SimpleZigBeePacket.getFrameLength at *
  refine ⟨?_, ?_, ?_, ?_, ?_, ?_, ?_, ?_, ?_⟩ <;> omega

/-- Witness of C40: a freshly constructed packet has frame length 0, and the
three getters return 244, 251 and 241. -/
theorem C40_payload_length_wraps_witness :
    (SimpleZigBeePacket.constructDefault [] true).getFrameLength = 0
      ∧ ((SimpleZigBeePacket.constructDefault [] true).getRXPayloadLength : Int)
          = 256 + (SimpleZigBeePacket.constructDefault [] true).getFrameLength - 12
      ∧ 241 ≤ (SimpleZigBeePacket.constructDefault [] true).getRXPayloadLength
      ∧ (SimpleZigBeePacket.constructDefault [] true).getRXPayloadLength = 244
      ∧ (SimpleZigBeePacket.constructDefault [] true).getATResponsePayloadLength = 251
      ∧ (SimpleZigBeePacket.constructDefault [] true).getRemoteATResponsePayloadLength
          = 241 :=
  have h := C40_payload_length_wraps (SimpleZigBeePacket.constructDefault [] true)
    (by decide)
  have h1 := h.2.2.2.1 (by decide)
  ⟨by decide, h1.1, h1.2.1, by decide, by decide, by decide⟩

/-! ## Lemmas on the calls of the packet methods -/

/-- The packet after a call is the packet after the steps of its body. -/
theorem PacketCall.run_eq_steps (p : SimpleZigBeePacket) (c : PacketCall) :
    PacketCall.run p c = c.steps.foldl PacketStep.run p := by
  cases c <;> first
    | rfl
    | (simp only [PacketCall.run, PacketCall.steps, List.foldl_nil,
        SimpleZigBeePacket.calculateChecksum_eq])

/-- A call that is not a length setter has no length setter among its steps. -/
theorem PacketCall.steps_setsLength (c : PacketCall) (h : c.setsLength = false) :
    ∀ s ∈ c.steps, s.setsLength = false := by
  cases c <;> simp_all [PacketCall.steps, PacketCall.setsLength, PacketStep.setsLength]

/-- A call that does not assign the error code has no such step. -/
theorem PacketCall.steps_assignsError (c : PacketCall) (h : c.assignsError = false) :
    ∀ s ∈ c.steps, s.assignsError = false := by
  cases c <;> simp_all [PacketCall.steps, PacketCall.assignsError, PacketStep.assignsError]

namespace SimpleZigBeePacket

/-- Whatever its argument, `expandMemoryArray` leaves the block no larger than
the larger of its old size and the limit, keeps the checksum, and either keeps
the error code or records the failed reallocation. -/
theorem expandMemoryArray_bounds (p : SimpleZigBeePacket) (size : Int) :
    (p.expandMemoryArray size).memoryArrayLength ≤ max p.memoryArrayLength p.maxFrameLength
      ∧ (p.expandMemoryArray size).checksum = p.checksum
      ∧ ((p.expandMemoryArray size).errorCode = p.errorCode
          ∨ (p.expandMemoryArray size).errorCode = ERROR_REALLOCATING_MEMORY) := by
  by_cases hsz : size > p.memoryArrayLength ∧ size ≤ p.maxFrameLength
  · cases hr : p.reallocSucceeds with
    | true =>
      obtain ⟨_, _, e3, _, e5, e6, _⟩ := expandMemoryArray_grows p size hr hsz.1 hsz.2
      refine ⟨?_, e3, Or.inl e5⟩
      rw [e6]
      exact le_trans hsz.2 (le_max_right _ _)
    | false =>
      have e : p.expandMemoryArray size = p.setErrorCode ERROR_REALLOCATING_MEMORY := by
        unfold expandMemoryArray getMaxFrameLength
        simp only [hsz, hr, if_true, and_self, Bool.false_eq_true, if_false]
      rw [e]
      exact ⟨le_max_left _ _, rfl, Or.inr rfl⟩
  · have e : p.expandMemoryArray size = p := by
      unfold expandMemoryArray getMaxFrameLength
      rw [if_neg hsz]
    rw [e]
    exact ⟨le_max_left _ _, rfl, Or.inl rfl⟩

/-- A store keeps the checksum and the error code. -/
theorem store_bounds (p : SimpleZigBeePacket) (i : Int) (b : Nat) :
    (p.store i b).checksum = p.checksum ∧ (p.store i b).errorCode = p.errorCode := by
  unfold store
  split_ifs
  · exact ⟨rfl, rfl⟩
  · exact ⟨rfl, rfl⟩

/-- Whatever its arguments, `setMemoryData` leaves the block no larger than the
larger of its old size and the limit, keeps the checksum, and either keeps the
error code or records one of its own two. -/
theorem setMemoryData_bounds (p : SimpleZigBeePacket) (i : Int) (b : Nat) :
    (p.setMemoryData i b).memoryArrayLength ≤ max p.memoryArrayLength p.maxFrameLength
      ∧ (p.setMemoryData i b).checksum = p.checksum
      ∧ ((p.setMemoryData i b).errorCode = p.errorCode
          ∨ (p.setMemoryData i b).errorCode = ERROR_REALLOCATING_MEMORY
          ∨ (p.setMemoryData i b).errorCode = MAX_FRAME_LENGTH_EXCEEDED) := by
  unfold setMemoryData getMaxFrameLength
  by_cases hM : i < p.maxFrameLength
  · rw [if_pos hM]
    by_cases hc : i < p.memoryArrayLength
    · rw [if_pos hc]
      obtain ⟨_, _, s3, _⟩ := store_keeps p i b
      obtain ⟨t1, t2⟩ := store_bounds p i b
      exact ⟨by rw [s3]; exact le_max_left _ _, t1, Or.inl t2⟩
    · rw [if_neg hc]
      obtain ⟨e1, e2, e3⟩ := expandMemoryArray_bounds p (i + 10)
      obtain ⟨_, _, s3, _⟩ := store_keeps (p.expandMemoryArray (i + 10)) i b
      obtain ⟨t1, t2⟩ := store_bounds (p.expandMemoryArray (i + 10)) i b
      refine ⟨by rw [s3]; exact e1, by rw [t1, e2], ?_⟩
      rw [t2]
      rcases e3 with e3 | e3
      · exact Or.inl e3
      · exact Or.inr (Or.inl e3)
  · rw [if_neg hM]
    exact ⟨le_max_left _ _, rfl, Or.inr (Or.inr rfl)⟩

/-- The same for the loop of the array write. -/
theorem setFrameDataLoop_bounds (f : List Nat) :
    ∀ (p : SimpleZigBeePacket) (start i : Int),
      (setFrameDataLoop p start i f).memoryArrayLength
          ≤ max p.memoryArrayLength p.maxFrameLength
        ∧ (setFrameDataLoop p start i f).checksum = p.checksum
        ∧ ((setFrameDataLoop p start i f).errorCode = p.errorCode
            ∨ (setFrameDataLoop p start i f).errorCode = ERROR_REALLOCATING_MEMORY
            ∨ (setFrameDataLoop p start i f).errorCode = MAX_FRAME_LENGTH_EXCEEDED) := by
  induction f with
  | nil =>
    intro p start i
    exact ⟨le_max_left _ _, rfl, Or.inl rfl⟩
  | cons b f ih =>
    intro p start i
    obtain ⟨m1, _, _, _⟩ := setMemoryData_keeps p (start + i) b
    obtain ⟨n1, n2, n3⟩ := setMemoryData_bounds p (start + i) b
    obtain ⟨i1, i2, i3⟩ := ih (p.setMemoryData (start + i) b) start (i + 1)
    simp only [setFrameDataLoop]
    rw [m1] at i1
    refine ⟨le_trans i1 (max_le n1 (le_max_right _ _)), by rw [i2, n2], ?_⟩
    rcases i3 with i3 | i3 | i3
    · rw [i3]
      exact n3
    · exact Or.inr (Or.inl i3)
    · exact Or.inr (Or.inr i3)

/-- Whatever its arguments, `setFrameData` leaves the block no larger than the
larger of its old size and the limit, keeps the checksum, either keeps the error
code or records one of its own two, and does not lower the frame length nor
raise it above the larger of its old value and the limit. -/
theorem setFrameData_bounds (p : SimpleZigBeePacket) (i : Int) (b : Nat) :
    (p.setFrameData i b).memoryArrayLength ≤ max p.memoryArrayLength p.maxFrameLength
      ∧ (p.setFrameData i b).checksum = p.checksum
      ∧ ((p.setFrameData i b).errorCode = p.errorCode
          ∨ (p.setFrameData i b).errorCode = ERROR_REALLOCATING_MEMORY
          ∨ (p.setFrameData i b).errorCode = MAX_FRAME_LENGTH_EXCEEDED)
      ∧ p.frameLength ≤ (p.setFrameData i b).frameLength
      ∧ (p.setFrameData i b).frameLength ≤ max p.frameLength p.maxFrameLength := by
  obtain ⟨_, m2, _, _⟩ := setMemoryData_keeps p i b
  obtain ⟨n1, n2, n3⟩ := setMemoryData_bounds p i b
  unfold setFrameData getMaxFrameLength
  by_cases hM : i < p.maxFrameLength
  · simp only [hM, if_true, getFrameLength, setFrameLength]
    rw [m2]
    by_cases hL : i + 1 > p.frameLength
    · simp only [hL, if_true]
      exact ⟨n1, n2, n3, by omega, le_trans (by omega) (le_max_right _ _)⟩
    · simp only [hL, if_false]
      exact ⟨n1, n2, n3, by rw [m2], by rw [m2]; exact le_max_left _ _⟩
  · rw [if_neg hM]
    exact ⟨le_max_left _ _, rfl, Or.inr (Or.inr rfl), le_refl _, le_max_left _ _⟩

/-- The same for the array write. -/
theorem setFrameDataArray_bounds (p : SimpleZigBeePacket) (start : Int) (f : List Nat)
    (n : Int) :
    (p.setFrameDataArray start f n).memoryArrayLength
        ≤ max p.memoryArrayLength p.maxFrameLength
      ∧ (p.setFrameDataArray start f n).checksum = p.checksum
      ∧ ((p.setFrameDataArray start f n).errorCode = p.errorCode
          ∨ (p.setFrameDataArray start f n).errorCode = ERROR_REALLOCATING_MEMORY
          ∨ (p.setFrameDataArray start f n).errorCode = MAX_FRAME_LENGTH_EXCEEDED)
      ∧ (p.setFrameDataArray start f n).frameLength ≤ max p.frameLength p.maxFrameLength := by
  unfold setFrameDataArray getMaxFrameLength
  by_cases hM : start + (n - 1) < p.maxFrameLength
  · obtain ⟨e1, e2, e3, _⟩ := expandMemoryArray_keeps p (start + (n - 1) + 10)
    obtain ⟨b1, b2, b3⟩ := expandMemoryArray_bounds p (start + (n - 1) + 10)
    obtain ⟨_, l2, _, _⟩ := setFrameDataLoop_keeps (f.take n.toNat)
      (p.expandMemoryArray (start + (n - 1) + 10)) start 0
    obtain ⟨c1, c2, c3⟩ := setFrameDataLoop_bounds (f.take n.toNat)
      (p.expandMemoryArray (start + (n - 1) + 10)) start 0
    rw [e1] at c1
    have hcap := le_trans c1 (max_le b1 (le_max_right _ _))
    have herr : (setFrameDataLoop (p.expandMemoryArray (start + (n - 1) + 10)) start 0
          (f.take n.toNat)).errorCode = p.errorCode
        ∨ (setFrameDataLoop (p.expandMemoryArray (start + (n - 1) + 10)) start 0
          (f.take n.toNat)).errorCode = ERROR_REALLOCATING_MEMORY
        ∨ (setFrameDataLoop (p.expandMemoryArray (start + (n - 1) + 10)) start 0
          (f.take n.toNat)).errorCode = MAX_FRAME_LENGTH_EXCEEDED := by
      rcases c3 with c3 | c3 | c3
      · rw [c3]
        rcases b3 with b3 | b3
        · exact Or.inl b3
        · exact Or.inr (Or.inl b3)
      · exact Or.inr (Or.inl c3)
      · exact Or.inr (Or.inr c3)
    simp only [hM, if_true, getFrameLength, setFrameLength]
    rw [l2, e2]
    by_cases hL : start + (n - 1) + 1 > p.frameLength
    · simp only [hL, if_true]
      exact ⟨hcap, by rw [c2, b2], herr, le_trans (by omega) (le_max_right _ _)⟩
    · simp only [hL, if_false]
      exact ⟨hcap, by rw [c2, b2], herr, by rw [l2, e2]; exact le_max_left _ _⟩
  · rw [if_neg hM]
    exact ⟨le_max_left _ _, rfl, Or.inr (Or.inr rfl), le_max_left _ _⟩

/-- A read of a frame byte leaves the packet as it is or records
`FRAME_LENGTH_EXCEEDED`, the latter exactly when the index is not below the
frame length. -/
theorem getFrameData_state (p : SimpleZigBeePacket) (i : Int) :
    (i < p.frameLength → (p.getFrameData i).2 = p)
      ∧ (p.frameLength ≤ i → (p.getFrameData i).2 = p.setErrorCode FRAME_LENGTH_EXCEEDED) := by
  unfold getFrameData getFrameLength
  constructor
  · intro h
    rw [if_pos h]
  · intro h
    rw [if_neg (by omega)]

/-- The same for the array read. -/
theorem getFrameDataArray_state (p : SimpleZigBeePacket) (start n : Int) :
    (start + (n - 1) < p.frameLength → (p.getFrameDataArray start n).2 = p)
      ∧ (p.frameLength ≤ start + (n - 1) →
          (p.getFrameDataArray start n).2 = p.setErrorCode FRAME_LENGTH_EXCEEDED) := by
  unfold getFrameDataArray getFrameLength
  constructor
  · intro h
    rw [if_pos h]
  · intro h
    rw [if_neg (by omega)]

end SimpleZigBeePacket

/-- What a step of a packet method can change: the limit stays; the block does
not shrink and does not grow beyond the larger of its old size and the limit; a
step other than a length setter keeps a frame length that is not negative so and
does not raise it above the larger of its old value and the limit; a step other
than `reset` and `setErrorCode` keeps the error code or records
`ERROR_REALLOCATING_MEMORY`, `MAX_FRAME_LENGTH_EXCEEDED` or
`FRAME_LENGTH_EXCEEDED`. -/
theorem PacketStep.step_bounds (p : SimpleZigBeePacket) (s : PacketStep) :
    (PacketStep.run p s).maxFrameLength = p.maxFrameLength
      ∧ p.memoryArrayLength ≤ (PacketStep.run p s).memoryArrayLength
      ∧ (PacketStep.run p s).memoryArrayLength ≤ max p.memoryArrayLength p.maxFrameLength
      ∧ (s.setsLength = false → 0 ≤ p.frameLength →
          0 ≤ (PacketStep.run p s).frameLength
            ∧ (PacketStep.run p s).frameLength ≤ max p.frameLength p.maxFrameLength)
      ∧ (s.assignsError = false →
          (PacketStep.run p s).errorCode = p.errorCode
            ∨ (PacketStep.run p s).errorCode = ERROR_REALLOCATING_MEMORY
            ∨ (PacketStep.run p s).errorCode = MAX_FRAME_LENGTH_EXCEEDED
            ∨ (PacketStep.run p s).errorCode = FRAME_LENGTH_EXCEEDED) := by
  cases s with
  | reset =>
    refine ⟨rfl, le_refl _, le_max_left _ _, fun _ h0 => ⟨le_refl _, ?_⟩, fun h => ?_⟩
    · exact le_trans h0 (le_max_left _ _)
    · simp [PacketStep.assignsError] at h
  | expandMemoryArray size =>
    obtain ⟨e1, e2, e3, _⟩ := SimpleZigBeePacket.expandMemoryArray_keeps p size
    obtain ⟨b1, _, b3⟩ := SimpleZigBeePacket.expandMemoryArray_bounds p size
    refine ⟨e1, e3, b1, fun _ h0 => ?_, fun _ => ?_⟩
    · simp only [PacketStep.run]
      rw [e2]
      exact ⟨h0, le_max_left _ _⟩
    · rcases b3 with b3 | b3
      · exact Or.inl b3
      · exact Or.inr (Or.inl b3)
  | setMemoryData index byte =>
    obtain ⟨e1, e2, e3, _⟩ := SimpleZigBeePacket.setMemoryData_keeps p index byte
    obtain ⟨b1, _, b3⟩ := SimpleZigBeePacket.setMemoryData_bounds p index byte
    refine ⟨e1, e3, b1, fun _ h0 => ?_, fun _ => ?_⟩
    · simp only [PacketStep.run]
      rw [e2]
      exact ⟨h0, le_max_left _ _⟩
    · rcases b3 with b3 | b3 | b3
      · exact Or.inl b3
      · exact Or.inr (Or.inl b3)
      · exact Or.inr (Or.inr (Or.inl b3))
  | setFrameLength frameLength =>
    refine ⟨rfl, le_refl _, le_max_left _ _, fun h => ?_, fun _ => Or.inl rfl⟩
    simp [PacketStep.setsLength] at h
  | setFrameLengthMSB msb =>
    refine ⟨rfl, le_refl _, le_max_left _ _, fun h => ?_, fun _ => Or.inl rfl⟩
    simp [PacketStep.setsLength] at h
  | setFrameLengthLSB lsb =>
    refine ⟨rfl, le_refl _, le_max_left _ _, fun h => ?_, fun _ => Or.inl rfl⟩
    simp [PacketStep.setsLength] at h
  | setChecksum checksum =>
    exact ⟨rfl, le_refl _, le_max_left _ _, fun _ h0 => ⟨h0, le_max_left _ _⟩,
      fun _ => Or.inl rfl⟩
  | setFrameData index byte =>
    obtain ⟨e1, e3⟩ := SimpleZigBeePacket.setFrameData_keeps p index byte
    obtain ⟨b1, _, b3, b4, b5⟩ := SimpleZigBeePacket.setFrameData_bounds p index byte
    refine ⟨e1, e3, b1, fun _ h0 => ⟨le_trans h0 b4, b5⟩, fun _ => ?_⟩
    rcases b3 with b3 | b3 | b3
    · exact Or.inl b3
    · exact Or.inr (Or.inl b3)
    · exact Or.inr (Or.inr (Or.inl b3))
  | setFrameDataArray startIndex frameData frameDataLength =>
    obtain ⟨e1, e2, e3, _⟩ :=
      SimpleZigBeePacket.setFrameDataArray_keeps p startIndex frameData frameDataLength
    obtain ⟨b1, _, b3, b5⟩ :=
      SimpleZigBeePacket.setFrameDataArray_bounds p startIndex frameData frameDataLength
    refine ⟨e1, e3, b1, fun _ h0 => ⟨le_trans h0 e2, b5⟩, fun _ => ?_⟩
    rcases b3 with b3 | b3 | b3
    · exact Or.inl b3
    · exact Or.inr (Or.inl b3)
    · exact Or.inr (Or.inr (Or.inl b3))
  | getFrameData index =>
    obtain ⟨g1, g2⟩ := SimpleZigBeePacket.getFrameData_state p index
    simp only [PacketStep.run]
    by_cases h : index < p.frameLength
    · rw [g1 h]
      exact ⟨rfl, le_refl _, le_max_left _ _, fun _ h0 => ⟨h0, le_max_left _ _⟩,
        fun _ => Or.inl rfl⟩
    · rw [g2 (by omega)]
      exact ⟨rfl, le_refl _, le_max_left _ _, fun _ h0 => ⟨h0, le_max_left _ _⟩,
        fun _ => Or.inr (Or.inr (Or.inr rfl))⟩
  | getFrameDataArray startIndex frameDataLength =>
    obtain ⟨g1, g2⟩ :=
      SimpleZigBeePacket.getFrameDataArray_state p startIndex frameDataLength
    simp only [PacketStep.run]
    by_cases h : startIndex + (frameDataLength - 1) < p.frameLength
    · rw [g1 h]
      exact ⟨rfl, le_refl _, le_max_left _ _, fun _ h0 => ⟨h0, le_max_left _ _⟩,
        fun _ => Or.inl rfl⟩
    · rw [g2 (by omega)]
      exact ⟨rfl, le_refl _, le_max_left _ _, fun _ h0 => ⟨h0, le_max_left _ _⟩,
        fun _ => Or.inr (Or.inr (Or.inr rfl))⟩
  | setErrorCode errorCode =>
    refine ⟨rfl, le_refl _, le_max_left _ _, fun _ h0 => ⟨h0, le_max_left _ _⟩, fun h => ?_⟩
    simp [PacketStep.assignsError] at h

/-- The same for a sequence of steps. -/
theorem PacketStep.foldl_run_bounds (ss : List PacketStep) :
    ∀ p : SimpleZigBeePacket,
      (ss.foldl PacketStep.run p).maxFrameLength = p.maxFrameLength
        ∧ p.memoryArrayLength ≤ (ss.foldl PacketStep.run p).memoryArrayLength
        ∧ (ss.foldl PacketStep.run p).memoryArrayLength
            ≤ max p.memoryArrayLength p.maxFrameLength
        ∧ ((∀ s ∈ ss, s.setsLength = false) → 0 ≤ p.frameLength →
            0 ≤ (ss.foldl PacketStep.run p).frameLength
              ∧ (ss.foldl PacketStep.run p).frameLength
                  ≤ max p.frameLength p.maxFrameLength)
        ∧ ((∀ s ∈ ss, s.assignsError = false) →
            (ss.foldl PacketStep.run p).errorCode = p.errorCode
              ∨ (ss.foldl PacketStep.run p).errorCode = ERROR_REALLOCATING_MEMORY
              ∨ (ss.foldl PacketStep.run p).errorCode = MAX_FRAME_LENGTH_EXCEEDED
              ∨ (ss.foldl PacketStep.run p).errorCode = FRAME_LENGTH_EXCEEDED) := by
  induction ss with
  | nil =>
    intro p
    exact ⟨rfl, le_refl _, le_max_left _ _, fun _ h0 => ⟨h0, le_max_left _ _⟩,
      fun _ => Or.inl rfl⟩
  | cons s ss ih =>
    intro p
    obtain ⟨a1, a2, a3, a4, a5⟩ := PacketStep.step_bounds p s
    obtain ⟨i1, i2, i3, i4, i5⟩ := ih (PacketStep.run p s)
    simp only [List.foldl_cons]
    rw [a1] at i3 i4
    refine ⟨by rw [i1, a1], le_trans a2 i2, le_trans i3 (max_le a3 (le_max_right _ _)), ?_, ?_⟩
    · intro hs h0
      obtain ⟨x1, x2⟩ := a4 (hs s (List.mem_cons_self _ _)) h0
      obtain ⟨y1, y2⟩ := i4 (fun t ht => hs t (List.mem_cons_of_mem _ ht)) x1
      exact ⟨y1, le_trans y2 (max_le x2 (le_max_right _ _))⟩
    · intro hs
      have x := a5 (hs s (List.mem_cons_self _ _))
      rcases i5 (fun t ht => hs t (List.mem_cons_of_mem _ ht)) with y | y | y | y
      · rw [y]
        exact x
      · exact Or.inr (Or.inl y)
      · exact Or.inr (Or.inr (Or.inl y))
      · exact Or.inr (Or.inr (Or.inr y))

/-- The same for a call of a packet method. -/
theorem PacketCall.call_bounds (p : SimpleZigBeePacket) (c : PacketCall) :
    (PacketCall.run p c).maxFrameLength = p.maxFrameLength
      ∧ p.memoryArrayLength ≤ (PacketCall.run p c).memoryArrayLength
      ∧ (PacketCall.run p c).memoryArrayLength ≤ max p.memoryArrayLength p.maxFrameLength
      ∧ (c.setsLength = false → 0 ≤ p.frameLength →
          0 ≤ (PacketCall.run p c).frameLength
            ∧ (PacketCall.run p c).frameLength ≤ max p.frameLength p.maxFrameLength)
      ∧ (c.assignsError = false →
          (PacketCall.run p c).errorCode = p.errorCode
            ∨ (PacketCall.run p c).errorCode = ERROR_REALLOCATING_MEMORY
            ∨ (PacketCall.run p c).errorCode = MAX_FRAME_LENGTH_EXCEEDED
            ∨ (PacketCall.run p c).errorCode = FRAME_LENGTH_EXCEEDED) := by
  obtain ⟨a1, a2, a3, a4, a5⟩ := PacketStep.foldl_run_bounds c.steps p
  rw [PacketCall.run_eq_steps]
  exact ⟨a1, a2, a3, fun h => a4 (PacketCall.steps_setsLength c h),
    fun h => a5 (PacketCall.steps_assignsError c h)⟩

/-- Over a sequence of calls of packet methods the limit stays, the block does
not shrink and does not grow beyond the larger of its old size and the limit. -/
theorem PacketCall.foldl_run_capacity (cs : List PacketCall) :
    ∀ p : SimpleZigBeePacket,
      (cs.foldl PacketCall.run p).maxFrameLength = p.maxFrameLength
        ∧ p.memoryArrayLength ≤ (cs.foldl PacketCall.run p).memoryArrayLength
        ∧ (cs.foldl PacketCall.run p).memoryArrayLength
            ≤ max p.memoryArrayLength p.maxFrameLength := by
  induction cs with
  | nil =>
    intro p
    exact ⟨rfl, le_refl _, le_max_left _ _⟩
  | cons c cs ih =>
    intro p
    obtain ⟨a1, a2, a3, _, _⟩ := PacketCall.call_bounds p c
    obtain ⟨i1, i2, i3⟩ := ih (PacketCall.run p c)
    simp only [List.foldl_cons]
    rw [a1] at i3
    exact ⟨by rw [i1, a1], le_trans a2 i2, le_trans i3 (max_le a3 (le_max_right _ _))⟩

/-! ## Lemmas on the frame length of the incoming packet -/

namespace SimpleZigBeeRadio

/-- The length-byte setters leave a frame length between 0 and 65535. -/
theorem setFrameLengthBytes_range (p : SimpleZigBeePacket) (b : Nat) :
    (p.setFrameLengthMSB b).maxFrameLength = p.maxFrameLength
      ∧ 0 ≤ (p.setFrameLengthMSB b).frameLength
      ∧ (p.setFrameLengthMSB b).frameLength ≤ 65535
      ∧ (p.setFrameLengthLSB b).maxFrameLength = p.maxFrameLength
      ∧ 0 ≤ (p.setFrameLengthLSB b).frameLength
      ∧ (p.setFrameLengthLSB b).frameLength ≤ 65535 := by
  simp only [SimpleZigBeePacket.setFrameLengthMSB, SimpleZigBeePacket.setFrameLengthLSB,
    SimpleZigBeePacket.setFrameLength, SimpleZigBeePacket.getLengthLSB,
    SimpleZigBeePacket.getLengthMSB, SimpleZigBeePacket.getFrameLength]
  refine ⟨trivial, ?_, ?_, trivial, ?_, ?_⟩ <;> omega

/-- A dispatch keeps the frame length of the incoming packet between 0 and the
larger of 65535 and the limit. -/
theorem readDispatch_frameLength (r : SimpleZigBeeRadio)
    (h : 0 ≤ r.incoming_packet.frameLength
      ∧ r.incoming_packet.frameLength ≤ max 65535 r.incoming_packet.maxFrameLength) :
    0 ≤ r.readDispatch.1.incoming_packet.frameLength
      ∧ r.readDispatch.1.incoming_packet.frameLength
          ≤ max 65535 r.readDispatch.1.incoming_packet.maxFrameLength := by
  obtain ⟨h0, h1⟩ := h
  rcases readDispatch_cases r with
    ⟨_, _, e⟩ | ⟨_, _, e⟩ | ⟨_, e⟩ | ⟨_, e⟩ | ⟨_, _, _, _, e⟩ | ⟨_, _, _, _, _, _, _, e⟩
      | ⟨_, _, _, _, _, e⟩
  · rw [e]
    exact ⟨h0, h1⟩
  · rw [e]
    exact ⟨h0, h1⟩
  · rw [e]
    obtain ⟨a1, a2, a3, _, _, _⟩ := setFrameLengthBytes_range r.incoming_packet r.in_byte
    exact ⟨a2, le_trans a3 (le_max_left _ _)⟩
  · rw [e]
    obtain ⟨_, _, _, a1, a2, a3⟩ := setFrameLengthBytes_range r.incoming_packet r.in_byte
    exact ⟨a2, le_trans a3 (le_max_left _ _)⟩
  · rw [e]
    exact ⟨h0, h1⟩
  · rcases e with e | e
    · rw [e]
      exact ⟨h0, h1⟩
    · rw [e]
      exact ⟨h0, h1⟩
  · rw [e]
    obtain ⟨k1, _⟩ := SimpleZigBeePacket.setFrameData_keeps r.incoming_packet
      (r.in_index - 3) r.in_byte
    obtain ⟨_, _, _, b4, b5⟩ := SimpleZigBeePacket.setFrameData_bounds r.incoming_packet
      (r.in_index - 3) r.in_byte
    simp only
    rw [k1]
    exact ⟨le_trans h0 b4, le_trans b5 (max_le h1 (le_max_right _ _))⟩

/-- A call of `read()` keeps the frame length of the incoming packet between 0
and the larger of 65535 and the limit. -/
theorem read_frameLength (r : SimpleZigBeeRadio) (s : List Nat)
    (h : 0 ≤ r.incoming_packet.frameLength
      ∧ r.incoming_packet.frameLength ≤ max 65535 r.incoming_packet.maxFrameLength) :
    0 ≤ (r.read s).1.incoming_packet.frameLength
      ∧ (r.read s).1.incoming_packet.frameLength
          ≤ max 65535 (r.read s).1.incoming_packet.maxFrameLength :=
  read_preserves
    (fun q => 0 ≤ q.incoming_packet.frameLength
      ∧ q.incoming_packet.frameLength ≤ max 65535 q.incoming_packet.maxFrameLength)
    readDispatch_frameLength (fun _ _ _ hq => hq) (fun _ _ hq => hq)
    (fun _ _ => ⟨le_refl _, le_trans (show (0 : Int) ≤ 65535 by decide) (le_max_left _ _)⟩)
    (fun _ _ => ⟨le_refl _, le_trans (show (0 : Int) ≤ 65535 by decide) (le_max_left _ _)⟩)
    r s h

/-- A call of `read()` keeps the limit of the incoming packet. -/
theorem read_maxFrameLength (r : SimpleZigBeeRadio) (s : List Nat) :
    (r.read s).1.incoming_packet.maxFrameLength = r.incoming_packet.maxFrameLength := by
  refine read_preserves
    (fun q => q.incoming_packet.maxFrameLength = r.incoming_packet.maxFrameLength)
    ?_ (fun _ _ _ hq => hq) (fun _ _ hq => hq) (fun _ hq => hq) (fun _ hq => hq) r s rfl
  intro q hq
  rcases readDispatch_cases q with
    ⟨_, _, e⟩ | ⟨_, _, e⟩ | ⟨_, e⟩ | ⟨_, e⟩ | ⟨_, _, _, _, e⟩ | ⟨_, _, _, _, _, _, _, e⟩
      | ⟨_, _, _, _, _, e⟩
  · rw [e]
    exact hq
  · rw [e]
    exact hq
  · rw [e]
    exact hq
  · rw [e]
    exact hq
  · rw [e]
    exact hq
  · rcases e with e | e
    · rw [e]
      exact hq
    · rw [e]
      exact hq
  · rw [e]
    obtain ⟨k1, _⟩ := SimpleZigBeePacket.setFrameData_keeps q.incoming_packet
      (q.in_index - 3) q.in_byte
    simp only
    rw [k1]
    exact hq

end SimpleZigBeeRadio

/-- Over a sequence of calls of packet methods none of which is a length setter,
a frame length between 0 and the limit stays so; the same holds with the larger
of 65535 and the limit as the upper bound. -/
theorem PacketCall.foldl_run_frameLength (cs : List PacketCall) :
    ∀ p : SimpleZigBeePacket, (∀ c ∈ cs, c.setsLength = false) → 0 ≤ p.frameLength →
      0 ≤ (cs.foldl PacketCall.run p).frameLength
        ∧ (p.frameLength ≤ p.maxFrameLength →
            (cs.foldl PacketCall.run p).frameLength
              ≤ (cs.foldl PacketCall.run p).maxFrameLength)
        ∧ (p.frameLength ≤ max 65535 p.maxFrameLength →
            (cs.foldl PacketCall.run p).frameLength
              ≤ max 65535 (cs.foldl PacketCall.run p).maxFrameLength) := by
  induction cs with
  | nil =>
    intro p _ h0
    exact ⟨h0, fun h => h, fun h => h⟩
  | cons c cs ih =>
    intro p hs h0
    obtain ⟨a1, _, _, a4, _⟩ := PacketCall.call_bounds p c
    obtain ⟨x1, x2⟩ := a4 (hs c (List.mem_cons_self _ _)) h0
    obtain ⟨i1, i2, i3⟩ := ih (PacketCall.run p c)
      (fun t ht => hs t (List.mem_cons_of_mem _ ht)) x1
    simp only [List.foldl_cons]
    rw [a1] at i2 i3
    refine ⟨i1, fun h => i2 (le_trans x2 (max_le h (le_refl _))), fun h => i3 ?_⟩
    exact le_trans x2 (max_le h (le_max_right _ _))

/-- Over a sequence of `read()` calls a frame length of the incoming packet
between 0 and the larger of 65535 and the limit stays so, and the limit stays. -/
theorem SimpleZigBeeRadio.foldl_read_frameLength (serials : List (List Nat)) :
    ∀ r : SimpleZigBeeRadio,
      0 ≤ r.incoming_packet.frameLength
        ∧ r.incoming_packet.frameLength ≤ max 65535 r.incoming_packet.maxFrameLength →
      (serials.foldl (fun q s => (q.read s).1) r).incoming_packet.maxFrameLength
          = r.incoming_packet.maxFrameLength
        ∧ 0 ≤ (serials.foldl (fun q s => (q.read s).1) r).incoming_packet.frameLength
        ∧ (serials.foldl (fun q s => (q.read s).1) r).incoming_packet.frameLength
            ≤ max 65535 r.incoming_packet.maxFrameLength := by
  induction serials with
  | nil =>
    intro r h
    exact ⟨rfl, h.1, h.2⟩
  | cons s serials ih =>
    intro r h
    have hm := SimpleZigBeeRadio.read_maxFrameLength r s
    obtain ⟨i1, i2, i3⟩ := ih (r.read s).1 (SimpleZigBeeRadio.read_frameLength r s h)
    simp only [List.foldl_cons]
    rw [hm] at i1 i3
    exact ⟨i1, i2, i3⟩

/-- C32 fails in the code: the constructor allocates a block of 20 bytes
whatever the limit is.  The packet constructed with `maxFrameLength = 10` has
capacity 20, above its limit, before any operation; the same holds for every
limit below 20. -/
theorem C32_initial_capacity_exceeds_limit :
    (0 : Int) < 10
      ∧ (SimpleZigBeePacket.construct 10 [] true).getMaxFrameLength = 10
      ∧ (SimpleZigBeePacket.construct 10 [] true).memoryArrayLength = 20
      ∧ ¬ ((SimpleZigBeePacket.construct 10 [] true).memoryArrayLength
            ≤ (SimpleZigBeePacket.construct 10 [] true).getMaxFrameLength)
      ∧ (∀ (M : Int) (junk : List Nat) (realloc : Bool),
          (SimpleZigBeePacket.construct M junk realloc).getMaxFrameLength = M
            ∧ (SimpleZigBeePacket.construct M junk realloc).memoryArrayLength = 20) := by
  refine ⟨by decide, by decide!, by decide!, by decide!, ?_⟩
  intro M junk realloc
  refine ⟨rfl, ?_⟩
  simp [SimpleZigBeePacket.construct, SimpleZigBeePacket.init,
    SimpleZigBeePacket.memoryArrayLength]

/-- The capacity over sequences of calls.  For every limit `M` given at
construction, every content of the fresh block, either answer of the allocator
and every sequence of calls of packet methods: the constructed packet has
capacity 20; after the sequence the limit is still `M` and the capacity lies
between 20 and the larger of 20 and `M`, so it does not exceed `M` when `M >= 20`;
one more call does not decrease the capacity.  For an arbitrary packet state a
call keeps the limit, does not decrease the capacity and does not raise it above
the larger of its old value and the limit. -/
theorem capacity_over_calls (M : Int) (junk : List Nat) (realloc : Bool)
    (calls : List PacketCall) (c : PacketCall) :
    (SimpleZigBeePacket.construct M junk realloc).memoryArrayLength = 20
      ∧ (calls.foldl PacketCall.run
          (SimpleZigBeePacket.construct M junk realloc)).getMaxFrameLength = M
      ∧ 20 ≤ (calls.foldl PacketCall.run
          (SimpleZigBeePacket.construct M junk realloc)).memoryArrayLength
      ∧ (calls.foldl PacketCall.run
          (SimpleZigBeePacket.construct M junk realloc)).memoryArrayLength ≤ max 20 M
      ∧ (20 ≤ M →
          (calls.foldl PacketCall.run
            (SimpleZigBeePacket.construct M junk realloc)).memoryArrayLength ≤ M)
      ∧ (calls.foldl PacketCall.run
            (SimpleZigBeePacket.construct M junk realloc)).memoryArrayLength
          ≤ (PacketCall.run (calls.foldl PacketCall.run
              (SimpleZigBeePacket.construct M junk realloc)) c).memoryArrayLength
      ∧ (∀ (p : SimpleZigBeePacket) (d : PacketCall),
          (PacketCall.run p d).getMaxFrameLength = p.getMaxFrameLength
            ∧ p.memoryArrayLength ≤ (PacketCall.run p d).memoryArrayLength
            ∧ (PacketCall.run p d).memoryArrayLength
                ≤ max p.memoryArrayLength p.getMaxFrameLength) := by
  have h20 : (SimpleZigBeePacket.construct M junk realloc).memoryArrayLength = 20 := by
    simp [SimpleZigBeePacket.construct, SimpleZigBeePacket.init,
      SimpleZigBeePacket.memoryArrayLength]
  have hM : (SimpleZigBeePacket.construct M junk realloc).maxFrameLength = M := rfl
  obtain ⟨a1, a2, a3⟩ := PacketCall.foldl_run_capacity calls
    (SimpleZigBeePacket.construct M junk realloc)
  obtain ⟨_, b2, _, _, _⟩ := PacketCall.call_bounds
    (calls.foldl PacketCall.run (SimpleZigBeePacket.construct M junk realloc)) c
  rw [h20] at a2 a3
  rw [hM] at a1 a3
  refine ⟨h20, a1, a2, a3, fun h => ?_, b2, fun p d => ?_⟩
  · exact le_trans a3 (max_le h (le_refl _))
  · obtain ⟨c1, c2, c3, _, _⟩ := PacketCall.call_bounds p d
    exact ⟨c1, c2, c3⟩

/-- C34, as stated, fails: the default session (limit 50) reads `7E 01 00`, the
start byte and the length bytes of a packet that declares 256 frame bytes.  The
decoder assigns the declared length to the incoming packet, whose frame length
is then 256, above the limit, with no error recorded; after `7E FF FF` it is
65535. -/
theorem C34_frame_length_counterexample :
    (defaultSession.read [0x7E, 0x01, 0x00]).1.incoming_packet.getMaxFrameLength = 50
      ∧ (defaultSession.read [0x7E, 0x01, 0x00]).1.incoming_packet.getFrameLength = 256
      ∧ ¬ ((defaultSession.read [0x7E, 0x01, 0x00]).1.incoming_packet.getFrameLength
            ≤ (defaultSession.read [0x7E, 0x01, 0x00]).1.incoming_packet.getMaxFrameLength)
      ∧ (defaultSession.read [0x7E, 0x01, 0x00]).1.incoming_packet.getErrorCode = NO_ERROR
      ∧ (defaultSession.read [0x7E, 0xFF, 0xFF]).1.incoming_packet.getFrameLength
          = 65535 := by
  decide!

/-- C34 (amended).  A packet constructed with a limit `M >= 0` keeps
`0 <= frameLength <= M` over every sequence of calls of packet methods other than
the length setters `setFrameLength`, `setFrameLengthMSB`, `setFrameLengthLSB`.
The decoder assigns the frame length from the length bytes of the wire without
comparing it with the limit: the incoming packet of a constructed session
(limit 50) keeps `0 <= frameLength <= 65535` over every sequence of `read()`
calls on arbitrary input.  For an arbitrary session or packet with
`0 <= frameLength <= max(65535, M)`, a `read()` call and a call of a packet method
other than a length setter keep these bounds, so they hold under every
interleaving of the two. -/
theorem C34_frame_length_bounds (M : Int) (junk : List Nat) (realloc : Bool)
    (calls : List PacketCall) (mode : Bool) (junkIn junkOut : List Nat)
    (serials : List (List Nat))
    (hM : 0 ≤ M) (hc : ∀ c ∈ calls, c.setsLength = false) :
    (0 ≤ (calls.foldl PacketCall.run
          (SimpleZigBeePacket.construct M junk realloc)).getFrameLength
        ∧ (calls.foldl PacketCall.run
            (SimpleZigBeePacket.construct M junk realloc)).getFrameLength
          ≤ (calls.foldl PacketCall.run
              (SimpleZigBeePacket.construct M junk realloc)).getMaxFrameLength)
      ∧ (0 ≤ (serials.foldl (fun q s => (q.read s).1)
            (SimpleZigBeeRadio.construct mode junkIn junkOut
              realloc)).incoming_packet.getFrameLength
          ∧ (serials.foldl (fun q s => (q.read s).1)
              (SimpleZigBeeRadio.construct mode junkIn junkOut
                realloc)).incoming_packet.getFrameLength ≤ 65535)
      ∧ (∀ (r : SimpleZigBeeRadio) (s : List Nat),
          0 ≤ r.incoming_packet.getFrameLength →
          r.incoming_packet.getFrameLength
            ≤ max 65535 r.incoming_packet.getMaxFrameLength →
          (r.read s).1.incoming_packet.getMaxFrameLength
              = r.incoming_packet.getMaxFrameLength
            ∧ 0 ≤ (r.read s).1.incoming_packet.getFrameLength
            ∧ (r.read s).1.incoming_packet.getFrameLength
                ≤ max 65535 r.incoming_packet.getMaxFrameLength)
      ∧ (∀ (p : SimpleZigBeePacket) (d : PacketCall), d.setsLength = false →
          0 ≤ p.getFrameLength → p.getFrameLength ≤ max 65535 p.getMaxFrameLength →
          (PacketCall.run p d).getMaxFrameLength = p.getMaxFrameLength
            ∧ 0 ≤ (PacketCall.run p d).getFrameLength
            ∧ (PacketCall.run p d).getFrameLength ≤ max 65535 p.getMaxFrameLength) := by
  refine ⟨?_, ?_, ?_, ?_⟩
  · obtain ⟨a1, a2, _⟩ := PacketCall.foldl_run_frameLength calls
      (SimpleZigBeePacket.construct M junk realloc) hc (le_refl _)
    exact ⟨a1, a2 hM⟩
  · obtain ⟨_, a2, a3⟩ := SimpleZigBeeRadio.foldl_read_frameLength serials
      (SimpleZigBeeRadio.construct mode junkIn junkOut realloc)
      ⟨le_refl _, le_trans (show (0 : Int) ≤ 65535 by decide) (le_max_left _ _)⟩
    exact ⟨a2, a3⟩
  · intro r s h0 h1
    obtain ⟨a1, a2⟩ := SimpleZigBeeRadio.read_frameLength r s ⟨h0, h1⟩
    have hm := SimpleZigBeeRadio.read_maxFrameLength r s
    unfold SimpleZigBeePacket.getMaxFrameLength SimpleZigBeePacket.getFrameLength
    rw [hm] at a2
    exact ⟨hm, a1, a2⟩
  · intro p d hd h0 h1
    obtain ⟨a1, _, _, a4, _⟩ := PacketCall.call_bounds p d
    obtain ⟨x1, x2⟩ := a4 hd h0
    exact ⟨a1, x1, le_trans x2 (max_le h1 (le_max_right _ _))⟩

/-- Witness of C34: a packet with limit 50 after `setFrameData(3, 7)`, `reset()`
and `setFrameData(0, [1, 2], 2)`, and the default session after the calls
`read()` on `7E 01` and on `00`. -/
theorem C34_frame_length_bounds_witness :
    (0 ≤ ([PacketCall.setFrameData 3 7, PacketCall.reset,
          PacketCall.setFrameDataArray 0 [1, 2] 2].foldl PacketCall.run
            (SimpleZigBeePacket.construct 50 [] true)).getFrameLength
        ∧ ([PacketCall.setFrameData 3 7, PacketCall.reset,
            PacketCall.setFrameDataArray 0 [1, 2] 2].foldl PacketCall.run
              (SimpleZigBeePacket.construct 50 [] true)).getFrameLength
          ≤ ([PacketCall.setFrameData 3 7, PacketCall.reset,
              PacketCall.setFrameDataArray 0 [1, 2] 2].foldl PacketCall.run
                (SimpleZigBeePacket.construct 50 [] true)).getMaxFrameLength)
      ∧ (0 ≤ ([[0x7E, 0x01], [0x00]].foldl (fun q s => (q.read s).1)
            (SimpleZigBeeRadio.construct true [] [] true)).incoming_packet.getFrameLength
          ∧ ([[0x7E, 0x01], [0x00]].foldl (fun q s => (q.read s).1)
              (SimpleZigBeeRadio.construct true [] []
                true)).incoming_packet.getFrameLength ≤ 65535) :=
  have h := C34_frame_length_bounds 50 [] true
    [PacketCall.setFrameData 3 7, PacketCall.reset, PacketCall.setFrameDataArray 0 [1, 2] 2]
    true [] [] [[0x7E, 0x01], [0x00]] (by decide) (by simp [PacketCall.setsLength])
  ⟨h.1, h.2.1⟩

/-- C35 (sticky error).  For every packet whose error code is set and every call
of a packet method other than `init`, `reset` and `setErrorCode` (every getter
and setter of frame data in both forms, of the length and of the checksum,
`calculateChecksum`, and every field encoder and decoder of a frame type):
`isError()` is still true after the call, and the error code is the old one or
the code the call recorded, `ERROR_REALLOCATING_MEMORY`,
`MAX_FRAME_LENGTH_EXCEEDED` or `FRAME_LENGTH_EXCEEDED`.  A failing call records its
own code whatever the old one was: a read at or beyond the frame length returns
the default and records `FRAME_LENGTH_EXCEEDED`, a write at or beyond the limit is
dropped and records `MAX_FRAME_LENGTH_EXCEEDED`, a write for which the allocator
refuses to grow the block records `ERROR_REALLOCATING_MEMORY`.  `reset()` clears
the code. -/
theorem C35_sticky_error (p : SimpleZigBeePacket) (c : PacketCall)
    (hc : c.assignsError = false) (he : p.isError = true) :
    (PacketCall.run p c).isError = true
      ∧ ((PacketCall.run p c).getErrorCode = p.getErrorCode
          ∨ (PacketCall.run p c).getErrorCode = ERROR_REALLOCATING_MEMORY
          ∨ (PacketCall.run p c).getErrorCode = MAX_FRAME_LENGTH_EXCEEDED
          ∨ (PacketCall.run p c).getErrorCode = FRAME_LENGTH_EXCEEDED)
      ∧ (∀ i : Int, p.getFrameLength ≤ i →
          (p.getFrameData i).1 = 0
            ∧ (p.getFrameData i).2.getErrorCode = FRAME_LENGTH_EXCEEDED)
      ∧ (∀ start n : Int, p.getFrameLength ≤ start + (n - 1) →
          (p.getFrameDataArray start n).1 = []
            ∧ (p.getFrameDataArray start n).2.getErrorCode = FRAME_LENGTH_EXCEEDED)
      ∧ (∀ (i : Int) (b : Nat), p.getMaxFrameLength ≤ i →
          p.setFrameData i b = p.setErrorCode MAX_FRAME_LENGTH_EXCEEDED)
      ∧ (∀ (start : Int) (f : List Nat) (n : Int), p.getMaxFrameLength ≤ start + (n - 1) →
          p.setFrameDataArray start f n = p.setErrorCode MAX_FRAME_LENGTH_EXCEEDED)
      ∧ (∀ (i : Int) (b : Nat), p.memoryArrayLength ≤ i → i + 10 ≤ p.getMaxFrameLength →
          p.reallocSucceeds = false →
          (p.setFrameData i b).getErrorCode = ERROR_REALLOCATING_MEMORY)
      ∧ p.reset.getErrorCode = NO_ERROR
      ∧ p.reset.isError = false := by
  obtain ⟨_, _, _, _, a5⟩ := PacketCall.call_bounds p c
  have herr := a5 hc
  have hpos : p.errorCode > 0 := by
    simpa [SimpleZigBeePacket.isError] using he
  refine ⟨?_, herr, ?_, ?_, ?_, ?_, ?_, rfl, ?_⟩
  · simp only [SimpleZigBeePacket.isError, decide_eq_true_eq]
    rcases herr with h | h | h | h
    · rw [h]
      exact hpos
    · rw [h]
      decide
    · rw [h]
      decide
    · rw [h]
      decide
  · intro i hi
    have h : ¬ i < p.getFrameLength := by omega
    simp only [SimpleZigBeePacket.getFrameData, h, if_false]
    exact ⟨trivial, rfl⟩
  · intro start n hi
    have h : ¬ start + (n - 1) < p.getFrameLength := by omega
    simp only [SimpleZigBeePacket.getFrameDataArray, h, if_false]
    exact ⟨trivial, rfl⟩
  · intro i b hi
    have h : ¬ i < p.getMaxFrameLength := by omega
    simp only [SimpleZigBeePacket.setFrameData, h, if_false]
  · intro start f n hi
    have h : ¬ start + (n - 1) < p.getMaxFrameLength := by omega
    simp only [SimpleZigBeePacket.setFrameDataArray, h, if_false]
  · intro i b h1 h2 h3
    rw [SimpleZigBeePacket.setFrameData_realloc_fails p i b h1 h2 h3]
    rfl
  · simp [SimpleZigBeePacket.isError, SimpleZigBeePacket.reset, SimpleZigBeePacket.init,
      NO_ERROR]

/-- Witness of C35: a freshly constructed packet on which `getFrameData(0)`
failed holds `FRAME_LENGTH_EXCEEDED`; the write `setFrameData(0, 7)` that follows
succeeds and leaves the error set. -/
theorem C35_sticky_error_witness :
    ((SimpleZigBeePacket.constructDefault [] true).getFrameData 0).2.getErrorCode
        = FRAME_LENGTH_EXCEEDED
      ∧ (PacketCall.run ((SimpleZigBeePacket.constructDefault [] true).getFrameData 0).2
          (PacketCall.setFrameData 0 7)).isError = true :=
  ⟨by decide,
    (C35_sticky_error ((SimpleZigBeePacket.constructDefault [] true).getFrameData 0).2
      (PacketCall.setFrameData 0 7) (by decide) (by decide)).1⟩

/-! ## Lemmas on the array write of no bytes -/

/-- The array write of no bytes is a growth request for `startIndex + 9` bytes
followed by raising the frame length to `startIndex`. -/
theorem SimpleZigBeePacket.setFrameDataArray_zero (p : SimpleZigBeePacket) (start : Int)
    (bytes : List Nat) (hs : start ≤ p.maxFrameLength) :
    p.setFrameDataArray start bytes 0
      = if start > p.frameLength then (p.expandMemoryArray (start + 9)).setFrameLength start
        else p.expandMemoryArray (start + 9) := by
  have h1 : start + (0 - 1) < p.maxFrameLength := by omega
  have e9 : start + (0 - 1) + 10 = start + 9 := by omega
  have e1 : start + (0 - 1) + 1 = start := by omega
  obtain ⟨_, k2, _, _⟩ := SimpleZigBeePacket.expandMemoryArray_keeps p (start + 9)
  unfold SimpleZigBeePacket.setFrameDataArray SimpleZigBeePacket.getMaxFrameLength
  simp only [h1, if_true, e9, e1, Int.toNat_zero, List.take_zero,
    SimpleZigBeePacket.setFrameDataLoop, SimpleZigBeePacket.getFrameLength, k2]

/-- C36, as stated, fails: on a default-constructed packet (frame length 0,
capacity 20) `setFrameData(5, bytes, 0)` raises the frame length to 5, and
`setFrameData(15, bytes, 0)` raises it to 15 and grows the block to 24 bytes;
when the allocator refuses, the latter call records `ERROR_REALLOCATING_MEMORY`. -/
theorem C36_empty_span_counterexample :
    (SimpleZigBeePacket.constructDefault [] true).getFrameLength = 0
      ∧ (SimpleZigBeePacket.constructDefault [] true).memoryArrayLength = 20
      ∧ ((SimpleZigBeePacket.constructDefault [] true).setFrameDataArray 5 [] 0).getFrameLength
          = 5
      ∧ ((SimpleZigBeePacket.constructDefault [] true).setFrameDataArray 15 [1, 2]
          0).getFrameLength = 15
      ∧ ((SimpleZigBeePacket.constructDefault [] true).setFrameDataArray 15 [1, 2]
          0).memoryArrayLength = 24
      ∧ (SimpleZigBeePacket.constructDefault [] false).getErrorCode = NO_ERROR
      ∧ ((SimpleZigBeePacket.constructDefault [] false).setFrameDataArray 15 [1, 2]
          0).getErrorCode = ERROR_REALLOCATING_MEMORY := by
  decide!

/-- C36 (amended).  For every packet state and every start index with
`start <= maxFrameLength`, `setFrameData(start, bytes, 0)` stores no byte: the
limit, the checksum and every byte of the block are unchanged.  But it raises
the frame length to `max(frameLength, start)`, and it requests `start + 9` bytes
for the block: when `capacity < start + 9 <= maxFrameLength`, the capacity becomes
`start + 9` with the error code unchanged if the allocator grants the request,
and the error code becomes `ERROR_REALLOCATING_MEMORY` with the capacity
unchanged if it refuses; otherwise capacity and error code are unchanged. -/
theorem C36_empty_span (p : SimpleZigBeePacket) (start : Int) (bytes : List Nat)
    (hs : start ≤ p.getMaxFrameLength) :
    (p.setFrameDataArray start bytes 0).getFrameLength = max p.getFrameLength start
      ∧ (p.setFrameDataArray start bytes 0).getMaxFrameLength = p.getMaxFrameLength
      ∧ (p.setFrameDataArray start bytes 0).getChecksum = p.getChecksum
      ∧ (∀ j : Int, 0 ≤ j → j < p.memoryArrayLength →
          (p.setFrameDataArray start bytes 0).getMemoryData j = p.getMemoryData j)
      ∧ (p.memoryArrayLength < start + 9 → start + 9 ≤ p.getMaxFrameLength →
          p.reallocSucceeds = true →
          (p.setFrameDataArray start bytes 0).memoryArrayLength = start + 9
            ∧ (p.setFrameDataArray start bytes 0).getErrorCode = p.getErrorCode)
      ∧ (p.memoryArrayLength < start + 9 → start + 9 ≤ p.getMaxFrameLength →
          p.reallocSucceeds = false →
          (p.setFrameDataArray start bytes 0).memoryArrayLength = p.memoryArrayLength
            ∧ (p.setFrameDataArray start bytes 0).getErrorCode = ERROR_REALLOCATING_MEMORY)
      ∧ (¬ (p.memoryArrayLength < start + 9 ∧ start + 9 ≤ p.getMaxFrameLength) →
          (p.setFrameDataArray start bytes 0).ptrMemoryArray = p.ptrMemoryArray
            ∧ (p.setFrameDataArray start bytes 0).getErrorCode = p.getErrorCode) := by
  have hs2 : start ≤ p.maxFrameLength := hs
  obtain ⟨k1, k2, _, k4⟩ := SimpleZigBeePacket.expandMemoryArray_keeps p (start + 9)
  obtain ⟨_, b2, _⟩ := SimpleZigBeePacket.expandMemoryArray_bounds p (start + 9)
  have hfield : ∀ q : SimpleZigBeePacket,
      (if start > p.frameLength then q.setFrameLength start else q).maxFrameLength
          = q.maxFrameLength
        ∧ (if start > p.frameLength then q.setFrameLength start else q).checksum = q.checksum
        ∧ (if start > p.frameLength then q.setFrameLength start else q).errorCode
            = q.errorCode
        ∧ (if start > p.frameLength then q.setFrameLength start else q).ptrMemoryArray
            = q.ptrMemoryArray := by
    intro q
    split_ifs
    · exact ⟨rfl, rfl, rfl, rfl⟩
    · exact ⟨rfl, rfl, rfl, rfl⟩
  obtain ⟨f1, f2, f3, f4⟩ := hfield (p.expandMemoryArray (start + 9))
  have hmem : ∀ j : Int, (p.setFrameDataArray start bytes 0).getMemoryData j
      = (p.expandMemoryArray (start + 9)).getMemoryData j := by
    intro j
    rw [SimpleZigBeePacket.setFrameDataArray_zero p start bytes hs2]
    simp only [SimpleZigBeePacket.getMemoryData, SimpleZigBeePacket.memoryArrayLength,
      SimpleZigBeePacket.load, f4]
  have hcap : (p.setFrameDataArray start bytes 0).memoryArrayLength
      = (p.expandMemoryArray (start + 9)).memoryArrayLength := by
    rw [SimpleZigBeePacket.setFrameDataArray_zero p start bytes hs2]
    simp only [SimpleZigBeePacket.memoryArrayLength, f4]
  have herr : (p.setFrameDataArray start bytes 0).errorCode
      = (p.expandMemoryArray (start + 9)).errorCode := by
    rw [SimpleZigBeePacket.setFrameDataArray_zero p start bytes hs2]
    exact f3
  refine ⟨?_, ?_, ?_, ?_, ?_, ?_, ?_⟩
  · rw [SimpleZigBeePacket.setFrameDataArray_zero p start bytes hs2]
    unfold SimpleZigBeePacket.getFrameLength
    split_ifs with h
    · simp only [SimpleZigBeePacket.setFrameLength]
      omega
    · rw [k2]
      omega
  · rw [SimpleZigBeePacket.setFrameDataArray_zero p start bytes hs2]
    unfold SimpleZigBeePacket.getMaxFrameLength
    rw [f1, k1]
  · rw [SimpleZigBeePacket.setFrameDataArray_zero p start bytes hs2]
    unfold SimpleZigBeePacket.getChecksum
    rw [f2, b2]
  · intro j hj0 hjc
    rw [hmem j, k4 j hj0 hjc]
  · intro h1 h2 h3
    obtain ⟨_, _, _, _, g5, g6, _⟩ :=
      SimpleZigBeePacket.expandMemoryArray_grows p (start + 9) h3 h1 h2
    unfold SimpleZigBeePacket.getErrorCode
    rw [hcap, herr, g5, g6]
    exact ⟨rfl, rfl⟩
  · intro h1 h2 h3
    have e : p.expandMemoryArray (start + 9)
        = p.setErrorCode ERROR_REALLOCATING_MEMORY := by
      have hsz : start + 9 > p.memoryArrayLength ∧ start + 9 ≤ p.maxFrameLength := ⟨h1, h2⟩
      unfold SimpleZigBeePacket.expandMemoryArray SimpleZigBeePacket.getMaxFrameLength
      simp only [hsz, h3, if_true, and_self, Bool.false_eq_true, if_false]
    unfold SimpleZigBeePacket.getErrorCode
    rw [hcap, herr, e]
    exact ⟨rfl, rfl⟩
  · intro h
    have e : p.expandMemoryArray (start + 9) = p := by
      unfold SimpleZigBeePacket.expandMemoryArray
      rw [if_neg]
      intro hh
      exact h ⟨hh.1, hh.2⟩
    unfold SimpleZigBeePacket.getErrorCode
    rw [herr]
    rw [SimpleZigBeePacket.setFrameDataArray_zero p start bytes hs2, f4, e]
    exact ⟨rfl, rfl⟩

/-- Witness of C36: the default-constructed packet and `setFrameData(15, bytes, 0)`:
the frame length becomes 15 and the block grows from 20 to 24 bytes. -/
theorem C36_empty_span_witness :
    ((SimpleZigBeePacket.constructDefault [] true).setFrameDataArray 15 [1, 2]
        0).getFrameLength
        = max (SimpleZigBeePacket.constructDefault [] true).getFrameLength 15
      ∧ ((SimpleZigBeePacket.constructDefault [] true).setFrameDataArray 15 [1, 2]
          0).memoryArrayLength = 15 + 9 :=
  have h := C36_empty_span (SimpleZigBeePacket.constructDefault [] true) 15 [1, 2]
    (by decide)
  ⟨h.1, (h.2.2.2.2.1 (by decide) (by decide) (by decide)).1⟩

/-- C38 (round trip inside the decodable range).  On a default-constructed
session (limit 50, capacity 20, escaped mode; whatever the fresh blocks hold),
for every packet with `0 <= frameLength <= 47`: `sendPacket` writes the escaped
wire format of its frame; feeding that output to the freshly reset decoder in
one call consumes all of it and yields a complete packet with `NoError`, the same
frame length and the same frame bytes.  The frame bytes, the length byte and the
checksum are arbitrary, so they may take the reserved values. -/
theorem C38_round_trip_default_session (junkIn junkOut : List Nat)
    (p : SimpleZigBeePacket) (h0 : 0 ≤ p.getFrameLength) (h47 : p.getFrameLength ≤ 47) :
    (SimpleZigBeeRadio.constructDefault junkIn junkOut true).escaped_mode = true
      ∧ (SimpleZigBeeRadio.constructDefault junkIn junkOut
          true).incoming_packet.getMaxFrameLength = 50
      ∧ (SimpleZigBeeRadio.constructDefault junkIn junkOut
          true).incoming_packet.memoryArrayLength = 20
      ∧ ((SimpleZigBeeRadio.constructDefault junkIn junkOut true).sendPacket p).2
          = wireFormat true p.getFrameLength (frameBytes p)
      ∧ ((SimpleZigBeeRadio.constructDefault junkIn junkOut true).resetIncoming.read
          ((SimpleZigBeeRadio.constructDefault junkIn junkOut true).sendPacket p).2).2 = []
      ∧ ((SimpleZigBeeRadio.constructDefault junkIn junkOut true).resetIncoming.read
          ((SimpleZigBeeRadio.constructDefault junkIn junkOut true).sendPacket
            p).2).1.isComplete = true
      ∧ ((SimpleZigBeeRadio.constructDefault junkIn junkOut true).resetIncoming.read
          ((SimpleZigBeeRadio.constructDefault junkIn junkOut true).sendPacket
            p).2).1.incoming_packet.getErrorCode = NO_ERROR
      ∧ ((SimpleZigBeeRadio.constructDefault junkIn junkOut true).resetIncoming.read
          ((SimpleZigBeeRadio.constructDefault junkIn junkOut true).sendPacket
            p).2).1.incoming_packet.getFrameLength = p.getFrameLength
      ∧ frameBytes ((SimpleZigBeeRadio.constructDefault junkIn junkOut true).resetIncoming.read
          ((SimpleZigBeeRadio.constructDefault junkIn junkOut true).sendPacket
            p).2).1.incoming_packet = frameBytes p := by
  have hL0 : 0 ≤ p.frameLength := h0
  have hL47 : p.frameLength ≤ 47 := h47
  have hcast : ((frameBytes p).length : Int) = p.frameLength := by
    rw [frameBytes_length]
    omega
  have hmode : (SimpleZigBeeRadio.constructDefault junkIn junkOut true).escaped_mode = true :=
    rfl
  have hmax : (SimpleZigBeeRadio.constructDefault junkIn junkOut
      true).incoming_packet.maxFrameLength = 50 := rfl
  have hcap : (SimpleZigBeeRadio.constructDefault junkIn junkOut
      true).incoming_packet.memoryArrayLength = 20 := by
    simp [SimpleZigBeeRadio.constructDefault, SimpleZigBeeRadio.construct,
      SimpleZigBeeRadio.reset, SimpleZigBeeRadio.resetIncoming,
      SimpleZigBeeRadio.resetOutgoing, SimpleZigBeePacket.reset,
      SimpleZigBeePacket.constructDefault, SimpleZigBeePacket.construct,
      SimpleZigBeePacket.init, SimpleZigBeePacket.memoryArrayLength]
  obtain ⟨hg, hr, _, _⟩ := SimpleZigBeeRadio.construct_inv true junkIn junkOut
  have hw : ((SimpleZigBeeRadio.constructDefault junkIn junkOut true).sendPacket p).2
      = wireFormat true p.frameLength (frameBytes p) := by
    rw [SimpleZigBeeRadio.sendPacket_eq, hmode]
  have hobs := SimpleZigBeeRadio.read_wire_obs
    (SimpleZigBeeRadio.constructDefault junkIn junkOut true) (frameBytes p) []
    (frameBytes_lt p)
    (by
      rw [frameBytes_length]
      omega)
    (by
      rw [hcast, hmax]
      omega) hg hr
  rw [hcast, hmode, List.append_nil, ← hw] at hobs
  obtain ⟨o1, o2, o3, o4, o5, _⟩ := hobs
  exact ⟨hmode, hmax, hcap, hw, o1, o2, o3, o4, o5⟩

/-- Witness of C38: the default session sends and decodes the 17-byte frame
`7E 7D 11 13 62 00 .. 00`, whose bytes include the four reserved values, whose
length byte is `0x11` and whose checksum is `0x7E`; the output holds six escape
pairs. -/
theorem C38_round_trip_default_session_witness :
    (defaultSession.sendPacket
        ((SimpleZigBeePacket.constructDefault [] true).setFrameDataArray 0
          [0x7E, 0x7D, 0x11, 0x13, 0x62, 0, 0, 0, 0, 0, 0, 0, 0, 0, 0, 0, 0] 17)).2
        = [0x7E, 0x00, 0x7D, 0x31, 0x7D, 0x5E, 0x7D, 0x5D, 0x7D, 0x31, 0x7D, 0x33, 0x62,
            0, 0, 0, 0, 0, 0, 0, 0, 0, 0, 0, 0, 0x7D, 0x5E]
      ∧ ((SimpleZigBeeRadio.constructDefault [] [] true).resetIncoming.read
          ((SimpleZigBeeRadio.constructDefault [] [] true).sendPacket
            ((SimpleZigBeePacket.constructDefault [] true).setFrameDataArray 0
              [0x7E, 0x7D, 0x11, 0x13, 0x62, 0, 0, 0, 0, 0, 0, 0, 0, 0, 0, 0, 0]
              17)).2).1.isComplete = true
      ∧ frameBytes ((SimpleZigBeeRadio.constructDefault [] [] true).resetIncoming.read
          ((SimpleZigBeeRadio.constructDefault [] [] true).sendPacket
            ((SimpleZigBeePacket.constructDefault [] true).setFrameDataArray 0
              [0x7E, 0x7D, 0x11, 0x13, 0x62, 0, 0, 0, 0, 0, 0, 0, 0, 0, 0, 0, 0]
              17)).2).1.incoming_packet
          = frameBytes ((SimpleZigBeePacket.constructDefault [] true).setFrameDataArray 0
              [0x7E, 0x7D, 0x11, 0x13, 0x62, 0, 0, 0, 0, 0, 0, 0, 0, 0, 0, 0, 0] 17) :=
  have h := C38_round_trip_default_session [] []
    ((SimpleZigBeePacket.constructDefault [] true).setFrameDataArray 0
      [0x7E, 0x7D, 0x11, 0x13, 0x62, 0, 0, 0, 0, 0, 0, 0, 0, 0, 0, 0, 0] 17)
    (by decide!) (by decide!)
  ⟨by decide!, h.2.2.2.2.2.1, h.2.2.2.2.2.2.2.2⟩

/-! ## Lemmas on input without a start byte -/

namespace SimpleZigBeeRadio

/-- At cursor 0 a byte other than `START` records `PACKET_INCOMPLETE` and the
loop goes on. -/
theorem readDispatch_junk (r : SimpleZigBeeRadio) (h0 : r.in_index = 0)
    (hb : r.in_byte ≠ START) :
    r.readDispatch = (r.setIncomingErrorCode PACKET_INCOMPLETE, false) := by
  have hb2 : ¬ (START = r.in_byte) := fun e => hb e.symm
  simp [readDispatch, h0, hb2, FRAME_TYPE_INDEX]

/-- From cursor 0 with no escape pending, the loop consumes input that holds no
`START` byte to its end, leaves the cursor at 0 and records
`PACKET_INCOMPLETE`. -/
theorem readLoop_junk (s : List Nat) :
    ∀ (r : SimpleZigBeeRadio) (b : Nat), r.in_index = 0 → r.in_escaping = false →
      b % 256 ≠ START → (∀ x ∈ s, x % 256 ≠ START) →
      (r.readLoop (b :: s)).2 = []
        ∧ (r.readLoop (b :: s)).1.in_index = 0
        ∧ (r.readLoop (b :: s)).1.in_complete = r.in_complete
        ∧ (r.readLoop (b :: s)).1.incoming_packet
            = r.incoming_packet.setErrorCode PACKET_INCOMPLETE := by
  induction s with
  | nil =>
    intro r b h0 he hb _
    have hd := readDispatch_junk ({ r with in_byte := b % 256 } : SimpleZigBeeRadio) h0 hb
    rw [readLoop_plain r b [] (Or.inr ⟨he, Or.inr (le_of_eq h0)⟩), hd]
    simp only [Bool.false_eq_true, if_false, readLoop_nil]
    exact ⟨trivial, h0, rfl, rfl⟩
  | cons c s ih =>
    intro r b h0 he hb hs
    have hd := readDispatch_junk ({ r with in_byte := b % 256 } : SimpleZigBeeRadio) h0 hb
    rw [readLoop_plain r b (c :: s) (Or.inr ⟨he, Or.inr (le_of_eq h0)⟩), hd]
    simp only [Bool.false_eq_true, if_false]
    obtain ⟨i1, i2, i3, i4⟩ :=
      ih (({ r with in_byte := b % 256 } : SimpleZigBeeRadio).setIncomingErrorCode
        PACKET_INCOMPLETE) c h0 he (hs c (List.mem_cons_self _ _))
        (fun x hx => hs x (List.mem_cons_of_mem _ hx))
    exact ⟨i1, i2, i3, i4⟩

end SimpleZigBeeRadio

/-- C39 (accessor reads interfere with a decode in progress).  Let the decoder
hold a partially received, error-free packet (not complete, error code
`NoError`).  Without interference the next `read()` with bytes available continues
from the state it is in.  A read of the incoming packet at an index not below
its frame length returns 0 and records `FRAME_LENGTH_EXCEEDED`; so do
`getIncomingFrameType()` and `isRX()` while the frame length is still 0.  After it
the next `read()` with bytes available runs from the reset state: packet reset,
cursor 0, running checksum 0, the bytes already received discarded.  When the
bytes available hold no `START` byte, as the continuation of a frame in escaped
mode does, that call consumes them all and ends with the cursor at 0, not
complete, with `PACKET_INCOMPLETE`. -/
theorem C39_accessor_read_interferes (r : SimpleZigBeeRadio) (s : List Nat) (i : Int)
    (hc : r.isComplete = false) (he : r.incoming_packet.getErrorCode = NO_ERROR)
    (hi : r.incoming_packet.getFrameLength ≤ i) (hs : s ≠ []) :
    r.read s = r.readLoop s
      ∧ r.incoming_packet.getFrameData i
          = (0, r.incoming_packet.setErrorCode FRAME_LENGTH_EXCEEDED)
      ∧ ({ r with incoming_packet := (r.incoming_packet.getFrameData i).2 }
            : SimpleZigBeeRadio) = r.setIncomingErrorCode FRAME_LENGTH_EXCEEDED
      ∧ (r.incoming_packet.getFrameLength ≤ 0 →
          r.getIncomingFrameType = (0, r.setIncomingErrorCode FRAME_LENGTH_EXCEEDED)
            ∧ r.isRX = (false, r.setIncomingErrorCode FRAME_LENGTH_EXCEEDED))
      ∧ (r.setIncomingErrorCode FRAME_LENGTH_EXCEEDED).incoming_packet.getErrorCode
          = FRAME_LENGTH_EXCEEDED
      ∧ (r.setIncomingErrorCode FRAME_LENGTH_EXCEEDED).read s = r.resetIncoming.readLoop s
      ∧ r.resetIncoming.incoming_packet = r.incoming_packet.reset
      ∧ r.resetIncoming.incoming_packet.getFrameLength = 0
      ∧ r.resetIncoming.in_index = 0
      ∧ r.resetIncoming.in_checksum = 0
      ∧ ((∀ x ∈ s, x % 256 ≠ START) →
          ((r.setIncomingErrorCode FRAME_LENGTH_EXCEEDED).read s).2 = []
            ∧ ((r.setIncomingErrorCode FRAME_LENGTH_EXCEEDED).read s).1.in_index = 0
            ∧ ((r.setIncomingErrorCode FRAME_LENGTH_EXCEEDED).read s).1.isComplete = false
            ∧ ((r.setIncomingErrorCode
                FRAME_LENGTH_EXCEEDED).read s).1.incoming_packet.getErrorCode
                = PACKET_INCOMPLETE) := by
  have he2 : r.incoming_packet.errorCode = 0 := he
  have hc2 : r.in_complete = false := hc
  have hget : ∀ j : Int, r.incoming_packet.getFrameLength ≤ j →
      r.incoming_packet.getFrameData j
        = (0, r.incoming_packet.setErrorCode FRAME_LENGTH_EXCEEDED) := by
    intro j hj
    have h : ¬ j < r.incoming_packet.getFrameLength := by omega
    simp only [SimpleZigBeePacket.getFrameData, h, if_false]
  have hread : (r.setIncomingErrorCode FRAME_LENGTH_EXCEEDED).read s
      = r.resetIncoming.readLoop s := by
    have h := SimpleZigBeeRadio.read_terminal (r.setIncomingErrorCode FRAME_LENGTH_EXCEEDED) s
      hs (Or.inr (by simp [SimpleZigBeeRadio.setIncomingErrorCode,
        SimpleZigBeePacket.setErrorCode, SimpleZigBeePacket.isError, FRAME_LENGTH_EXCEEDED]))
      (by simp [SimpleZigBeeRadio.setIncomingErrorCode, SimpleZigBeePacket.setErrorCode,
        SimpleZigBeePacket.getErrorCode, FRAME_LENGTH_EXCEEDED, UNEXPECTED_PACKET_START])
    rw [h]
    rfl
  refine ⟨?_, hget i hi, ?_, ?_, rfl, hread, rfl, rfl, rfl, rfl, ?_⟩
  · unfold SimpleZigBeeRadio.read
    rw [if_pos hs]
    simp [SimpleZigBeePacket.isError, SimpleZigBeeRadio.isComplete, he2, hc2]
  · rw [hget i hi]
    rfl
  · intro h0
    have e : r.getIncomingFrameType
        = (0, r.setIncomingErrorCode FRAME_LENGTH_EXCEEDED) := by
      unfold SimpleZigBeeRadio.getIncomingFrameType SimpleZigBeePacket.getFrameType
      rw [hget 0 h0]
      rfl
    refine ⟨e, ?_⟩
    unfold SimpleZigBeeRadio.isRX
    rw [e]
    rfl
  · intro hx
    rw [hread]
    cases s with
    | nil => exact absurd rfl hs
    | cons b t =>
      obtain ⟨j1, j2, j3, j4⟩ := SimpleZigBeeRadio.readLoop_junk t r.resetIncoming b rfl rfl
        (hx b (List.mem_cons_self _ _)) (fun x h => hx x (List.mem_cons_of_mem _ h))
      refine ⟨j1, j2, ?_, ?_⟩
      · unfold SimpleZigBeeRadio.isComplete
        rw [j3]
        rfl
      · rw [j4]
        rfl

/-- Witness of C39: the default session has read `7E 00`, the start and the
first length byte of the packet `7E 00 02 8A 06 6F`, and the frame length is
still 0.  Reading the remaining bytes `02 8A 06 6F` completes the packet; after
an out-of-range read at index 0 the same call ends incomplete at cursor 0. -/
theorem C39_accessor_read_interferes_witness :
    (defaultSession.read [0x7E, 0x00]).1.incoming_packet.getFrameLength = 0
      ∧ ((defaultSession.read [0x7E, 0x00]).1.read [0x02, 0x8A, 0x06, 0x6F]).1.isComplete
          = true
      ∧ (defaultSession.read [0x7E, 0x00]).1.getIncomingFrameType
          = (0, (defaultSession.read [0x7E, 0x00]).1.setIncomingErrorCode
              FRAME_LENGTH_EXCEEDED)
      ∧ (((defaultSession.read [0x7E, 0x00]).1.setIncomingErrorCode
            FRAME_LENGTH_EXCEEDED).read [0x02, 0x8A, 0x06, 0x6F]).1.isComplete = false
      ∧ (((defaultSession.read [0x7E, 0x00]).1.setIncomingErrorCode
            FRAME_LENGTH_EXCEEDED).read [0x02, 0x8A, 0x06, 0x6F]).1.in_index = 0 :=
  have h := C39_accessor_read_interferes (defaultSession.read [0x7E, 0x00]).1
    [0x02, 0x8A, 0x06, 0x6F] 0 (by decide!) (by decide!) (by decide!) (by decide)
  have h2 := h.2.2.2.2.2.2.2.2.2.2 (by decide)
  ⟨by decide!, by decide!, (h.2.2.2.1 (by decide!)).1, h2.2.2.1, h2.2.1⟩

/-! ## Lemmas on decoding a frame that does not fit -/

namespace SimpleZigBeeRadio

end SimpleZigBeeRadio

namespace SimpleZigBeeRadio

end SimpleZigBeeRadio

end SimpleZigBee
